import Mathlib

/-!
Xe ioctl helper: binding table, bind and unbind, close, fence waits, topology
aggregation and parsing, engine resolution, context creation and destruction,
execute, object creation and the hardware-config query.

Shallow embedding of `shared/source/os_interface/linux/xe/ioctl_helper_xe.cpp`.

* The helper object is the record `IoctlHelperXe`; every member function takes the
  object and returns the updated object next to its C++ return value.
* The kernel channel (`IoctlHelper::ioctl` of the base class) is an oracle `Driver`:
  it sees the requests issued so far and the current request and answers with a
  status and, for object creation, the handle written back.  Every request that
  reaches the kernel is appended to the field `trace`, so "issues no driver
  request" is `trace` unchanged.
* `UNRECOVERABLE_IF` aborts the process: functions that can reach one return
  `Option`, with `none` for the abort, or `Outcome` when the abort can follow a
  request, so that the helper at the moment of the abort stays visible.
* Machine integers are natural numbers, reduced modulo 2^32 or 2^64 where the
  modelled code can wrap: the post-increment of the 32-bit counter
  `userPtrHandle`, the 64-bit batch address and 32-bit queue id of `execBuffer`,
  the `int32_t` size of the hardware-config table, and the item size and
  remaining-size counter of the topology parsing loop.
* Loops whose termination is part of a property take a bound on the number of
  iterations as their first argument and return `none` when it is used up.
* The mutex `xeLock` is not part of the state; the order of lock, table access,
  request and wait events of the operations that touch the table is kept as
  lists of `TableEvent`.
-/

namespace NEO

/-! ## Constants of the source file -/

/-- Value of the macro XE_USERPTR_FAKE_FLAG (line 40). -/
def XE_USERPTR_FAKE_FLAG : Nat := 0x800000

/-- Value of the macro XE_USERPTR_FAKE_MASK (line 41). -/
def XE_USERPTR_FAKE_MASK : Nat := 0x7FFFFF

/-- Value of the macro XE_FIND_INVALID_INSTANCE (line 35). -/
def XE_FIND_INVALID_INSTANCE : Nat := 16

/-! ## Kernel interface (uapi structures, kept symbolic where the header fixes numbers) -/

/-- Operation codes of a bind request (XE_VM_BIND_OP_*). -/
inductive BindOp where
  | map
  | unmap
  | mapUserptr
  | unmapAll
  | prefetch
  deriving DecidableEq, Repr

/-- Flags of a bind operation (XE_VM_BIND_FLAG_*). -/
inductive BindFlag where
  | readonly
  | async
  | immediate
  | null
  deriving DecidableEq, Repr

/-- Flag bits of a sync entry (DRM_XE_SYNC_*); a sync entry carries the set OR-ed together. -/
inductive SyncFlag where
  | userFence
  | signal
  deriving DecidableEq, Repr

/-- Comparison codes of a user-fence wait (DRM_XE_UFENCE_WAIT_EQ, _GTE, ...). -/
inductive WaitOp where
  | eq
  | neq
  | gt
  | gte
  | lt
  | lte
  deriving DecidableEq, Repr

/-- Width masks of a user-fence wait (DRM_XE_UFENCE_WAIT_U8 .. _U64). -/
inductive WaitMask where
  | u8
  | u16
  | u32
  | u64
  deriving DecidableEq, Repr

/-- The struct drm_xe_sync, fields used by the helper. -/
structure DrmXeSync where
  flags : List SyncFlag
  addr : Nat
  timeline_value : Nat
  deriving DecidableEq, Repr

/-- The struct drm_xe_vm_bind with its single embedded bind operation. -/
structure DrmXeVmBind where
  vm_id : Nat
  num_binds : Nat
  num_syncs : Nat
  syncs : List DrmXeSync
  range : Nat
  addr : Nat
  flags : BindFlag
  obj_offset : Nat
  op : BindOp
  obj : Nat
  deriving DecidableEq, Repr

/-- The struct drm_xe_wait_user_fence. -/
structure DrmXeWaitUserFence where
  addr : Nat
  op : WaitOp
  softOp : Bool
  value : Nat
  mask : WaitMask
  timeout : Int
  num_engines : Nat
  instances : Nat
  deriving DecidableEq, Repr

/-- The struct drm_xe_gem_create as passed to the kernel (handle is the out field). -/
structure DrmXeGemCreate where
  size : Nat
  flags : Nat
  vm_id : Nat
  deriving DecidableEq, Repr

/-- The struct drm_xe_engine_class_instance: one engine as discovery reports it. -/
structure DrmXeEngineClassInstance where
  engine_class : Nat
  engine_instance : Nat
  gt_id : Nat
  deriving DecidableEq, Repr

/-- The struct drm_xe_exec_queue_create as passed to the kernel (exec_queue_id is the out
field); instances is the array the pointer field refers to. -/
structure DrmXeExecQueueCreate where
  vm_id : Nat
  width : Nat
  num_placements : Nat
  instances : List DrmXeEngineClassInstance
  deriving DecidableEq, Repr

/-- The struct drm_xe_exec, fields set by execBuffer; syncs is the array the pointer field
refers to. -/
structure DrmXeExec where
  exec_queue_id : Nat
  num_syncs : Nat
  syncs : List DrmXeSync
  address : Nat
  num_batch_buffer : Nat
  deriving DecidableEq, Repr

/-- Requests that reach the kernel channel through the base-class ioctl. -/
inductive DrmRequest where
  | gemCreate (create : DrmXeGemCreate)
  | gemClose (handle : Nat)
  | gemVmBind (bind : DrmXeVmBind)
  | gemWaitUserFence (wait : DrmXeWaitUserFence)
  | gemContextCreateExt (create : DrmXeExecQueueCreate)
  | gemExecbuffer2 (exec : DrmXeExec)
  | gemContextDestroy (exec_queue_id : Nat)
  deriving DecidableEq, Repr

/-- Answer of the kernel: the ioctl status, the handle written into the argument of an
object creation, and the exec_queue_id written into the argument of a context creation. -/
structure DrmReply where
  ret : Int
  handle : Nat
  exec_queue_id : Nat := 0
  deriving DecidableEq, Repr

/-- The kernel driver as an oracle: requests seen so far, current request, answer. -/
abbrev Driver := List DrmRequest → DrmRequest → DrmReply

/-! ## Helper object -/

/-- The struct BindInfo: one record of the binding table. -/
structure BindInfo where
  handle : Nat
  userptr : Nat
  addr : Nat
  size : Nat
  deriving DecidableEq, Repr

/-- State of the helper object: the vector bindInfo and the 32-bit counter userPtrHandle of
the binding table, the log of kernel requests, the discovered engines allEngines, the
explicit engine list contextParamEngine, defaultEngine, a pointer to an element of
allEngines kept as its position (none is nullptr), and the vector hwconfigFakei915 of
32-bit words. -/
structure IoctlHelperXe where
  bindInfo : List BindInfo
  userPtrHandle : Nat
  trace : List DrmRequest
  allEngines : List DrmXeEngineClassInstance := []
  contextParamEngine : List DrmXeEngineClassInstance := []
  defaultEngine : Option Nat := none
  hwconfigFakei915 : List Nat := []
  deriving DecidableEq, Repr

/-- The user-fence extension a caller attaches to bind parameters. -/
structure UserFenceExtension where
  tag : Nat
  addr : Nat
  value : Nat
  deriving DecidableEq, Repr

/-- The constant UserFenceExtension::tagValue; declared in the helper's header. No result
below depends on the number. -/
def UserFenceExtension.tagValue : Nat := 0x123987

/-- The struct VmBindParams; a null extensions pointer is none. -/
structure VmBindParams where
  vmId : Nat
  handle : Nat
  start : Nat
  offset : Nat
  length : Nat
  flags : Nat
  extensions : Option UserFenceExtension
  deriving DecidableEq, Repr

/-- The macro XE_ONE_SEC of the helper's header (one second in nanoseconds). No result below
depends on the number. -/
def XE_ONE_SEC : Int := 1000000000

/-- Base-class IoctlHelper::ioctl: hand the request to the kernel and log it. -/
def IoctlHelper.ioctl (drv : Driver) (xe : IoctlHelperXe) (req : DrmRequest) :
    DrmReply × IoctlHelperXe :=
  (drv xe.trace req, { xe with trace := xe.trace ++ [req] })

/-- The search loops over bindInfo (lines 1118-1123, 1299-1304, 1308-1313): index of the
first record satisfying the test (the loop breaks there), none for the initial value -1. -/
def xeFindIndex (p : BindInfo → Bool) : List BindInfo → Option Nat
  | [] => none
  | b :: bs => if p b then some 0 else (xeFindIndex p bs).map (· + 1)

/-- The assignment bindInfo[index].addr = value. -/
def xeSetAddr (value : Nat) : Nat → List BindInfo → List BindInfo
  | _, [] => []
  | 0, b :: bs => { b with addr := value } :: bs
  | i + 1, b :: bs => b :: xeSetAddr value i bs

/-- Members of the enum Drm::ValueWidth (declared in drm_neo.h), as the numbers that
waitUserFence receives in dataWidth. Only their being distinct is used. -/
def Drm.ValueWidth.U8 : Nat := 0

/-- See Drm.ValueWidth.U8. -/
def Drm.ValueWidth.U16 : Nat := 1

/-- See Drm.ValueWidth.U8. -/
def Drm.ValueWidth.U32 : Nat := 2

/-- See Drm.ValueWidth.U8. -/
def Drm.ValueWidth.U64 : Nat := 3

/-- The constant TimeoutControls::maxTimeout, the largest 64-bit signed value. -/
def TimeoutControls.maxTimeout : Int := 2 ^ 63 - 1

/-- Engine classes of the uapi header (DRM_XE_ENGINE_CLASS_*). -/
def DRM_XE_ENGINE_CLASS_RENDER : Nat := 0

/-- See DRM_XE_ENGINE_CLASS_RENDER. -/
def DRM_XE_ENGINE_CLASS_COPY : Nat := 1

/-- See DRM_XE_ENGINE_CLASS_RENDER. -/
def DRM_XE_ENGINE_CLASS_VIDEO_DECODE : Nat := 2

/-- See DRM_XE_ENGINE_CLASS_RENDER. -/
def DRM_XE_ENGINE_CLASS_VIDEO_ENHANCE : Nat := 3

/-- See DRM_XE_ENGINE_CLASS_RENDER. -/
def DRM_XE_ENGINE_CLASS_COMPUTE : Nat := 4

/-- The struct DrmQueryTopologyData (int members), zero-initialised by default. -/
structure DrmQueryTopologyData where
  sliceCount : Int := 0
  subSliceCount : Int := 0
  euCount : Int := 0
  maxSliceCount : Int := 0
  maxSubSliceCount : Int := 0
  maxEuPerSubSlice : Int := 0
  deriving DecidableEq, Repr

/-- The three mask vectors of one tile, geomDss[tileId], computeDss[tileId] and
euDss[tileId]; every element is one mask byte held in a std::bitset<8>. -/
structure TileMasks where
  geomDss : List Nat
  computeDss : List Nat
  euDss : List Nat
  deriving DecidableEq, Repr

/-- Local variables and reference parameters that the tile loop of getTopologyData
updates. -/
structure TopologyScan where
  subSliceCount : Int
  euPerDss : Int
  topologyData : DrmQueryTopologyData
  isComputeDssEmpty : Bool
  deriving DecidableEq, Repr

/-- The value drm.bindDrmContext returns to createDrmContext, as the switch of lines
1234-1247 distinguishes it: one of the three DrmParam::Exec* values or anything else. -/
inductive EngineFlag where
  | execRender
  | execBlt
  | execDefault
  | unexpected
  deriving DecidableEq, Repr

/-- Result of a function that can reach UNRECOVERABLE_IF after it has talked to the kernel:
a returned value with the helper, or the abort with the helper as it was at that point. -/
inductive Outcome (α : Type) where
  | ok (value : α) (xe : IoctlHelperXe)
  | unrecoverable (xe : IoctlHelperXe)
  deriving DecidableEq, Repr

/-- The struct drm_i915_gem_exec_object2, the field execBuffer reads. -/
structure DrmI915GemExecObject2 where
  offset : Nat
  deriving DecidableEq, Repr

/-- The struct drm_i915_gem_execbuffer2 held in ExecBuffer::data, the fields execBuffer
reads; buffers_ptr is the first object of the array the pointer refers to, none for a
null pointer. -/
structure DrmI915GemExecbuffer2 where
  buffers_ptr : Option DrmI915GemExecObject2
  batch_start_offset : Nat
  rsvd1 : Nat
  deriving DecidableEq, Repr

/-- The query id of a QueryItem as the switch of xeGetQuery distinguishes it:
DrmParam::QueryHwconfigTable or anything else. -/
inductive QueryId where
  | hwconfigTable
  | other
  deriving DecidableEq, Repr

/-- The struct QueryItem: length is a 32-bit signed field, dataPtr is kept as the 32-bit
words of the memory it points to. -/
structure QueryItem where
  queryId : QueryId
  length : Int
  flags : Nat
  dataPtr : List Nat
  deriving DecidableEq, Repr

/-- One iteration of the bank-scanning loop of createGem: the bank index tested, the
count i of banks handled before the test, and whether the test resolves a region. -/
structure BankScanStep where
  currentBank : Nat
  i : Nat
  resolved : Bool
  deriving DecidableEq, Repr

/-- The loop variables of the item-parsing loop of getTopologyDataAndMap: the remaining
size, a 64-bit size_t, and dataPtr as the byte offset from the start of the buffer. -/
structure TopologyCursor where
  topologySize : Nat
  offset : Nat
  deriving DecidableEq, Repr

/-- One item the parsing loop reads: the cursor at which its header is read and the
num_bytes field of that header. -/
structure TopologyItemRead where
  topologySize : Nat
  offset : Nat
  num_bytes : Nat
  deriving DecidableEq, Repr

/-- What an operation does with the mutex xeLock and the vector bindInfo, in program order:
construction and destruction of a std::unique_lock on xeLock, a read of bindInfo, a write to
it, a request sent to the kernel channel, and the blocking fence wait. -/
inductive TableEvent where
  | lock
  | unlock
  | lookup
  | mutate
  | request
  | fenceWait
  deriving DecidableEq, Repr

/-- The helper as createDrmContext leaves it, whether it returns or aborts. -/
def Outcome.helper {α : Type} : Outcome α → IoctlHelperXe
  | .ok _ xe => xe
  | .unrecoverable xe => xe

namespace IoctlHelperXe

/-- IoctlHelperXe::updateBindInfo (lines 520-524). -/
def updateBindInfo (xe : IoctlHelperXe) (handle userPtr size : Nat) : IoctlHelperXe :=
  { xe with bindInfo := xe.bindInfo ++ [{ handle := handle, userptr := userPtr, addr := 0, size := size }] }

/-- IoctlHelperXe::fillBindInfoForIpcHandle (lines 1522-1525). -/
def fillBindInfoForIpcHandle (xe : IoctlHelperXe) (handle size : Nat) : IoctlHelperXe :=
  updateBindInfo xe handle 0 size

/-- IoctlHelperXe::xeWaitUserFence (lines 615-630). -/
def xeWaitUserFence (drv : Driver) (xe : IoctlHelperXe) (mask : WaitMask) (op : WaitOp)
    (addr value : Nat) (timeout : Int) : Int × IoctlHelperXe :=
  let wait : DrmXeWaitUserFence :=
    { addr := addr, op := op, softOp := true, value := value, mask := mask,
      timeout := timeout, num_engines := 0, instances := 0 }
  let r := IoctlHelper.ioctl drv xe (.gemWaitUserFence wait)
  (r.1.ret, r.2)

/-- The std::bitset<32>::set(pos) of createGem and createGemExt: throws for pos >= 32. -/
def bitset32Set (bits pos : Nat) : Option Nat :=
  if pos < 32 then some (bits ||| (1 <<< pos)) else none

/-- The std::bitset<4>::count() of createGem: number of set bits among the low four. -/
def bitset4Count (banks : Nat) : Nat :=
  ((List.range 4).filter (fun k => banks.testBit k)).length

/-- The bank-scanning loop of createGem (lines 581-588). The parameter regionInstance is
memoryInfo->getMemoryRegionClassAndInstance(bankMask, hwInfo).memoryInstance; banks is the
std::bitset<4>, whose test(pos) throws for pos >= 4. The first argument bounds the number
of iterations of the model. -/
def createGemScan (regionInstance : Nat → Nat) (banks : Nat) :
    Nat → Nat → Nat → Nat → Option Nat
  | fuel, currentBank, i, memoryInstances =>
    if i < bitset4Count banks then
      match fuel with
      | 0 => none
      | fuel + 1 =>
        if currentBank < 4 then
          if banks.testBit currentBank then
            match bitset32Set memoryInstances (regionInstance (1 <<< currentBank)) with
            | none => none
            | some m => createGemScan regionInstance banks fuel (currentBank + 1) (i + 1) m
          else createGemScan regionInstance banks fuel (currentBank + 1) i memoryInstances
        else none
    else some memoryInstances

/-- Region flags computed by createGem (lines 577-593). -/
def createGemFlags (regionInstance : Nat → Nat) (memoryBanks : Nat) : Option Nat :=
  match createGemScan regionInstance (memoryBanks % 16) 5 0 0 0 with
  | none => none
  | some m =>
    if memoryBanks = 0 then bitset32Set m (regionInstance memoryBanks) else some m

/-- IoctlHelperXe::createGem (lines 572-598): returns create.handle. The status of the
request is only looked at by DEBUG_BREAK_IF; the record is appended whatever it is. -/
def createGem (regionInstance : Nat → Nat) (drv : Driver) (xe : IoctlHelperXe)
    (size memoryBanks : Nat) : Option (Nat × IoctlHelperXe) :=
  match createGemFlags regionInstance memoryBanks with
  | none => none
  | some flags =>
    let r := IoctlHelper.ioctl drv xe (.gemCreate { size := size, flags := flags, vm_id := 0 })
    some (r.1.handle, updateBindInfo r.2 r.1.handle 0 size)

/-- The loop of createGemExt setting one bit per region instance (lines 556-559). -/
def createGemExtFlags : List (Nat × Nat) → Nat → Option Nat
  | [], bits => some bits
  | (_, memoryInstance) :: rest, bits =>
    match bitset32Set bits memoryInstance with
    | none => none
    | some m => createGemExtFlags rest m

/-- IoctlHelperXe::createGemExt (lines 541-570): returns the status and the handle. The
regions are (memoryClass, memoryInstance) pairs. -/
def createGemExt (drv : Driver) (xe : IoctlHelperXe) (memClassInstances : List (Nat × Nat))
    (allocSize : Nat) (vmId : Option Nat) : Option (Int × Option Nat × IoctlHelperXe) :=
  if memClassInstances.length = 0 then some (-1, none, xe)
  else
    match createGemExtFlags memClassInstances 0 with
    | none => none
    | some flags =>
      let r := IoctlHelper.ioctl drv xe
        (.gemCreate { size := allocSize, flags := flags, vm_id := vmId.getD 0 })
      some (r.1.ret, some r.1.handle, updateBindInfo r.2 r.1.handle 0 allocSize)

/-- The case DrmIoctl::GemUserptr of IoctlHelperXe::ioctl (lines 1037-1045): returns the
status and the handle written to the argument. -/
def ioctlGemUserptr (xe : IoctlHelperXe) (userPtr userSize : Nat) :
    Int × Nat × IoctlHelperXe :=
  let handle := (xe.userPtrHandle ||| XE_USERPTR_FAKE_FLAG) % 2 ^ 32
  let xe1 := { xe with userPtrHandle := (xe.userPtrHandle + 1) % 2 ^ 32 }
  (0, handle, updateBindInfo xe1 handle userPtr userSize)

/-- The case DrmIoctl::GemClose of IoctlHelperXe::ioctl (lines 1114-1144). -/
def ioctlGemClose (drv : Driver) (xe : IoctlHelperXe) (handle : Nat) : Int × IoctlHelperXe :=
  match xeFindIndex (fun b => handle == b.handle) xe.bindInfo with
  | some found =>
    let xe1 := { xe with bindInfo := xe.bindInfo.eraseIdx found }
    if handle &&& XE_USERPTR_FAKE_FLAG ≠ 0 then (0, xe1)
    else
      let r := IoctlHelper.ioctl drv xe1 (.gemClose handle)
      (r.1.ret, r.2)
  | none => (0, xe)

/-- The bind request xeVmBind builds for the located record (lines 1318-1350). -/
def xeVmBindRequest (decanonize : Nat → Nat) (p : VmBindParams) (ext : UserFenceExtension)
    (record : BindInfo) (isBind : Bool) : DrmXeVmBind :=
  let sync : DrmXeSync :=
    { flags := [.userFence, .signal], addr := ext.addr, timeline_value := ext.value }
  let fake : Bool := record.handle &&& XE_USERPTR_FAKE_FLAG ≠ 0
  { vm_id := p.vmId
    num_binds := 1
    num_syncs := 1
    syncs := [sync]
    range := p.length
    addr := decanonize p.start
    flags := .async
    obj_offset := if fake then record.userptr else p.offset
    op := if isBind then (if fake then .mapUserptr else .map) else .unmap
    obj := if isBind then (if fake then 0 else p.handle) else 0 }

/-- The record search of xeVmBind (lines 1296-1314): by handle for a bind, by decanonized
start address for an unbind; none is invalidIndex. -/
def xeVmBindIndex (decanonize : Nat → Nat) (xe : IoctlHelperXe) (p : VmBindParams)
    (isBind : Bool) : Option Nat :=
  if isBind then xeFindIndex (fun b => p.handle == b.handle) xe.bindInfo
  else xeFindIndex (fun b => decanonize p.start == b.addr) xe.bindInfo

/-- IoctlHelperXe::xeVmBind (lines 1291-1385). The parameter decanonize is
gmmHelper->decanonize. -/
def xeVmBind (decanonize : Nat → Nat) (drv : Driver) (xe : IoctlHelperXe)
    (p : VmBindParams) (isBind : Bool) : Option (Int × IoctlHelperXe) :=
  match xeVmBindIndex decanonize xe p isBind with
  | none => some (-1, xe)
  | some i =>
    match xe.bindInfo[i]? with
    | none => none
    | some record =>
      match p.extensions with
      | none => none
      | some ext =>
        if ext.tag ≠ UserFenceExtension.tagValue then none
        else
          let bind := xeVmBindRequest decanonize p ext record isBind
          let xe1 := { xe with bindInfo := xeSetAddr bind.addr i xe.bindInfo }
          let r := IoctlHelper.ioctl drv xe1 (.gemVmBind bind)
          if r.1.ret ≠ 0 then some (r.1.ret, r.2)
          else some (xeWaitUserFence drv r.2 .u64 .eq ext.addr ext.value XE_ONE_SEC)

/-- IoctlHelperXe::vmBind (lines 851-853). -/
def vmBind (decanonize : Nat → Nat) (drv : Driver) (xe : IoctlHelperXe) (p : VmBindParams) :
    Option (Int × IoctlHelperXe) :=
  xeVmBind decanonize drv xe p true

/-- IoctlHelperXe::vmUnbind (lines 855-857). -/
def vmUnbind (decanonize : Nat → Nat) (drv : Driver) (xe : IoctlHelperXe) (p : VmBindParams) :
    Option (Int × IoctlHelperXe) :=
  xeVmBind decanonize drv xe p false

/-- The switch on dataWidth of waitUserFence (lines 635-649). -/
def waitUserFenceMask (dataWidth : Nat) : WaitMask :=
  if dataWidth = Drm.ValueWidth.U64 then .u64
  else if dataWidth = Drm.ValueWidth.U32 then .u32
  else if dataWidth = Drm.ValueWidth.U16 then .u16
  else .u8

/-- IoctlHelperXe::waitUserFence (lines 632-658). -/
def waitUserFence (drv : Driver) (xe : IoctlHelperXe) (_ctxId address value dataWidth : Nat)
    (timeout : Int) (_flags : Nat) : Int × IoctlHelperXe :=
  let mask := waitUserFenceMask dataWidth
  let timeout := if timeout = -1 then TimeoutControls.maxTimeout else timeout
  if address ≠ 0 then xeWaitUserFence drv xe mask .gte address value timeout
  else (0, xe)

/-- The std::bitset<8>::count() of one mask byte. -/
def bitset8Count (byte : Nat) : Nat :=
  ((List.range 8).filter (fun k => byte.testBit k)).length

/-- The byte loops of getTopologyData (lines 399-401, 405-407, 411-413): set bits of a
mask vector. -/
def dssCount (mask : List Nat) : Int :=
  ((mask.map bitset8Count).sum : Nat)

/-- The value of subSliceCountPerTile after lines 397-408: the compute mask, or the
geometry mask when the compute mask of this tile has no set bit. -/
def subSliceCountPerTile (tile : TileMasks) : Int :=
  if dssCount tile.computeDss = 0 then dssCount tile.computeDss + dssCount tile.geomDss
  else dssCount tile.computeDss

/-- The value of euPerDssPerTile after lines 410-413. -/
def euPerDssPerTile (tile : TileMasks) : Int :=
  dssCount tile.euDss

/-- The expression of lines 416 and 417 ("pick smallest config"): a running value of 0 is
replaced by the tile's value, any other is lowered to it by std::min. -/
def pickSmallest (current perTile : Int) : Int :=
  if current = 0 then perTile else min current perTile

/-- One iteration of the tile loop of getTopologyData (lines 395-422). -/
def getTopologyDataTile (st : TopologyScan) (tile : TileMasks) : TopologyScan :=
  { subSliceCount := pickSmallest st.subSliceCount (subSliceCountPerTile tile)
    euPerDss := pickSmallest st.euPerDss (euPerDssPerTile tile)
    topologyData :=
      { st.topologyData with
        maxSubSliceCount := max st.topologyData.maxSubSliceCount (subSliceCountPerTile tile)
        maxEuPerSubSlice := max st.topologyData.maxEuPerSubSlice (euPerDssPerTile tile) }
    isComputeDssEmpty :=
      if dssCount tile.computeDss = 0 then true else st.isComputeDssEmpty }

/-- IoctlHelperXe::getTopologyData (lines 390-428); nTiles is the length of the tile list.
Returns the two reference parameters topologyData and isComputeDssEmpty. -/
def getTopologyData (tiles : List TileMasks) (topologyData : DrmQueryTopologyData)
    (isComputeDssEmpty : Bool) : DrmQueryTopologyData × Bool :=
  let st := tiles.foldl getTopologyDataTile
    { subSliceCount := 0, euPerDss := 0, topologyData := topologyData,
      isComputeDssEmpty := isComputeDssEmpty }
  ({ st.topologyData with
      sliceCount := 1
      subSliceCount := st.subSliceCount
      euCount := st.subSliceCount * st.euPerDss
      maxSliceCount := 1 },
    st.isComputeDssEmpty)

/-- The loop of xeFindMatchingEngine over a list of engines: position of the first match. -/
def xeFindMatchingEngineIn (engineClass engineInstance : Nat) :
    List DrmXeEngineClassInstance → Option Nat
  | [] => none
  | engine :: rest =>
    if engine.engine_class = engineClass ∧
        (engineInstance = XE_FIND_INVALID_INSTANCE ∨ engine.engine_instance = engineInstance)
    then some 0
    else (xeFindMatchingEngineIn engineClass engineInstance rest).map (· + 1)

/-- IoctlHelperXe::xeFindMatchingEngine (lines 1494-1504): the returned pointer as the
position in allEngines, none for nullptr. -/
def xeFindMatchingEngine (xe : IoctlHelperXe) (engineClass engineInstance : Nat) : Option Nat :=
  xeFindMatchingEngineIn engineClass engineInstance xe.allEngines

/-- The loop of setDefaultEngine (lines 529-534): the first engine of the class, if any. -/
def firstEngineOfClass (engineClass : Nat) :
    List DrmXeEngineClassInstance → Option DrmXeEngineClassInstance
  | [] => none
  | engine :: rest =>
    if engine.engine_class = engineClass then some engine
    else firstEngineOfClass engineClass rest

/-- IoctlHelperXe::setDefaultEngine (lines 526-539); none is the UNRECOVERABLE_IF. -/
def setDefaultEngine (xe : IoctlHelperXe) : Option IoctlHelperXe :=
  let xe1 :=
    match firstEngineOfClass DRM_XE_ENGINE_CLASS_COMPUTE xe.allEngines with
    | some engine =>
      { xe with
        defaultEngine :=
          xeFindMatchingEngine xe DRM_XE_ENGINE_CLASS_COMPUTE engine.engine_instance }
    | none => xe
  if xe1.defaultEngine = none then none else some xe1

/-- The computation int items = (d->size - sizeof(uint64_t)) / sizeof(uint32_t) of line
1090: size is a 32-bit field, the subtraction and division are done in size_t, the result
is converted to int. -/
def contextParamEngineItems (size : Nat) : Int :=
  let q : Nat := ((size % 2 ^ 32 + 2 ^ 64 - 8) % 2 ^ 64) / 4
  let w : Nat := q % 2 ^ 32
  if w < 2 ^ 31 then Int.ofNat w else Int.ofNat w - 2 ^ 32

/-- The case DrmIoctl::GemContextSetparam of IoctlHelperXe::ioctl for the parameter
ContextParamEngines (lines 1088-1104). The argument is the size field and the
(engine_class, engine_instance) entries of the i915_context_param_engines the value field
points to; entries past the end of that array are not read. -/
def ioctlGemContextSetparamEngines (xe : IoctlHelperXe) (size : Nat)
    (engines : List (Nat × Nat)) : Int × IoctlHelperXe :=
  let items := contextParamEngineItems size
  let stored : List DrmXeEngineClassInstance :=
    if items < 11 then
      ((engines.take items.toNat).filter (fun e => e.1 ≠ 65535)).map
        (fun e => { engine_class := e.1, engine_instance := e.2, gt_id := 0 })
    else []
  (if stored.length ≠ 0 then 0 else -1, { xe with contextParamEngine := stored })

/-- The switch of createDrmContext on the engine flag (lines 1234-1247); none is the
UNRECOVERABLE_IF of the default branch. -/
def createDrmContextRequestClass : EngineFlag → Option Nat
  | .execRender => some DRM_XE_ENGINE_CLASS_RENDER
  | .execBlt => some DRM_XE_ENGINE_CLASS_COPY
  | .execDefault => some DRM_XE_ENGINE_CLASS_COMPUTE
  | .unexpected => none

/-- The loop of createDrmContext over the explicit engine list (lines 1260-1271): the
engines copied into the local vector, none when an entry has no matching engine. -/
def createDrmContextResolve (xe : IoctlHelperXe) :
    List DrmXeEngineClassInstance → Option (List DrmXeEngineClassInstance)
  | [] => some []
  | entry :: rest =>
    match xeFindMatchingEngine xe entry.engine_class entry.engine_instance with
    | none => none
    | some i =>
      match xe.allEngines[i]? with
      | none => none
      | some engine => (createDrmContextResolve xe rest).map (engine :: ·)

/-- The local vector engine of createDrmContext before the size check (lines 1248-1272). -/
def createDrmContextEngines (xe : IoctlHelperXe) (requestClass : Nat) :
    Option (List DrmXeEngineClassInstance) :=
  if xe.contextParamEngine.length = 0 then
    match xeFindMatchingEngine xe requestClass XE_FIND_INVALID_INSTANCE with
    | none => none
    | some i => (xe.allEngines[i]?).map (fun engine => [engine])
  else createDrmContextResolve xe xe.contextParamEngine

/-- The conversion of the 32-bit drmContextId to the int that createDrmContext returns. -/
def contextIdToInt (id : Nat) : Int :=
  let w : Nat := id % 2 ^ 32
  if w < 2 ^ 31 then Int.ofNat w else Int.ofNat w - 2 ^ 32

/-- IoctlHelperXe::createDrmContext (lines 1225-1289). The parameter engineFlag is the
result of drm.bindDrmContext. -/
def createDrmContext (drv : Driver) (xe : IoctlHelperXe) (engineFlag : EngineFlag)
    (drmVmId : Nat) : Outcome Int :=
  match createDrmContextRequestClass engineFlag with
  | none => .unrecoverable xe
  | some requestClass =>
    match createDrmContextEngines xe requestClass with
    | none => .unrecoverable xe
    | some engine =>
      if engine.length > 9 then .unrecoverable xe
      else
        let r := IoctlHelper.ioctl drv xe
          (.gemContextCreateExt
            { vm_id := drmVmId, width := 1, num_placements := engine.length,
              instances := engine })
        if r.1.ret ≠ 0 then .unrecoverable r.2
        else .ok (contextIdToInt r.1.exec_queue_id) r.2

/-- IoctlHelperXe::execBuffer (lines 703-745). The first argument is the ExecBuffer
pointer, none when null; its data member is an array and never null. The address is
computed in 64 bits, the queue id is the low 32 bits of rsvd1. -/
def execBuffer (drv : Driver) (xe : IoctlHelperXe) (execBuffer : Option DrmI915GemExecbuffer2)
    (completionGpuAddress counterValue : Nat) : Int × IoctlHelperXe :=
  match execBuffer with
  | none => (0, xe)
  | some d =>
    match d.buffers_ptr with
    | none => (0, xe)
    | some obj =>
      let sync : DrmXeSync :=
        { flags := [.userFence, .signal], addr := completionGpuAddress,
          timeline_value := counterValue }
      let r := IoctlHelper.ioctl drv xe
        (.gemExecbuffer2
          { exec_queue_id := d.rsvd1 % 2 ^ 32, num_syncs := 1, syncs := [sync],
            address := (obj.offset + d.batch_start_offset) % 2 ^ 64, num_batch_buffer := 1 })
      (r.1.ret, r.2)

/-- The case DrmIoctl::GemContextDestroy of IoctlHelperXe::ioctl (lines 1049-1059). -/
def ioctlGemContextDestroy (drv : Driver) (xe : IoctlHelperXe) (contextId : Nat) :
    Int × IoctlHelperXe :=
  if contextId ≠ 0xffffffff then
    let r := IoctlHelper.ioctl drv xe (.gemContextDestroy contextId)
    (r.1.ret, r.2)
  else (0, xe)

/-- The conversion static_cast<int32_t>(queryData->size() * sizeof(uint32_t)) of line 59. -/
def queryDataSize (words : Nat) : Int :=
  let w : Nat := (words * 4) % 2 ^ 32
  if w < 2 ^ 31 then Int.ofNat w else Int.ofNat w - 2 ^ 32

/-- IoctlHelperXe::xeGetQuery (lines 47-70) on a Query with numItems items whose first item
is given; returns the status and the item as the call leaves it, none for the
UNRECOVERABLE_IF. The memcpy_s of length bytes overwrites the first length / 4 words of the
memory at dataPtr with the first words of the table; a negative length, a byte count near
2^64, is a copy that cannot complete. -/
def xeGetQuery (xe : IoctlHelperXe) (numItems : Nat) (queryItem : QueryItem) :
    Option (Int × QueryItem) :=
  if numItems = 1 then
    match queryItem.queryId with
    | .other => some (-1, queryItem)
    | .hwconfigTable =>
      if queryItem.length = 0 then
        some (0, { queryItem with length := queryDataSize xe.hwconfigFakei915.length })
      else if queryItem.length ≠ queryDataSize xe.hwconfigFakei915.length then none
      else if queryItem.length < 0 then none
      else
        let words := queryItem.length.toNat / 4
        some (0, { queryItem with
          dataPtr := xe.hwconfigFakei915.take words ++ queryItem.dataPtr.drop words })
  else some (-1, queryItem)

/-- Control flow of the bank-scanning loop of createGem (lines 581-588) with the region
bits left out: the iterations performed, in order. The first argument bounds the number of
iterations of the model; none when it is used up or when banks.test is called with an index
of 4 or more, which throws. -/
def createGemBankLoop (banks : Nat) : Nat → Nat → Nat → Option (List BankScanStep)
  | 0, _, i => if i < bitset4Count banks then none else some []
  | fuel + 1, currentBank, i =>
    if i < bitset4Count banks then
      if currentBank < 4 then
        if banks.testBit currentBank then
          (createGemBankLoop banks fuel (currentBank + 1) (i + 1)).map
            (fun log => { currentBank := currentBank, i := i, resolved := true } :: log)
        else
          (createGemBankLoop banks fuel (currentBank + 1) i).map
            (fun log => { currentBank := currentBank, i := i, resolved := false } :: log)
      else none
    else some []

/-- The bank indices for which an iteration of the loop resolves a region, in order. -/
def resolvedBanks (log : List BankScanStep) : List Nat :=
  (log.filter (fun s => s.resolved)).map (fun s => s.currentBank)

/-- The calls memoryInstances.set(instance) of the loop of createGem for the bank indices
given, in order (lines 583-585). -/
def createGemSetRegions (regionInstance : Nat → Nat) : List Nat → Nat → Option Nat
  | [], memoryInstances => some memoryInstances
  | currentBank :: rest, memoryInstances =>
    match bitset32Set memoryInstances (regionInstance (1 <<< currentBank)) with
    | none => none
    | some m => createGemSetRegions regionInstance rest m

/-- Successive GemUserptr requests for the (userPtr, userSize) pairs given: the handles
returned, in order, and the helper after the last one. -/
def registerUserptrs (xe : IoctlHelperXe) : List (Nat × Nat) → List Nat × IoctlHelperXe
  | [] => ([], xe)
  | (userPtr, userSize) :: rest =>
    let r := ioctlGemUserptr xe userPtr userSize
    let q := registerUserptrs r.2.2 rest
    (r.2.1 :: q.1, q.2)

/-- The value of sizeof(drm_xe_query_topology_mask): two 16-bit fields and one 32-bit field
in front of the flexible mask array. The uapi header is not among the source files. -/
def sizeofTopologyMask : Nat := 8

/-- The end of one iteration of the item-parsing loop of getTopologyDataAndMap (lines
506-508): itemSize is a uint32_t, topologySize a size_t. The parameter numBytesAt gives the
field num_bytes read through dataPtr at the byte offset given. -/
def topologyItemStep (numBytesAt : Nat → Nat) (c : TopologyCursor) : TopologyCursor :=
  let itemSize := (sizeofTopologyMask + numBytesAt c.offset) % 2 ^ 32
  { topologySize := (c.topologySize + 2 ^ 64 - itemSize) % 2 ^ 64, offset := c.offset + itemSize }

/-- The item-parsing loop of getTopologyDataAndMap (lines 483-509) without the masks it
collects: the items read, in order, and false when the loop is left through the return
false of the switch. The parameter unhandled says whether the item at the offset given
belongs to a GT that is not a media GT and has a type the switch does not handle. The first
argument bounds the number of iterations of the model. -/
def topologyItemLoop (numBytesAt : Nat → Nat) (unhandled : Nat → Bool) :
    Nat → TopologyCursor → Option (Bool × List TopologyItemRead)
  | 0, c => if sizeofTopologyMask ≤ c.topologySize then none else some (true, [])
  | fuel + 1, c =>
    if sizeofTopologyMask ≤ c.topologySize then
      let item : TopologyItemRead :=
        { topologySize := c.topologySize, offset := c.offset, num_bytes := numBytesAt c.offset }
      if unhandled c.offset then some (false, [item])
      else
        (topologyItemLoop numBytesAt unhandled fuel (topologyItemStep numBytesAt c)).map
          (fun r => (r.1, item :: r.2))
    else some (true, [])

/-- The accesses of updateBindInfo (lines 520-524): the push_back is inside the scope of the
lock. -/
def updateBindInfoEvents : List TableEvent := [.lock, .mutate, .unlock]

/-- The accesses of the case DrmIoctl::GemClose (lines 1114-1144), the debug print of
xeShowBindTable left out: the search loop, then for a record that is found the erase inside
the scope of the lock and, for a handle without the user-pointer flag, the request. -/
def ioctlGemCloseEvents (found userptr : Bool) : List TableEvent :=
  .lookup ::
    (if found then
      [.lock, .mutate, .unlock] ++ (if userptr then [] else [.request])
    else [])

/-- The accesses of xeVmBind (lines 1291-1385): the search loop, then for a record that is
found the read of its handle, the assignment of its address, the request and, when the
request is accepted, the fence wait. -/
def xeVmBindEvents (found accepted : Bool) : List TableEvent :=
  .lookup ::
    (if found then
      [.lookup, .mutate, .request] ++ (if accepted then [.fenceWait] else [])
    else [])

/-- Whether every read and write of bindInfo in the events happens with the mutex held,
starting with it held or not as the first argument says. -/
def tableAccessesLocked : Bool → List TableEvent → Bool
  | _, [] => true
  | _, .lock :: rest => tableAccessesLocked true rest
  | _, .unlock :: rest => tableAccessesLocked false rest
  | held, .lookup :: rest => held && tableAccessesLocked held rest
  | held, .mutate :: rest => held && tableAccessesLocked held rest
  | held, .request :: rest => tableAccessesLocked held rest
  | held, .fenceWait :: rest => tableAccessesLocked held rest

/-- Whether no fence wait in the events happens with the mutex held. -/
def fenceWaitsUnlocked : Bool → List TableEvent → Bool
  | _, [] => true
  | _, .lock :: rest => fenceWaitsUnlocked true rest
  | _, .unlock :: rest => fenceWaitsUnlocked false rest
  | held, .fenceWait :: rest => !held && fenceWaitsUnlocked held rest
  | held, _ :: rest => fenceWaitsUnlocked held rest

/-- The two ways a caller creates a binding-table record for a new object: createGem, or
the GemUserptr request. -/
inductive CreateRequest where
  | gem (size memoryBanks : Nat)
  | userptr (userPtr userSize : Nat)
  deriving DecidableEq, Repr

/-- Run a create step; the result is the new handle and the updated helper. -/
def runCreate (regionInstance : Nat → Nat) (drv : Driver) (xe : IoctlHelperXe) :
    CreateRequest → Option (Nat × IoctlHelperXe)
  | .gem size memoryBanks => createGem regionInstance drv xe size memoryBanks
  | .userptr userPtr userSize =>
    some ((ioctlGemUserptr xe userPtr userSize).2.1, (ioctlGemUserptr xe userPtr userSize).2.2)

end IoctlHelperXe

/-! ## Concrete inputs used by the closed statements below -/

/-- An instance of the decanonize parameter: keep the low 48 address bits. -/
def decanonize48 (address : Nat) : Nat := address % 2 ^ 48

/-- An instance of the region parameter: bank mask 0 is region 0, bank k is region k + 1. -/
def exampleRegionInstance : Nat → Nat
  | 1 => 1
  | 2 => 2
  | 4 => 3
  | 8 => 4
  | _ => 0

/-- A kernel that accepts every request and hands out handle 7. -/
def acceptingDriver : Driver := fun _ _ => { ret := 0, handle := 7 }

/-- A kernel that rejects every request with status -1. -/
def rejectingDriver : Driver := fun _ _ => { ret := -1, handle := 0 }

/-- A freshly constructed helper: empty table, counter 0, nothing sent. -/
def freshHelper : IoctlHelperXe := { bindInfo := [], userPtrHandle := 0, trace := [] }

/-- A well-formed user-fence extension. -/
def exampleFence : UserFenceExtension :=
  { tag := UserFenceExtension.tagValue, addr := 0x5000, value := 1 }

/-- Bind parameters for a handle at a start address, one 4096-byte page at offset 0. -/
def exampleParams (handle start : Nat) : VmBindParams :=
  { vmId := 1, handle := handle, start := start, offset := 0, length := 4096, flags := 0,
    extensions := some exampleFence }

/-- The fence wait xeVmBind sends for exampleFence. -/
def exampleWait : DrmXeWaitUserFence :=
  { addr := 0x5000, op := .eq, softOp := true, value := 1, mask := .u64,
    timeout := XE_ONE_SEC, num_engines := 0, instances := 0 }

/-- The user-pointer record the first registration on a fresh helper creates. -/
def exampleUserptrRecord : BindInfo :=
  { handle := 0x800000, userptr := 0x9000, addr := 0, size := 4096 }

/-- The helper after registering a user pointer on a fresh helper. -/
def helperAfterRegister : IoctlHelperXe :=
  { bindInfo := [exampleUserptrRecord], userPtrHandle := 1, trace := [] }

/-- The helper after binding that object at 0x1000 with an accepting kernel. -/
def helperAfterBind : IoctlHelperXe :=
  { bindInfo := [{ exampleUserptrRecord with addr := 0x1000 }], userPtrHandle := 1,
    trace := [.gemVmBind (IoctlHelperXe.xeVmBindRequest decanonize48
        (exampleParams 0x800000 0x1000) exampleFence exampleUserptrRecord true),
      .gemWaitUserFence exampleWait] }

/-- The helper after the following unbind at 0x1000. -/
def helperAfterUnbind : IoctlHelperXe :=
  { helperAfterBind with
    trace := helperAfterBind.trace ++
      [.gemVmBind (IoctlHelperXe.xeVmBindRequest decanonize48 (exampleParams 0 0x1000)
          exampleFence { exampleUserptrRecord with addr := 0x1000 } false),
        .gemWaitUserFence exampleWait] }

/-- A table with one driver-backed record, handle 1, never bound. -/
def helperOneObject : IoctlHelperXe :=
  { bindInfo := [{ handle := 1, userptr := 0, addr := 0, size := 4096 }], userPtrHandle := 0,
    trace := [] }

/-- A table of three driver-backed records: handle 3 still stores 0x1000 from an earlier
bind, handles 1 and 2 were never bound. -/
def helperThreeObjects : IoctlHelperXe :=
  { bindInfo := [{ handle := 3, userptr := 0, addr := 0x1000, size := 4096 },
      { handle := 1, userptr := 0, addr := 0, size := 4096 },
      { handle := 2, userptr := 0, addr := 0, size := 4096 }],
    userPtrHandle := 0, trace := [] }

/-- The three-record table after binding handle 1 at 0x3000 with an accepting kernel. -/
def helperThreeBoundOne : IoctlHelperXe :=
  { bindInfo := [{ handle := 3, userptr := 0, addr := 0x1000, size := 4096 },
      { handle := 1, userptr := 0, addr := 0x3000, size := 4096 },
      { handle := 2, userptr := 0, addr := 0, size := 4096 }],
    userPtrHandle := 0,
    trace := [.gemVmBind (IoctlHelperXe.xeVmBindRequest decanonize48 (exampleParams 1 0x3000)
        exampleFence { handle := 1, userptr := 0, addr := 0, size := 4096 } true),
      .gemWaitUserFence exampleWait] }

/-- The same table after binding handle 2 at 0x2000 as well. -/
def helperThreeBoundTwo : IoctlHelperXe :=
  { bindInfo := [{ handle := 3, userptr := 0, addr := 0x1000, size := 4096 },
      { handle := 1, userptr := 0, addr := 0x3000, size := 4096 },
      { handle := 2, userptr := 0, addr := 0x2000, size := 4096 }],
    userPtrHandle := 0,
    trace := helperThreeBoundOne.trace ++
      [.gemVmBind (IoctlHelperXe.xeVmBindRequest decanonize48 (exampleParams 2 0x2000)
          exampleFence { handle := 2, userptr := 0, addr := 0, size := 4096 } true),
        .gemWaitUserFence exampleWait] }

/-- The same table after the following unbind at 0x3000. -/
def helperThreeUnbound : IoctlHelperXe :=
  { helperThreeBoundTwo with
    trace := helperThreeBoundTwo.trace ++
      [.gemVmBind (IoctlHelperXe.xeVmBindRequest decanonize48 (exampleParams 0 0x3000)
          exampleFence { handle := 1, userptr := 0, addr := 0x3000, size := 4096 } false),
        .gemWaitUserFence exampleWait] }

/-- A tile with 8 compute sub-slices and 16 EU bits. -/
def tileEightSixteen : TileMasks := { geomDss := [], computeDss := [0xFF], euDss := [0xFF, 0xFF] }

/-- A tile with 6 compute sub-slices and 16 EU bits. -/
def tileSixSixteen : TileMasks := { geomDss := [], computeDss := [0x3F], euDss := [0xFF, 0xFF] }

/-- A tile with 8 compute sub-slices and 8 EU bits. -/
def tileEightEight : TileMasks := { geomDss := [], computeDss := [0xFF], euDss := [0xFF] }

/-- A tile without any sub-slice bit (compute and geometry masks empty) and 8 EU bits. -/
def tileNoSubSlices : TileMasks := { geomDss := [0], computeDss := [0], euDss := [0xFF] }

/-- A discovered engine list: render 0, compute 0, compute 1, copy 0, all on tile 0. -/
def exampleEngines : List DrmXeEngineClassInstance :=
  [{ engine_class := DRM_XE_ENGINE_CLASS_RENDER, engine_instance := 0, gt_id := 0 },
    { engine_class := DRM_XE_ENGINE_CLASS_COMPUTE, engine_instance := 0, gt_id := 0 },
    { engine_class := DRM_XE_ENGINE_CLASS_COMPUTE, engine_instance := 1, gt_id := 0 },
    { engine_class := DRM_XE_ENGINE_CLASS_COPY, engine_instance := 0, gt_id := 0 }]

/-- A fresh helper after discovery of exampleEngines. -/
def helperWithEngines : IoctlHelperXe :=
  { bindInfo := [], userPtrHandle := 0, trace := [], allEngines := exampleEngines }

/-- A kernel that accepts every request and hands out exec queue id 5. -/
def contextDriver : Driver := fun _ _ => { ret := 0, handle := 0, exec_queue_id := 5 }

/-- The helper with the explicit list (compute, 1), (copy, 0). -/
def helperPinnedList : IoctlHelperXe :=
  { helperWithEngines with
    contextParamEngine :=
      [{ engine_class := DRM_XE_ENGINE_CLASS_COMPUTE, engine_instance := 1, gt_id := 0 },
        { engine_class := DRM_XE_ENGINE_CLASS_COPY, engine_instance := 0, gt_id := 0 }] }

/-- The helper with the explicit list (compute, 16): instance 16 is not among the
discovered engines. -/
def helperSentinelList : IoctlHelperXe :=
  { helperWithEngines with
    contextParamEngine :=
      [{ engine_class := DRM_XE_ENGINE_CLASS_COMPUTE, engine_instance := 16, gt_id := 0 }] }

/-- The helper with the explicit list (compute, 7): no discovered engine matches. -/
def helperMissingEngine : IoctlHelperXe :=
  { helperWithEngines with
    contextParamEngine :=
      [{ engine_class := DRM_XE_ENGINE_CLASS_COMPUTE, engine_instance := 7, gt_id := 0 }] }

/-- Ten (compute, 0) entries of an i915_context_param_engines argument. -/
def tenComputeEntries : List (Nat × Nat) := List.replicate 10 (DRM_XE_ENGINE_CLASS_COMPUTE, 0)

/-- A helper whose only discovered engine is compute 0, with the explicit list
(compute, 16). -/
def helperLoneCompute : IoctlHelperXe :=
  { bindInfo := [], userPtrHandle := 0, trace := [],
    allEngines :=
      [{ engine_class := DRM_XE_ENGINE_CLASS_COMPUTE, engine_instance := 0, gt_id := 0 }],
    contextParamEngine :=
      [{ engine_class := DRM_XE_ENGINE_CLASS_COMPUTE, engine_instance := 16, gt_id := 0 }] }

/-- A topology buffer of 27 bytes read through dataPtr: the header at offset 0 says
num_bytes = 8, the header at offset 16 says num_bytes = 0, and 3 bytes are left over. -/
def exampleNumBytesAt : Nat → Nat := fun offset => if offset = 0 then 8 else 0

/-- A kernel that accepts every request and hands out handle 0x800000, a handle with the
bit XE_USERPTR_FAKE_FLAG set. -/
def flaggedHandleDriver : Driver := fun _ _ => { ret := 0, handle := 0x800000 }

/-- The helper after createGem(4096, 1) on a fresh helper, the kernel handing out the
handle given. -/
def helperGemCreated (handle : Nat) : IoctlHelperXe :=
  { bindInfo := [{ handle := handle, userptr := 0, addr := 0, size := 4096 }],
    userPtrHandle := 0,
    trace := [.gemCreate { size := 4096, flags := 2, vm_id := 0 }] }

/-- The helper after binding that object at 0x1000 with an accepting kernel. -/
def helperGemBound (handle : Nat) : IoctlHelperXe :=
  { bindInfo := [{ handle := handle, userptr := 0, addr := 0x1000, size := 4096 }],
    userPtrHandle := 0,
    trace := (helperGemCreated handle).trace ++
      [.gemVmBind (IoctlHelperXe.xeVmBindRequest decanonize48 (exampleParams handle 0x1000)
          exampleFence { handle := handle, userptr := 0, addr := 0, size := 4096 } true),
        .gemWaitUserFence exampleWait] }

/-- The helper after the following unbind at 0x1000. -/
def helperGemUnbound (handle : Nat) : IoctlHelperXe :=
  { helperGemBound handle with
    trace := (helperGemBound handle).trace ++
      [.gemVmBind (IoctlHelperXe.xeVmBindRequest decanonize48 (exampleParams 0 0x1000)
          exampleFence { handle := handle, userptr := 0, addr := 0x1000, size := 4096 } false),
        .gemWaitUserFence exampleWait] }

end NEO

/-! # Theorems -/

namespace NEO

open IoctlHelperXe

/-! ## Lemmas on the table primitives -/

theorem xeFindIndex_eq_none_iff (p : BindInfo → Bool) (l : List BindInfo) :
    xeFindIndex p l = none ↔ ∀ b ∈ l, p b = false := by
  induction l with
  | nil => simp [xeFindIndex]
  | cons b bs ih =>
    by_cases hb : p b = true
    · simp [xeFindIndex, hb]
    · simp [xeFindIndex, hb, ih]

theorem xeFindIndex_append_cons (p : BindInfo → Bool) (pre post : List BindInfo) (b : BindInfo)
    (hpre : ∀ x ∈ pre, p x = false) (hb : p b = true) :
    xeFindIndex p (pre ++ b :: post) = some pre.length := by
  induction pre with
  | nil => simp [xeFindIndex, hb]
  | cons x xs ih =>
    have hx : p x = false := hpre x (by simp)
    have hxs : ∀ y ∈ xs, p y = false := fun y hy => hpre y (by simp [hy])
    simp [xeFindIndex, hx, ih hxs]

theorem xeFindIndex_some_split (p : BindInfo → Bool) (l : List BindInfo) (i : Nat)
    (h : xeFindIndex p l = some i) :
    ∃ pre b post, l = pre ++ b :: post ∧ pre.length = i ∧ (∀ x ∈ pre, p x = false) ∧
      p b = true := by
  induction l generalizing i with
  | nil => simp [xeFindIndex] at h
  | cons b bs ih =>
    by_cases hb : p b = true
    · simp [xeFindIndex, hb] at h
      exact ⟨[], b, bs, by simp, by simp [h], by simp, hb⟩
    · simp [xeFindIndex, hb] at h
      obtain ⟨j, hj, rfl⟩ := h
      obtain ⟨pre, c, post, hl, hlen, hpre, hc⟩ := ih j hj
      refine ⟨b :: pre, c, post, by simp [hl], by simp [hlen], ?_, hc⟩
      intro x hx
      rcases List.mem_cons.mp hx with rfl | hx
      · simpa using hb
      · exact hpre x hx

theorem xeSetAddr_append_cons (v : Nat) (pre post : List BindInfo) (b : BindInfo) :
    xeSetAddr v pre.length (pre ++ b :: post) = pre ++ { b with addr := v } :: post := by
  induction pre with
  | nil => simp [xeSetAddr]
  | cons x xs ih => simp [xeSetAddr, ih]

theorem xeSetAddr_map_handle (v i : Nat) (l : List BindInfo) :
    (xeSetAddr v i l).map (·.handle) = l.map (·.handle) := by
  induction l generalizing i with
  | nil => simp [xeSetAddr]
  | cons b bs ih =>
    cases i with
    | zero => simp [xeSetAddr]
    | succ j => simp [xeSetAddr, ih]

theorem xeSetAddr_length (v i : Nat) (l : List BindInfo) :
    (xeSetAddr v i l).length = l.length := by
  simpa using congrArg List.length (xeSetAddr_map_handle v i l)

theorem eraseIdx_append_cons (pre post : List BindInfo) (b : BindInfo) :
    (pre ++ b :: post).eraseIdx pre.length = pre ++ post := by
  induction pre with
  | nil => simp
  | cons x xs ih => simp [ih]

theorem getElem?_append_cons (pre post : List BindInfo) (b : BindInfo) :
    (pre ++ b :: post)[pre.length]? = some b := by
  induction pre with
  | nil => simp
  | cons x xs ih => simpa using ih

/-- What xeVmBind does when the search finds no record. -/
theorem xeVmBind_not_found (dec : Nat → Nat) (drv : Driver) (xe : IoctlHelperXe)
    (p : VmBindParams) (isBind : Bool) (h : xeVmBindIndex dec xe p isBind = none) :
    xeVmBind dec drv xe p isBind = some (-1, xe) := by
  simp [xeVmBind, h]

/-- What xeVmBind does when the search finds record number i and the extension is
well formed: the address is stored, the bind request is sent, and the fence wait is sent
exactly when the kernel accepts the request. -/
theorem xeVmBind_found (dec : Nat → Nat) (drv : Driver) (xe : IoctlHelperXe)
    (p : VmBindParams) (isBind : Bool) (i : Nat) (record : BindInfo) (ext : UserFenceExtension)
    (hidx : xeVmBindIndex dec xe p isBind = some i) (hrec : xe.bindInfo[i]? = some record)
    (hext : p.extensions = some ext) (htag : ext.tag = UserFenceExtension.tagValue) :
    xeVmBind dec drv xe p isBind =
      some (
        if (drv xe.trace (.gemVmBind (xeVmBindRequest dec p ext record isBind))).ret ≠ 0 then
          ((drv xe.trace (.gemVmBind (xeVmBindRequest dec p ext record isBind))).ret,
            { xe with
              bindInfo := xeSetAddr (dec p.start) i xe.bindInfo
              trace := xe.trace ++ [.gemVmBind (xeVmBindRequest dec p ext record isBind)] })
        else
          xeWaitUserFence drv
            { xe with
              bindInfo := xeSetAddr (dec p.start) i xe.bindInfo
              trace := xe.trace ++ [.gemVmBind (xeVmBindRequest dec p ext record isBind)] }
            .u64 .eq ext.addr ext.value XE_ONE_SEC) := by
  have haddr : (xeVmBindRequest dec p ext record isBind).addr = dec p.start := rfl
  simp only [xeVmBind, hidx, hrec, hext, htag, IoctlHelper.ioctl, haddr]
  by_cases hr : (drv xe.trace (.gemVmBind (xeVmBindRequest dec p ext record isBind))).ret = 0
  · simp [hr]
  · simp [hr]

/-- Inversion of a returning xeVmBind: either nothing was found and nothing changed, or a
record was found and the extension was well formed. -/
theorem xeVmBind_some_inv (dec : Nat → Nat) (drv : Driver) (xe xe' : IoctlHelperXe)
    (p : VmBindParams) (isBind : Bool) (r : Int)
    (h : xeVmBind dec drv xe p isBind = some (r, xe')) :
    (xeVmBindIndex dec xe p isBind = none ∧ r = -1 ∧ xe' = xe) ∨
    ∃ i record ext, xeVmBindIndex dec xe p isBind = some i ∧ xe.bindInfo[i]? = some record ∧
      p.extensions = some ext ∧ ext.tag = UserFenceExtension.tagValue := by
  rcases hidx : xeVmBindIndex dec xe p isBind with _ | i
  · left
    rw [xeVmBind_not_found dec drv xe p isBind hidx] at h
    simp at h
    exact ⟨rfl, h.1.symm, h.2.symm⟩
  · right
    rcases hrec : xe.bindInfo[i]? with _ | record
    · simp [xeVmBind, hidx, hrec] at h
    · rcases hext : p.extensions with _ | ext
      · simp [xeVmBind, hidx, hrec, hext] at h
      · by_cases htag : ext.tag = UserFenceExtension.tagValue
        · exact ⟨i, record, ext, rfl, hrec, rfl, htag⟩
        · simp [xeVmBind, hidx, hrec, hext, htag] at h

/-- Whatever xeVmBind returns, the table afterwards is the old table or the old table with
one stored address replaced by the decanonized start. -/
theorem xeVmBind_bindInfo (dec : Nat → Nat) (drv : Driver) (xe xe' : IoctlHelperXe)
    (p : VmBindParams) (isBind : Bool) (r : Int)
    (h : xeVmBind dec drv xe p isBind = some (r, xe')) :
    xe'.bindInfo = xe.bindInfo ∨
      ∃ i, xeVmBindIndex dec xe p isBind = some i ∧
        xe'.bindInfo = xeSetAddr (dec p.start) i xe.bindInfo := by
  rcases xeVmBind_some_inv dec drv xe xe' p isBind r h with ⟨_, _, h1⟩ | ⟨i, record, ext, hidx, hrec, hext, htag⟩
  · left; rw [h1]
  · right
    refine ⟨i, hidx, ?_⟩
    rw [xeVmBind_found dec drv xe p isBind i record ext hidx hrec hext htag] at h
    split at h
    · simp at h
      rw [← h.2]
    · simp [xeWaitUserFence, IoctlHelper.ioctl] at h
      rw [← h.2]

theorem xeVmBind_handles (dec : Nat → Nat) (drv : Driver) (xe xe' : IoctlHelperXe)
    (p : VmBindParams) (isBind : Bool) (r : Int)
    (h : xeVmBind dec drv xe p isBind = some (r, xe')) :
    xe'.bindInfo.map (·.handle) = xe.bindInfo.map (·.handle) := by
  rcases xeVmBind_bindInfo dec drv xe xe' p isBind r h with h1 | ⟨i, _, h1⟩
  · rw [h1]
  · rw [h1, xeSetAddr_map_handle]

/-- The flag XE_USERPTR_FAKE_FLAG is bit 23. -/
theorem fakeFlag_eq_two_pow : XE_USERPTR_FAKE_FLAG = 2 ^ 23 := by decide

/-- A 32-bit value or-ed with XE_USERPTR_FAKE_FLAG has the flag set. -/
theorem fakeFlag_set (c : Nat) :
    ((c ||| XE_USERPTR_FAKE_FLAG) % 2 ^ 32) &&& XE_USERPTR_FAKE_FLAG =
      XE_USERPTR_FAKE_FLAG := by
  apply Nat.eq_of_testBit_eq
  intro i
  rw [fakeFlag_eq_two_pow]
  simp only [Nat.testBit_and, Nat.testBit_mod_two_pow, Nat.testBit_or, Nat.testBit_two_pow]
  by_cases h : 23 = i
  · subst h; simp
  · simp [h]

/-! ## Close -/

/-- GemClose on a handle without a record: status 0, helper unchanged. -/
theorem ioctlGemClose_not_found (drv : Driver) (xe : IoctlHelperXe) (h : Nat)
    (hno : ∀ b ∈ xe.bindInfo, b.handle ≠ h) : ioctlGemClose drv xe h = (0, xe) := by
  have hidx : xeFindIndex (fun b => h == b.handle) xe.bindInfo = none := by
    rw [xeFindIndex_eq_none_iff]
    intro b hb
    have := hno b hb
    simp [Ne.symm this]
  simp [ioctlGemClose, hidx]

/-- GemClose on a handle whose first record is b: the record is erased, and the kernel is
asked to close exactly when the fake flag is clear. -/
theorem ioctlGemClose_found (drv : Driver) (xe : IoctlHelperXe) (h : Nat)
    (pre post : List BindInfo) (b : BindInfo) (htab : xe.bindInfo = pre ++ b :: post)
    (hpre : ∀ x ∈ pre, x.handle ≠ h) (hb : b.handle = h) :
    ioctlGemClose drv xe h =
      if h &&& XE_USERPTR_FAKE_FLAG ≠ 0 then (0, { xe with bindInfo := pre ++ post })
      else ((drv xe.trace (.gemClose h)).ret,
        { xe with bindInfo := pre ++ post, trace := xe.trace ++ [.gemClose h] }) := by
  have hidx : xeFindIndex (fun b => h == b.handle) xe.bindInfo = some pre.length := by
    rw [htab]
    apply xeFindIndex_append_cons
    · intro x hx
      have := hpre x hx
      simp [Ne.symm this]
    · simp [hb]
  rw [htab] at hidx
  simp only [ioctlGemClose, hidx, htab, eraseIdx_append_cons, IoctlHelper.ioctl]

/-- A table whose handle list is hs ++ [h] with h not in hs splits at its last record. -/
theorem split_of_handles (l : List BindInfo) (hs : List Nat) (h : Nat)
    (hl : l.map (·.handle) = hs ++ [h]) :
    ∃ pre b, l = pre ++ [b] ∧ pre.map (·.handle) = hs ∧ b.handle = h := by
  obtain ⟨l1, l2, rfl, h1, h2⟩ := List.map_eq_append_iff.mp hl
  obtain ⟨b, t, rfl, hb, ht⟩ := List.map_eq_cons_iff.mp h2
  simp at ht
  subst ht
  exact ⟨l1, b, rfl, h1, hb⟩

/-- The table after a create step is the old table followed by one unbound record that
carries the returned handle. -/
theorem runCreate_bindInfo (regionInstance : Nat → Nat) (drv : Driver) (xe xe1 : IoctlHelperXe)
    (c : CreateRequest) (h : Nat) (hc : runCreate regionInstance drv xe c = some (h, xe1)) :
    ∃ userptr size, xe1.bindInfo =
      xe.bindInfo ++ [{ handle := h, userptr := userptr, addr := 0, size := size }] := by
  cases c with
  | gem size memoryBanks =>
    simp only [runCreate, createGem] at hc
    split at hc
    · simp at hc
    · simp [IoctlHelper.ioctl, updateBindInfo] at hc
      obtain ⟨h1, h2⟩ := hc
      subst h1
      exact ⟨0, size, by rw [← h2]⟩
  | userptr userPtr userSize =>
    simp [runCreate, ioctlGemUserptr, updateBindInfo] at hc
    obtain ⟨h1, h2⟩ := hc
    exact ⟨userPtr, userSize, by rw [← h2, ← h1]⟩

/-- C1, as stated, fails for a driver-issued handle with bit 0x800000 set. The kernel
hands out handle 0x800000 to createGem; the object is bound at 0x1000 and unbound; the
GemClose request then removes the record, returns 0 and sends no close request to the
kernel. -/
theorem C1_flagged_driver_handle_is_not_closed :
    runCreate exampleRegionInstance flaggedHandleDriver freshHelper (.gem 4096 1) =
      some (0x800000, helperGemCreated 0x800000) ∧
    vmBind decanonize48 flaggedHandleDriver (helperGemCreated 0x800000)
      (exampleParams 0x800000 0x1000) = some (0, helperGemBound 0x800000) ∧
    vmUnbind decanonize48 flaggedHandleDriver (helperGemBound 0x800000)
      (exampleParams 0 0x1000) = some (0, helperGemUnbound 0x800000) ∧
    ioctlGemClose flaggedHandleDriver (helperGemUnbound 0x800000) 0x800000 =
      (0, { helperGemUnbound 0x800000 with bindInfo := [] }) ∧
    DrmRequest.gemClose 0x800000 ∉ (helperGemUnbound 0x800000).trace := by
  refine ⟨rfl, rfl, rfl, rfl, by decide⟩

/-- C1 (amended): for every sequence create (createGem or the GemUserptr registration),
vmBind, vmUnbind, GemClose on one handle h that starts from a table without a record for h,
the table holds no record with handle h after the close; when bit 0x800000 of h is set the
close returns 0 and sends nothing to the kernel, and when it is clear exactly one close
request, for h, is sent and its status is returned. The handle of a GemUserptr registration
always has the bit set; the handle of createGem is the one the kernel returns, with the bit
set or clear. -/
theorem C1_lifecycle_close_removes_record (dec regionInstance : Nat → Nat) (drv : Driver)
    (xe0 xe1 xe2 xe3 : IoctlHelperXe) (c : CreateRequest) (h : Nat) (pb pu : VmBindParams)
    (rb ru : Int)
    (hfresh : ∀ b ∈ xe0.bindInfo, b.handle ≠ h)
    (hcreate : runCreate regionInstance drv xe0 c = some (h, xe1))
    (hbind : vmBind dec drv xe1 { pb with handle := h } = some (rb, xe2))
    (hunbind : vmUnbind dec drv xe2 pu = some (ru, xe3)) :
    (∀ b ∈ (ioctlGemClose drv xe3 h).2.bindInfo, b.handle ≠ h) ∧
    (h &&& XE_USERPTR_FAKE_FLAG ≠ 0 →
      (ioctlGemClose drv xe3 h).1 = 0 ∧ (ioctlGemClose drv xe3 h).2.trace = xe3.trace) ∧
    (h &&& XE_USERPTR_FAKE_FLAG = 0 →
      (ioctlGemClose drv xe3 h).1 = (drv xe3.trace (.gemClose h)).ret ∧
      (ioctlGemClose drv xe3 h).2.trace = xe3.trace ++ [.gemClose h]) ∧
    (∀ userPtr userSize, c = .userptr userPtr userSize →
      h &&& XE_USERPTR_FAKE_FLAG ≠ 0) ∧
    (∀ size memoryBanks flags, c = .gem size memoryBanks →
      createGemFlags regionInstance memoryBanks = some flags →
      h = (drv xe0.trace (.gemCreate (DrmXeGemCreate.mk size flags 0))).handle) := by
  obtain ⟨userptr, size, h1⟩ := runCreate_bindInfo regionInstance drv xe0 xe1 c h hcreate
  have h2 := xeVmBind_handles dec drv xe1 xe2 _ true rb hbind
  have h3 := xeVmBind_handles dec drv xe2 xe3 pu false ru hunbind
  have hh : xe3.bindInfo.map (·.handle) = xe0.bindInfo.map (·.handle) ++ [h] := by
    rw [h3, h2, h1]; simp
  obtain ⟨pre, b, htab, hpre, hb⟩ := split_of_handles _ _ _ hh
  have hpre' : ∀ x ∈ pre, x.handle ≠ h := by
    intro x hx hxh
    have hmem : x.handle ∈ pre.map (·.handle) := List.mem_map_of_mem _ hx
    rw [hpre] at hmem
    obtain ⟨y, hy, hyx⟩ := List.mem_map.mp hmem
    exact hfresh y hy (by rw [hyx, hxh])
  have hclose := ioctlGemClose_found drv xe3 h pre [] b htab hpre' hb
  have huserptr : ∀ userPtr userSize, c = .userptr userPtr userSize →
      h &&& XE_USERPTR_FAKE_FLAG ≠ 0 := by
    intro userPtr userSize hc
    subst hc
    simp only [runCreate, Option.some.injEq, Prod.mk.injEq] at hcreate
    rw [← hcreate.1]
    show ((xe0.userPtrHandle ||| XE_USERPTR_FAKE_FLAG) % 2 ^ 32) &&& XE_USERPTR_FAKE_FLAG ≠ 0
    rw [fakeFlag_set]
    decide
  have hgem : ∀ size memoryBanks flags, c = .gem size memoryBanks →
      createGemFlags regionInstance memoryBanks = some flags →
      h = (drv xe0.trace (.gemCreate (DrmXeGemCreate.mk size flags 0))).handle := by
    intro size memoryBanks flags hc hflags
    subst hc
    simp only [runCreate, createGem, hflags, IoctlHelper.ioctl, Option.some.injEq,
      Prod.mk.injEq] at hcreate
    exact hcreate.1.symm
  have hold : (∀ b ∈ (ioctlGemClose drv xe3 h).2.bindInfo, b.handle ≠ h) ∧
      (h &&& XE_USERPTR_FAKE_FLAG ≠ 0 →
        (ioctlGemClose drv xe3 h).1 = 0 ∧ (ioctlGemClose drv xe3 h).2.trace = xe3.trace) ∧
      (h &&& XE_USERPTR_FAKE_FLAG = 0 →
        (ioctlGemClose drv xe3 h).1 = (drv xe3.trace (.gemClose h)).ret ∧
        (ioctlGemClose drv xe3 h).2.trace = xe3.trace ++ [.gemClose h]) := by
    rw [hclose]
    by_cases hf : h &&& XE_USERPTR_FAKE_FLAG = 0
    · simp [hf]
      exact hpre'
    · simp [hf]
      exact hpre'
  exact ⟨hold.1, hold.2.1, hold.2.2, huserptr, hgem⟩

/-- Witness of C1: register a user pointer on a fresh helper, bind it at 0x1000, unbind at
0x1000, close: nothing is sent; and create an object for which the kernel hands out handle
7, bind it at 0x1000, unbind at 0x1000, close: one close request for 7 is sent. -/
theorem C1_lifecycle_close_removes_record_witness :
    ((∀ b ∈ (ioctlGemClose acceptingDriver helperAfterUnbind 0x800000).2.bindInfo,
        b.handle ≠ 0x800000) ∧
      (ioctlGemClose acceptingDriver helperAfterUnbind 0x800000).1 = 0 ∧
      (ioctlGemClose acceptingDriver helperAfterUnbind 0x800000).2.trace =
        helperAfterUnbind.trace) ∧
    ((∀ b ∈ (ioctlGemClose acceptingDriver (helperGemUnbound 7) 7).2.bindInfo,
        b.handle ≠ 7) ∧
      (ioctlGemClose acceptingDriver (helperGemUnbound 7) 7).1 = 0 ∧
      (ioctlGemClose acceptingDriver (helperGemUnbound 7) 7).2.trace =
        (helperGemUnbound 7).trace ++ [.gemClose 7]) :=
  have h := C1_lifecycle_close_removes_record decanonize48 exampleRegionInstance
    acceptingDriver freshHelper helperAfterRegister helperAfterBind helperAfterUnbind
    (.userptr 0x9000 4096) 0x800000 (exampleParams 0 0x1000) (exampleParams 0 0x1000) 0 0
    (by simp [freshHelper]) (by decide) (by decide) (by decide)
  have g := C1_lifecycle_close_removes_record decanonize48 exampleRegionInstance
    acceptingDriver freshHelper (helperGemCreated 7) (helperGemBound 7) (helperGemUnbound 7)
    (.gem 4096 1) 7 (exampleParams 0 0x1000) (exampleParams 0 0x1000) 0 0
    (by simp [freshHelper]) rfl rfl rfl
  ⟨⟨h.1, h.2.1 (by decide)⟩, ⟨g.1, g.2.2.1 (by decide)⟩⟩

/-- The first GemClose of a pair either sends nothing and returns 0, or sends one close
request for the handle and returns the kernel's status. -/
theorem ioctlGemClose_cases (drv : Driver) (xe : IoctlHelperXe) (h : Nat) :
    ((ioctlGemClose drv xe h).1 = 0 ∧ (ioctlGemClose drv xe h).2.trace = xe.trace) ∨
    ((ioctlGemClose drv xe h).1 = (drv xe.trace (.gemClose h)).ret ∧
      (ioctlGemClose drv xe h).2.trace = xe.trace ++ [.gemClose h]) := by
  unfold ioctlGemClose
  split
  · split
    · left; simp
    · right; simp [IoctlHelper.ioctl]
  · left; simp

/-- C2, as stated, fails: with one driver-backed record for handle 1 and a kernel that
rejects the close, the first of two closes returns -1, although the record is removed and
the second close returns 0. -/
theorem C2_first_close_returns_driver_status :
    (ioctlGemClose rejectingDriver helperOneObject 1).1 = -1 ∧
    (ioctlGemClose rejectingDriver helperOneObject 1).2.bindInfo = [] ∧
    (ioctlGemClose rejectingDriver (ioctlGemClose rejectingDriver helperOneObject 1).2 1).1 = 0 := by
  decide

/-- C2, amended: GemClose on a handle without a record returns 0 and leaves the helper as
it was (table unchanged, nothing sent); hence, when a handle is closed twice and the first
close left no record for it, the second close returns 0 and sends nothing, at most one
close request is sent in total, and the first close returns 0 when it sent nothing and
otherwise the kernel's status for its request, so 0 whenever the kernel accepts. -/
theorem C2_close_without_record_is_noop (drv : Driver) (xe : IoctlHelperXe) (h : Nat) :
    ((∀ b ∈ xe.bindInfo, b.handle ≠ h) → ioctlGemClose drv xe h = (0, xe)) ∧
    ((∀ b ∈ (ioctlGemClose drv xe h).2.bindInfo, b.handle ≠ h) →
      ioctlGemClose drv (ioctlGemClose drv xe h).2 h = (0, (ioctlGemClose drv xe h).2) ∧
      (((ioctlGemClose drv xe h).1 = 0 ∧ (ioctlGemClose drv xe h).2.trace = xe.trace) ∨
        ((ioctlGemClose drv xe h).1 = (drv xe.trace (.gemClose h)).ret ∧
          (ioctlGemClose drv xe h).2.trace = xe.trace ++ [.gemClose h])) ∧
      ((drv xe.trace (.gemClose h)).ret = 0 → (ioctlGemClose drv xe h).1 = 0)) := by
  refine ⟨ioctlGemClose_not_found drv xe h, fun hgone => ⟨?_, ioctlGemClose_cases drv xe h, ?_⟩⟩
  · exact ioctlGemClose_not_found drv _ h hgone
  · intro hacc
    rcases ioctlGemClose_cases drv xe h with h1 | h1
    · exact h1.1
    · rw [h1.1, hacc]

/-- Witness of C2: closing handle 1 twice on a table with one record for it. -/
theorem C2_close_without_record_is_noop_witness :
    ioctlGemClose acceptingDriver freshHelper 1 = (0, freshHelper) ∧
    ioctlGemClose acceptingDriver (ioctlGemClose acceptingDriver helperOneObject 1).2 1 =
      (0, (ioctlGemClose acceptingDriver helperOneObject 1).2) ∧
    (ioctlGemClose acceptingDriver helperOneObject 1).1 = 0 :=
  ⟨(C2_close_without_record_is_noop acceptingDriver freshHelper 1).1 (by simp [freshHelper]),
    ((C2_close_without_record_is_noop acceptingDriver helperOneObject 1).2 (by decide)).1,
    ((C2_close_without_record_is_noop acceptingDriver helperOneObject 1).2 (by decide)).2.2
      (by decide)⟩

/-- A vmBind whose handle matches no record returns -1 and changes nothing. -/
theorem vmBind_not_found (dec : Nat → Nat) (drv : Driver) (xe : IoctlHelperXe)
    (p : VmBindParams) (hno : ∀ b ∈ xe.bindInfo, b.handle ≠ p.handle) :
    vmBind dec drv xe p = some (-1, xe) := by
  apply xeVmBind_not_found
  simp only [xeVmBindIndex, if_true]
  rw [xeFindIndex_eq_none_iff]
  intro b hb
  have := hno b hb
  simp [Ne.symm this]

/-- A vmUnbind whose decanonized start matches no stored address returns -1 and changes
nothing. -/
theorem vmUnbind_not_found (dec : Nat → Nat) (drv : Driver) (xe : IoctlHelperXe)
    (p : VmBindParams) (hno : ∀ b ∈ xe.bindInfo, b.addr ≠ dec p.start) :
    vmUnbind dec drv xe p = some (-1, xe) := by
  apply xeVmBind_not_found
  simp only [xeVmBindIndex, Bool.false_eq_true, if_false]
  rw [xeFindIndex_eq_none_iff]
  intro b hb
  have := hno b hb
  simp [Ne.symm this]

/-- C3: a vmBind whose handle matches no record, and a vmUnbind whose decanonized start
matches no stored address, return -1 and leave the helper as it was: the table is
unchanged and neither a bind request nor a fence wait is sent. -/
theorem C3_bind_unbind_not_found (dec : Nat → Nat) (drv : Driver) (xe : IoctlHelperXe)
    (p : VmBindParams) :
    ((∀ b ∈ xe.bindInfo, b.handle ≠ p.handle) → vmBind dec drv xe p = some (-1, xe)) ∧
    ((∀ b ∈ xe.bindInfo, b.addr ≠ dec p.start) → vmUnbind dec drv xe p = some (-1, xe)) :=
  ⟨vmBind_not_found dec drv xe p, vmUnbind_not_found dec drv xe p⟩

/-- Witness of C3: the table holds handle 1 at address 0; bind handle 2, unbind 0x3000. -/
theorem C3_bind_unbind_not_found_witness :
    vmBind decanonize48 acceptingDriver helperOneObject (exampleParams 2 0x1000) =
      some (-1, helperOneObject) ∧
    vmUnbind decanonize48 acceptingDriver helperOneObject (exampleParams 1 0x3000) =
      some (-1, helperOneObject) :=
  ⟨(C3_bind_unbind_not_found decanonize48 acceptingDriver helperOneObject
      (exampleParams 2 0x1000)).1 (by decide),
    (C3_bind_unbind_not_found decanonize48 acceptingDriver helperOneObject
      (exampleParams 1 0x3000)).2 (by decide)⟩

/-! ## Bind and unbind: effect on the table -/

/-- A bind that finds b as the first record with its handle, with a well-formed extension:
the result in closed form. -/
theorem vmBind_first_record (dec : Nat → Nat) (drv : Driver) (xe : IoctlHelperXe)
    (p : VmBindParams) (ext : UserFenceExtension) (pre post : List BindInfo) (b : BindInfo)
    (hext : p.extensions = some ext) (htag : ext.tag = UserFenceExtension.tagValue)
    (htab : xe.bindInfo = pre ++ b :: post) (hpre : ∀ x ∈ pre, x.handle ≠ p.handle)
    (hb : b.handle = p.handle) :
    vmBind dec drv xe p =
      some (
        if (drv xe.trace (.gemVmBind (xeVmBindRequest dec p ext b true))).ret ≠ 0 then
          ((drv xe.trace (.gemVmBind (xeVmBindRequest dec p ext b true))).ret,
            { xe with
              bindInfo := pre ++ { b with addr := dec p.start } :: post
              trace := xe.trace ++ [.gemVmBind (xeVmBindRequest dec p ext b true)] })
        else
          xeWaitUserFence drv
            { xe with
              bindInfo := pre ++ { b with addr := dec p.start } :: post
              trace := xe.trace ++ [.gemVmBind (xeVmBindRequest dec p ext b true)] }
            .u64 .eq ext.addr ext.value XE_ONE_SEC) := by
  have hidx : xeVmBindIndex dec xe p true = some pre.length := by
    simp only [xeVmBindIndex, if_true, htab]
    apply xeFindIndex_append_cons
    · intro x hx
      have := hpre x hx
      simp [Ne.symm this]
    · simp [hb]
  have hrec : xe.bindInfo[pre.length]? = some b := by
    rw [htab]; exact getElem?_append_cons pre post b
  have h := xeVmBind_found dec drv xe p true pre.length b ext hidx hrec hext htag
  rw [htab, xeSetAddr_append_cons] at h
  rw [vmBind, h]

/-- An unbind that finds b as the first record storing the decanonized start, with a
well-formed extension: the result in closed form; the table is the old one. -/
theorem vmUnbind_first_record (dec : Nat → Nat) (drv : Driver) (xe : IoctlHelperXe)
    (p : VmBindParams) (ext : UserFenceExtension) (pre post : List BindInfo) (b : BindInfo)
    (hext : p.extensions = some ext) (htag : ext.tag = UserFenceExtension.tagValue)
    (htab : xe.bindInfo = pre ++ b :: post) (hpre : ∀ x ∈ pre, x.addr ≠ dec p.start)
    (hb : b.addr = dec p.start) :
    vmUnbind dec drv xe p =
      some (
        if (drv xe.trace (.gemVmBind (xeVmBindRequest dec p ext b false))).ret ≠ 0 then
          ((drv xe.trace (.gemVmBind (xeVmBindRequest dec p ext b false))).ret,
            { xe with
              trace := xe.trace ++ [.gemVmBind (xeVmBindRequest dec p ext b false)] })
        else
          xeWaitUserFence drv
            { xe with
              trace := xe.trace ++ [.gemVmBind (xeVmBindRequest dec p ext b false)] }
            .u64 .eq ext.addr ext.value XE_ONE_SEC) := by
  have hidx : xeVmBindIndex dec xe p false = some pre.length := by
    simp only [xeVmBindIndex, Bool.false_eq_true, if_false, htab]
    apply xeFindIndex_append_cons
    · intro x hx
      have := hpre x hx
      simp [Ne.symm this]
    · simp [hb]
  have hrec : xe.bindInfo[pre.length]? = some b := by
    rw [htab]; exact getElem?_append_cons pre post b
  have h := xeVmBind_found dec drv xe p false pre.length b ext hidx hrec hext htag
  have hsame : ({ b with addr := dec p.start } : BindInfo) = b := by
    cases b; simp at hb; simp [hb]
  rw [htab, xeSetAddr_append_cons, hsame] at h
  rw [vmUnbind, h, ← htab]

/-- An unbind never changes the table, whatever it returns. -/
theorem vmUnbind_bindInfo (dec : Nat → Nat) (drv : Driver) (xe xe' : IoctlHelperXe)
    (p : VmBindParams) (r : Int) (h : vmUnbind dec drv xe p = some (r, xe')) :
    xe'.bindInfo = xe.bindInfo := by
  rcases xeVmBind_some_inv dec drv xe xe' p false r h with ⟨_, _, h1⟩ | ⟨i, record, ext, hidx, _, hext, htag⟩
  · rw [h1]
  · simp only [xeVmBindIndex, Bool.false_eq_true, if_false] at hidx
    obtain ⟨pre, b, post, htab, _, hpre, hb⟩ := xeFindIndex_some_split _ _ _ hidx
    have hb' : b.addr = dec p.start := by
      have := hb
      simp at this
      exact this.symm
    have hpre' : ∀ x ∈ pre, x.addr ≠ dec p.start := by
      intro x hx hxa
      have := hpre x hx
      simp [hxa] at this
    rw [vmUnbind_first_record dec drv xe p ext pre post b hext htag htab hpre' hb'] at h
    split at h
    · simp at h
      rw [← h.2]
    · simp [xeWaitUserFence, IoctlHelper.ioctl] at h
      rw [← h.2]

/-- C4, as stated, fails: a record for handle 1 storing address 0, a bind at 0x1000 that the
kernel rejects; vmBind returns -1 and the record now stores 0x1000. -/
theorem C4_rejected_bind_changes_table :
    vmBind decanonize48 rejectingDriver helperOneObject (exampleParams 1 0x1000) =
      some (-1,
        { bindInfo := [{ handle := 1, userptr := 0, addr := 0x1000, size := 4096 }],
          userPtrHandle := 0,
          trace := [.gemVmBind (xeVmBindRequest decanonize48 (exampleParams 1 0x1000)
            exampleFence { handle := 1, userptr := 0, addr := 0, size := 4096 } true)] }) ∧
    helperOneObject.bindInfo = [{ handle := 1, userptr := 0, addr := 0, size := 4096 }] := by
  decide

/-- C4, amended: when the kernel rejects the bind request of a vmBind that found its
record, vmBind returns the kernel's status, sends no fence wait, and the table afterwards
is the old table with the located record's address replaced by decanonize(start); it
equals the old table exactly when the record already stored that address. -/
theorem C4_rejected_bind_stores_address (dec : Nat → Nat) (drv : Driver) (xe : IoctlHelperXe)
    (p : VmBindParams) (ext : UserFenceExtension) (pre post : List BindInfo) (b : BindInfo)
    (hext : p.extensions = some ext) (htag : ext.tag = UserFenceExtension.tagValue)
    (htab : xe.bindInfo = pre ++ b :: post) (hpre : ∀ x ∈ pre, x.handle ≠ p.handle)
    (hb : b.handle = p.handle)
    (hrej : (drv xe.trace (.gemVmBind (xeVmBindRequest dec p ext b true))).ret ≠ 0) :
    vmBind dec drv xe p =
      some ((drv xe.trace (.gemVmBind (xeVmBindRequest dec p ext b true))).ret,
        { xe with
          bindInfo := pre ++ { b with addr := dec p.start } :: post
          trace := xe.trace ++ [.gemVmBind (xeVmBindRequest dec p ext b true)] }) ∧
    (pre ++ { b with addr := dec p.start } :: post = xe.bindInfo ↔ b.addr = dec p.start) := by
  constructor
  · rw [vmBind_first_record dec drv xe p ext pre post b hext htag htab hpre hb]
    simp [hrej]
  · rw [htab]
    cases b
    simp
    exact eq_comm

/-- Witness of C4: the rejected bind of handle 1 at 0x1000. -/
theorem C4_rejected_bind_stores_address_witness :
    vmBind decanonize48 rejectingDriver helperOneObject (exampleParams 1 0x1000) =
      some ((rejectingDriver helperOneObject.trace
          (.gemVmBind (xeVmBindRequest decanonize48 (exampleParams 1 0x1000) exampleFence
            { handle := 1, userptr := 0, addr := 0, size := 4096 } true))).ret,
        { helperOneObject with
          bindInfo := [] ++ { ({ handle := 1, userptr := 0, addr := 0, size := 4096 } : BindInfo)
            with addr := decanonize48 (exampleParams 1 0x1000).start } :: []
          trace := helperOneObject.trace ++
            [.gemVmBind (xeVmBindRequest decanonize48 (exampleParams 1 0x1000) exampleFence
              { handle := 1, userptr := 0, addr := 0, size := 4096 } true)] }) :=
  (C4_rejected_bind_stores_address decanonize48 rejectingDriver helperOneObject
    (exampleParams 1 0x1000) exampleFence [] []
    { handle := 1, userptr := 0, addr := 0, size := 4096 } rfl rfl rfl (by simp) rfl
    (by decide)).1

/-- C5: a vmBind that finds b as the first record with its handle and whose request the
kernel accepts returns, and the table afterwards is the old table with that record's
address replaced by decanonize(start): the record's handle, user pointer and size, all
other records, and the number and order of records are as before. -/
theorem C5_accepted_bind_updates_first_record (dec : Nat → Nat) (drv : Driver)
    (xe : IoctlHelperXe) (p : VmBindParams) (ext : UserFenceExtension)
    (pre post : List BindInfo) (b : BindInfo)
    (hext : p.extensions = some ext) (htag : ext.tag = UserFenceExtension.tagValue)
    (htab : xe.bindInfo = pre ++ b :: post) (hpre : ∀ x ∈ pre, x.handle ≠ p.handle)
    (hb : b.handle = p.handle)
    (hacc : (drv xe.trace (.gemVmBind (xeVmBindRequest dec p ext b true))).ret = 0) :
    ∃ r xe', vmBind dec drv xe p = some (r, xe') ∧
      xe'.bindInfo =
        pre ++ { handle := b.handle, userptr := b.userptr, addr := dec p.start,
                 size := b.size } :: post ∧
      xe'.bindInfo.length = xe.bindInfo.length := by
  rw [vmBind_first_record dec drv xe p ext pre post b hext htag htab hpre hb]
  simp only [hacc, ne_eq, not_true_eq_false, if_false]
  refine ⟨_, _, rfl, ?_, ?_⟩
  · simp [xeWaitUserFence, IoctlHelper.ioctl]
  · simp [xeWaitUserFence, IoctlHelper.ioctl, htab]

/-- Witness of C5: binding the registered user pointer at 0x1000. -/
theorem C5_accepted_bind_updates_first_record_witness :
    ∃ r xe', vmBind decanonize48 acceptingDriver helperAfterRegister
        (exampleParams 0x800000 0x1000) = some (r, xe') ∧
      xe'.bindInfo =
        [] ++ { handle := exampleUserptrRecord.handle, userptr := exampleUserptrRecord.userptr,
                addr := decanonize48 (exampleParams 0x800000 0x1000).start,
                size := exampleUserptrRecord.size } :: [] ∧
      xe'.bindInfo.length = helperAfterRegister.bindInfo.length :=
  C5_accepted_bind_updates_first_record decanonize48 acceptingDriver helperAfterRegister
    (exampleParams 0x800000 0x1000) exampleFence [] [] exampleUserptrRecord rfl rfl rfl
    (by simp) rfl (by decide)

/-- C6, as stated, fails: the record of handle 0x800000 stores 0x1000; the unbind at 0x1000
succeeds (status 0) and the record still stores 0x1000, not 0, and a further unbind at
0x1000 would locate it again. -/
theorem C6_successful_unbind_keeps_address :
    vmUnbind decanonize48 acceptingDriver helperAfterBind (exampleParams 0 0x1000) =
      some (0, helperAfterUnbind) ∧
    helperAfterUnbind.bindInfo =
      [{ handle := 0x800000, userptr := 0x9000, addr := 0x1000, size := 4096 }] ∧
    xeVmBindIndex decanonize48 helperAfterUnbind (exampleParams 0 0x1000) false = some 0 := by
  decide

/-- C6, amended: after a successful vmUnbind of address a the table is the one before the
call; the record the unbind located still stores decanonize(a), and the search of a
further unbind of a locates the same record. -/
theorem C6_unbind_leaves_record_bound (dec : Nat → Nat) (drv : Driver)
    (xe xe' : IoctlHelperXe) (p : VmBindParams)
    (hok : vmUnbind dec drv xe p = some (0, xe')) :
    xe'.bindInfo = xe.bindInfo ∧
    ∃ i b, xeVmBindIndex dec xe p false = some i ∧ xe'.bindInfo[i]? = some b ∧
      b.addr = dec p.start ∧ xeVmBindIndex dec xe' p false = some i := by
  have hsame := vmUnbind_bindInfo dec drv xe xe' p 0 hok
  refine ⟨hsame, ?_⟩
  rcases xeVmBind_some_inv dec drv xe xe' p false 0 hok with ⟨_, h0, _⟩ | ⟨i, record, ext, hidx, hrec, _, _⟩
  · exact absurd h0 (by decide)
  · have hidx' := hidx
    simp only [xeVmBindIndex, Bool.false_eq_true, if_false] at hidx'
    obtain ⟨pre, b, post, htab, hlen, _, hb⟩ := xeFindIndex_some_split _ _ _ hidx'
    have hrec' : xe.bindInfo[i]? = some b := by
      rw [htab, ← hlen]; exact getElem?_append_cons pre post b
    refine ⟨i, b, hidx, by rw [hsame]; exact hrec', ?_, ?_⟩
    · have := hb
      simp at this
      exact this.symm
    · simp only [xeVmBindIndex, Bool.false_eq_true, if_false, hsame]
      exact hidx'

/-- Witness of C6: the successful unbind at 0x1000 of the bound user pointer. -/
theorem C6_unbind_leaves_record_bound_witness :
    helperAfterUnbind.bindInfo = helperAfterBind.bindInfo ∧
    ∃ i b, xeVmBindIndex decanonize48 helperAfterBind (exampleParams 0 0x1000) false = some i ∧
      helperAfterUnbind.bindInfo[i]? = some b ∧
      b.addr = decanonize48 (exampleParams 0 0x1000).start ∧
      xeVmBindIndex decanonize48 helperAfterUnbind (exampleParams 0 0x1000) false = some i :=
  C6_unbind_leaves_record_bound decanonize48 acceptingDriver helperAfterBind helperAfterUnbind
    (exampleParams 0 0x1000) (by decide)

/-! ## Index view of the table -/

theorem xeFindIndex_eq_some_iff (p : BindInfo → Bool) (l : List BindInfo) (i : Nat) :
    xeFindIndex p l = some i ↔
      (∃ b, l[i]? = some b ∧ p b = true) ∧ ∀ j < i, ∀ x, l[j]? = some x → p x = false := by
  induction l generalizing i with
  | nil => simp [xeFindIndex]
  | cons b bs ih =>
    by_cases hb : p b = true
    · cases i with
      | zero => simp [xeFindIndex, hb]
      | succ k =>
        simp only [xeFindIndex, hb, if_true]
        constructor
        · intro h; simp at h
        · rintro ⟨_, h⟩
          have := h 0 (Nat.succ_pos k) b (by simp)
          simp [hb] at this
    · have hb' : p b = false := by simpa using hb
      cases i with
      | zero => simp [xeFindIndex, hb']
      | succ k =>
        simp only [xeFindIndex, hb', Bool.false_eq_true, if_false, Option.map_eq_some',
          Nat.add_right_cancel_iff, exists_eq_right, ih k, List.getElem?_cons_succ]
        constructor
        · rintro ⟨h1, h2⟩
          refine ⟨h1, ?_⟩
          intro j hj x hx
          cases j with
          | zero => simp at hx; rw [← hx]; exact hb'
          | succ j' => exact h2 j' (Nat.lt_of_succ_lt_succ hj) x (by simpa using hx)
        · rintro ⟨h1, h2⟩
          refine ⟨h1, ?_⟩
          intro j hj x hx
          exact h2 (j + 1) (Nat.succ_lt_succ hj) x (by simpa using hx)

theorem xeSetAddr_getElem? (v i j : Nat) (l : List BindInfo) :
    (xeSetAddr v i l)[j]? =
      if j = i then l[j]?.map (fun b => { b with addr := v }) else l[j]? := by
  induction l generalizing i j with
  | nil => simp [xeSetAddr]
  | cons b bs ih =>
    cases i with
    | zero =>
      cases j with
      | zero => simp [xeSetAddr]
      | succ j' => simp [xeSetAddr]
    | succ i' =>
      cases j with
      | zero => simp [xeSetAddr]
      | succ j' => simp [xeSetAddr, ih]

theorem xeFindIndex_handle_setAddr (h v i : Nat) (l : List BindInfo) :
    xeFindIndex (fun b => h == b.handle) (xeSetAddr v i l) =
      xeFindIndex (fun b => h == b.handle) l := by
  induction l generalizing i with
  | nil => simp [xeSetAddr]
  | cons b bs ih =>
    cases i with
    | zero => simp [xeSetAddr, xeFindIndex]
    | succ i' => simp [xeSetAddr, xeFindIndex, ih]

/-- When xeVmBind returns and its search had found record number i, the table afterwards
is the old one with the decanonized start stored in record i. -/
theorem xeVmBind_some_found (dec : Nat → Nat) (drv : Driver) (xe xe' : IoctlHelperXe)
    (p : VmBindParams) (isBind : Bool) (r : Int) (i : Nat)
    (h : xeVmBind dec drv xe p isBind = some (r, xe'))
    (hidx : xeVmBindIndex dec xe p isBind = some i) :
    xe'.bindInfo = xeSetAddr (dec p.start) i xe.bindInfo := by
  rcases xeVmBind_some_inv dec drv xe xe' p isBind r h with ⟨h0, _, _⟩ | ⟨i', record, ext, hidx', hrec, hext, htag⟩
  · rw [hidx] at h0; simp at h0
  · rw [hidx] at hidx'
    simp at hidx'
    subst hidx'
    rw [xeVmBind_found dec drv xe p isBind i record ext hidx hrec hext htag] at h
    split at h
    · simp at h
      rw [← h.2]
    · simp [xeWaitUserFence, IoctlHelper.ioctl] at h
      rw [← h.2]

/-- A vmBind that does not return the not-found status found a record by handle and stored
the decanonized start in it. -/
theorem vmBind_ok_inv (dec : Nat → Nat) (drv : Driver) (xe xe' : IoctlHelperXe)
    (p : VmBindParams) (r : Int) (h : vmBind dec drv xe p = some (r, xe')) (hr : r ≠ -1) :
    ∃ i, xeFindIndex (fun b => p.handle == b.handle) xe.bindInfo = some i ∧
      xe'.bindInfo = xeSetAddr (dec p.start) i xe.bindInfo := by
  rcases xeVmBind_some_inv dec drv xe xe' p true r h with ⟨_, h0, _⟩ | ⟨i, _, _, hidx, _, _, _⟩
  · exact absurd h0 hr
  · refine ⟨i, ?_, xeVmBind_some_found dec drv xe xe' p true r i h hidx⟩
    simpa [xeVmBindIndex] using hidx

/-- C7, as stated, fails: handle 3 still stores 0x1000 from an earlier bind and precedes the
records of handles 1 and 2; after binding 1 at 0x1000 and 2 at 0x2000 successfully, the
search of an unbind at 0x1000 yields index 0, the record of handle 3, while the record of
handle 1 is at index 1. -/
theorem C7_unbind_locates_earlier_record :
    ((vmBind decanonize48 acceptingDriver helperThreeObjects (exampleParams 1 0x1000)).bind
      (fun r1 =>
        (vmBind decanonize48 acceptingDriver r1.2 (exampleParams 2 0x2000)).map
          (fun r2 =>
            (r1.1, r2.1, r2.2.bindInfo.map (fun b => (b.handle, b.addr)),
              xeVmBindIndex decanonize48 r2.2 (exampleParams 0 0x1000) false,
              xeFindIndex (fun b => 1 == b.handle) r2.2.bindInfo)))) =
      some (0, 0, [(3, 0x1000), (1, 0x1000), (2, 0x2000)], some 0, some 1) := by
  rfl

/-- C7, amended: for distinct handles h1, h2 bound successfully at a1 and a2, a following
vmUnbind at a1 leaves the table as it was (no record is removed, the number of records is
that of the start), the first record of h2 still stores decanonize(a2), and the search of
the unbind compares only stored addresses with decanonize(a1): it yields the first record
of h1 exactly when no record before it stores decanonize(a1). -/
theorem C7_unbind_locates_by_address (dec : Nat → Nat) (drv : Driver)
    (xe0 xe1 xe2 xe3 : IoctlHelperXe) (p1 p2 p3 : VmBindParams) (r3 : Int)
    (hne : p1.handle ≠ p2.handle)
    (hbind1 : vmBind dec drv xe0 p1 = some (0, xe1))
    (hbind2 : vmBind dec drv xe1 p2 = some (0, xe2))
    (hstart : p3.start = p1.start)
    (hunbind : vmUnbind dec drv xe2 p3 = some (r3, xe3)) :
    xe3.bindInfo = xe2.bindInfo ∧ xe3.bindInfo.length = xe0.bindInfo.length ∧
    (∃ i2 b2, xeFindIndex (fun b => p2.handle == b.handle) xe3.bindInfo = some i2 ∧
      xe3.bindInfo[i2]? = some b2 ∧ b2.addr = dec p2.start) ∧
    (∃ i1 b1, xeFindIndex (fun b => p1.handle == b.handle) xe2.bindInfo = some i1 ∧
      xe2.bindInfo[i1]? = some b1 ∧ b1.addr = dec p1.start ∧
      (xeVmBindIndex dec xe2 p3 false = some i1 ↔
        ∀ j < i1, ∀ x, xe2.bindInfo[j]? = some x → x.addr ≠ dec p1.start)) := by
  obtain ⟨i1, hi1, ht1⟩ := vmBind_ok_inv dec drv xe0 xe1 p1 0 hbind1 (by decide)
  obtain ⟨i2, hi2, ht2⟩ := vmBind_ok_inv dec drv xe1 xe2 p2 0 hbind2 (by decide)
  have ht3 := vmUnbind_bindInfo dec drv xe2 xe3 p3 r3 hunbind
  -- the records at i1 and i2 in the table after the first bind
  have hi1' : xeFindIndex (fun b => p1.handle == b.handle) xe1.bindInfo = some i1 := by
    rw [ht1, xeFindIndex_handle_setAddr]; exact hi1
  obtain ⟨⟨c0, hc0, _⟩, _⟩ := (xeFindIndex_eq_some_iff _ _ _).mp hi1
  obtain ⟨⟨c1, hc1, hc1h⟩, _⟩ := (xeFindIndex_eq_some_iff _ _ _).mp hi1'
  obtain ⟨⟨c2, hc2, hc2h⟩, _⟩ := (xeFindIndex_eq_some_iff _ _ _).mp hi2
  have hc1a : c1.addr = dec p1.start := by
    rw [ht1, xeSetAddr_getElem?] at hc1
    simp [hc0] at hc1
    rw [← hc1]
  have hi12 : i1 ≠ i2 := by
    intro heq
    rw [heq, hc2] at hc1
    simp at hc1 hc1h hc2h
    rw [hc1] at hc2h
    exact hne (hc1h.trans hc2h.symm)
  have hx1 : xe2.bindInfo[i1]? = some c1 := by
    rw [ht2, xeSetAddr_getElem?]
    simp [hi12, hc1]
  have hx2 : xe2.bindInfo[i2]? = some { c2 with addr := dec p2.start } := by
    rw [ht2, xeSetAddr_getElem?]
    simp [hc2]
  refine ⟨ht3, ?_, ⟨i2, _, ?_, by rw [ht3]; exact hx2, rfl⟩, ⟨i1, c1, ?_, hx1, hc1a, ?_⟩⟩
  · rw [ht3, ht2, xeSetAddr_length, ht1, xeSetAddr_length]
  · rw [ht3, ht2, xeFindIndex_handle_setAddr]; exact hi2
  · rw [ht2, xeFindIndex_handle_setAddr]; exact hi1'
  · simp only [xeVmBindIndex, Bool.false_eq_true, if_false, hstart]
    rw [xeFindIndex_eq_some_iff]
    constructor
    · rintro ⟨_, h⟩ j hj x hx hxa
      have := h j hj x hx
      simp [hxa] at this
    · intro h
      refine ⟨⟨c1, hx1, by simp [hc1a]⟩, ?_⟩
      intro j hj x hx
      have := h j hj x hx
      simp [Ne.symm this]

/-- Witness of C7: in the three-record table bind handle 1 at 0x3000 and handle 2 at
0x2000, then unbind at 0x3000. -/
theorem C7_unbind_locates_by_address_witness :
    helperThreeUnbound.bindInfo = helperThreeBoundTwo.bindInfo ∧
    helperThreeUnbound.bindInfo.length = helperThreeObjects.bindInfo.length ∧
    (∃ i2 b2, xeFindIndex (fun b => (exampleParams 2 0x2000).handle == b.handle)
        helperThreeUnbound.bindInfo = some i2 ∧
      helperThreeUnbound.bindInfo[i2]? = some b2 ∧
      b2.addr = decanonize48 (exampleParams 2 0x2000).start) ∧
    (∃ i1 b1, xeFindIndex (fun b => (exampleParams 1 0x3000).handle == b.handle)
        helperThreeBoundTwo.bindInfo = some i1 ∧
      helperThreeBoundTwo.bindInfo[i1]? = some b1 ∧
      b1.addr = decanonize48 (exampleParams 1 0x3000).start ∧
      (xeVmBindIndex decanonize48 helperThreeBoundTwo (exampleParams 0 0x3000) false = some i1 ↔
        ∀ j < i1, ∀ x, helperThreeBoundTwo.bindInfo[j]? = some x →
          x.addr ≠ decanonize48 (exampleParams 1 0x3000).start)) :=
  C7_unbind_locates_by_address decanonize48 acceptingDriver helperThreeObjects
    helperThreeBoundOne helperThreeBoundTwo helperThreeUnbound (exampleParams 1 0x3000)
    (exampleParams 2 0x2000) (exampleParams 0 0x3000) 0 (by decide) (by decide) (by decide)
    rfl (by decide)

/-! ## Handle uniqueness -/

/-- Appending one record keeps the handles pairwise distinct exactly when they were
distinct and the new handle was not in the table. -/
theorem updateBindInfo_nodup (xe : IoctlHelperXe) (handle userPtr size : Nat) :
    ((updateBindInfo xe handle userPtr size).bindInfo.map (·.handle)).Nodup ↔
      (xe.bindInfo.map (·.handle)).Nodup ∧ ∀ b ∈ xe.bindInfo, b.handle ≠ handle := by
  simp only [updateBindInfo, List.map_append, List.map_cons, List.map_nil]
  rw [List.nodup_append]
  constructor
  · rintro ⟨hn, _, hd⟩
    refine ⟨hn, ?_⟩
    intro b hb hbh
    exact hd (List.mem_map_of_mem _ hb) (by simp [hbh])
  · rintro ⟨hn, hd⟩
    refine ⟨hn, List.nodup_singleton _, ?_⟩
    intro x hx hx'
    obtain ⟨b, hb, hbx⟩ := List.mem_map.mp hx
    simp at hx'
    exact hd b hb (by rw [hbx, hx'])

/-- C8, as stated, fails: the table holds one record for handle 1 (handles pairwise
distinct); fillBindInfoForIpcHandle for handle 1 appends a second record with handle 1. -/
theorem C8_ipc_handle_inserted_twice :
    (helperOneObject.bindInfo.map (·.handle)).Nodup ∧
    (fillBindInfoForIpcHandle helperOneObject 1 4096).bindInfo.map (·.handle) = [1, 1] ∧
    ¬ ((fillBindInfoForIpcHandle helperOneObject 1 4096).bindInfo.map (·.handle)).Nodup := by
  decide

/-- C8, amended: vmBind, vmUnbind and GemClose preserve "no two records carry the same
handle" for every input; createGem, createGemExt, the GemUserptr registration and
fillBindInfoForIpcHandle append a record without looking at the table, so after them the
handles are pairwise distinct exactly when they were before and the inserted handle was
not in the table. -/
theorem C8_handles_distinct_preserved (dec regionInstance : Nat → Nat) (drv : Driver)
    (xe : IoctlHelperXe) :
    (∀ p r xe', vmBind dec drv xe p = some (r, xe') →
      (xe.bindInfo.map (·.handle)).Nodup → (xe'.bindInfo.map (·.handle)).Nodup) ∧
    (∀ p r xe', vmUnbind dec drv xe p = some (r, xe') →
      (xe.bindInfo.map (·.handle)).Nodup → (xe'.bindInfo.map (·.handle)).Nodup) ∧
    (∀ h, (xe.bindInfo.map (·.handle)).Nodup →
      ((ioctlGemClose drv xe h).2.bindInfo.map (·.handle)).Nodup) ∧
    (∀ h size, ((fillBindInfoForIpcHandle xe h size).bindInfo.map (·.handle)).Nodup ↔
      (xe.bindInfo.map (·.handle)).Nodup ∧ ∀ b ∈ xe.bindInfo, b.handle ≠ h) ∧
    (∀ userPtr userSize,
      ((ioctlGemUserptr xe userPtr userSize).2.2.bindInfo.map (·.handle)).Nodup ↔
        (xe.bindInfo.map (·.handle)).Nodup ∧
          ∀ b ∈ xe.bindInfo, b.handle ≠ (ioctlGemUserptr xe userPtr userSize).2.1) ∧
    (∀ size memoryBanks h xe',
      createGem regionInstance drv xe size memoryBanks = some (h, xe') →
      ((xe'.bindInfo.map (·.handle)).Nodup ↔
        (xe.bindInfo.map (·.handle)).Nodup ∧ ∀ b ∈ xe.bindInfo, b.handle ≠ h)) ∧
    (∀ regions allocSize vmId r h xe',
      createGemExt drv xe regions allocSize vmId = some (r, some h, xe') →
      ((xe'.bindInfo.map (·.handle)).Nodup ↔
        (xe.bindInfo.map (·.handle)).Nodup ∧ ∀ b ∈ xe.bindInfo, b.handle ≠ h)) ∧
    (∀ regions allocSize vmId r xe',
      createGemExt drv xe regions allocSize vmId = some (r, none, xe') → xe' = xe) := by
  refine ⟨?_, ?_, ?_, ?_, ?_, ?_, ?_, ?_⟩
  · intro p r xe' h hn
    rw [xeVmBind_handles dec drv xe xe' p true r h]; exact hn
  · intro p r xe' h hn
    rw [xeVmBind_handles dec drv xe xe' p false r h]; exact hn
  · intro h hn
    unfold ioctlGemClose
    split
    · rename_i found _
      have hsub : List.Sublist ((xe.bindInfo.eraseIdx found).map (·.handle))
          (xe.bindInfo.map (·.handle)) :=
        (List.eraseIdx_sublist _ _).map _
      by_cases hf : h &&& XE_USERPTR_FAKE_FLAG = 0
      · simpa [hf, IoctlHelper.ioctl] using hn.sublist hsub
      · simpa [hf, IoctlHelper.ioctl] using hn.sublist hsub
    · exact hn
  · intro h size
    exact updateBindInfo_nodup xe h 0 size
  · intro userPtr userSize
    simp only [ioctlGemUserptr]
    rw [updateBindInfo_nodup]
  · intro size memoryBanks h xe' hc
    simp only [createGem] at hc
    split at hc
    · simp at hc
    · simp at hc
      obtain ⟨h1, h2⟩ := hc
      rw [← h2, h1, updateBindInfo_nodup]
      simp [IoctlHelper.ioctl]
  · intro regions allocSize vmId r h xe' hc
    simp only [createGemExt] at hc
    split at hc
    · simp at hc
    · split at hc
      · simp at hc
      · simp at hc
        obtain ⟨_, h1, h2⟩ := hc
        rw [← h2, h1, updateBindInfo_nodup]
        simp [IoctlHelper.ioctl]
  · intro regions allocSize vmId r xe' hc
    simp only [createGemExt] at hc
    split at hc
    · simp at hc
      exact hc.2.symm
    · split at hc
      · simp at hc
      · simp at hc

/-- Witness of C8: closing handle 1 keeps the handles distinct, and inserting the new IPC
handle 2 next to handle 1 keeps them distinct. -/
theorem C8_handles_distinct_preserved_witness :
    ((ioctlGemClose acceptingDriver helperOneObject 1).2.bindInfo.map (·.handle)).Nodup ∧
    ((fillBindInfoForIpcHandle helperOneObject 2 4096).bindInfo.map (·.handle)).Nodup :=
  ⟨(C8_handles_distinct_preserved decanonize48 exampleRegionInstance acceptingDriver
      helperOneObject).2.2.1 1 (by decide),
    ((C8_handles_distinct_preserved decanonize48 exampleRegionInstance acceptingDriver
      helperOneObject).2.2.2.1 2 4096).mpr ⟨by decide, by decide⟩⟩

/-! ## Unbound records and the shape of the bind request -/

/-- C9, as stated, fails: the only record was created and never bound (stored address 0);
an unbind whose start decanonizes to 0 locates it, sends an unmap request and a fence wait,
and returns 0. -/
theorem C9_unbind_at_zero_locates_unbound_record :
    xeVmBindIndex decanonize48 helperOneObject (exampleParams 0 0) false = some 0 ∧
    vmUnbind decanonize48 acceptingDriver helperOneObject (exampleParams 0 0) =
      some (0,
        { helperOneObject with
          trace := [.gemVmBind (xeVmBindRequest decanonize48 (exampleParams 0 0) exampleFence
              { handle := 1, userptr := 0, addr := 0, size := 4096 } false),
            .gemWaitUserFence exampleWait] }) := by
  decide

/-- C9, amended: an unbind whose start does not decanonize to 0 never locates a record
whose stored address is 0 (the state of a record that was created and never bound), and
when every record stores 0 it returns -1 and leaves the helper as it was, sending
nothing; an unbind whose start decanonizes to 0 searches for the first record storing 0. -/
theorem C9_unbind_skips_unbound_records (dec : Nat → Nat) (drv : Driver) (xe : IoctlHelperXe)
    (p : VmBindParams) :
    (dec p.start ≠ 0 →
      (∀ i b, xeVmBindIndex dec xe p false = some i → xe.bindInfo[i]? = some b → b.addr ≠ 0) ∧
      ((∀ b ∈ xe.bindInfo, b.addr = 0) → vmUnbind dec drv xe p = some (-1, xe))) ∧
    (dec p.start = 0 →
      xeVmBindIndex dec xe p false = xeFindIndex (fun b => 0 == b.addr) xe.bindInfo) := by
  constructor
  · intro hnz
    constructor
    · intro i b hidx hrec hb0
      simp only [xeVmBindIndex, Bool.false_eq_true, if_false] at hidx
      obtain ⟨⟨c, hc, hca⟩, _⟩ := (xeFindIndex_eq_some_iff _ _ _).mp hidx
      rw [hrec] at hc
      simp at hc hca
      rw [← hc, hb0] at hca
      exact hnz hca
    · intro hall
      apply vmUnbind_not_found
      intro b hb hba
      exact hnz (by rw [← hba, hall b hb])
  · intro hz
    simp [xeVmBindIndex, hz]

/-- Witness of C9: the never-bound record of handle 1 and an unbind at 0x1000. -/
theorem C9_unbind_skips_unbound_records_witness :
    vmUnbind decanonize48 acceptingDriver helperOneObject (exampleParams 0 0x1000) =
      some (-1, helperOneObject) :=
  ((C9_unbind_skips_unbound_records decanonize48 acceptingDriver helperOneObject
    (exampleParams 0 0x1000)).1 (by decide)).2 (by decide)

/-- C10: with a well-formed extension, a vmBind that finds b as the first record with its
handle sends exactly one bind request; it has one operation, one sync entry,
range = length, address = decanonize(start), and operation MAP with object = handle and
object offset = the caller's offset when bit 0x800000 of the handle is clear, operation
MAP_USERPTR with object 0 and object offset = the record's user pointer when it is set.
A vmUnbind that finds b as the first record storing decanonize(start) sends exactly one
bind request, with operation UNMAP and object 0. -/
theorem C10_bind_request_fields (dec : Nat → Nat) (drv : Driver) (xe : IoctlHelperXe)
    (p : VmBindParams) (ext : UserFenceExtension) (pre post : List BindInfo) (b : BindInfo)
    (hext : p.extensions = some ext) (htag : ext.tag = UserFenceExtension.tagValue)
    (htab : xe.bindInfo = pre ++ b :: post) :
    ((∀ x ∈ pre, x.handle ≠ p.handle) → b.handle = p.handle →
      ∃ r xe' req rest, vmBind dec drv xe p = some (r, xe') ∧
        xe'.trace = xe.trace ++ .gemVmBind req :: rest ∧
        (∀ q ∈ rest, ∀ other, q ≠ .gemVmBind other) ∧
        req.num_binds = 1 ∧ req.num_syncs = 1 ∧ req.syncs.length = 1 ∧
        req.range = p.length ∧ req.addr = dec p.start ∧
        (p.handle &&& XE_USERPTR_FAKE_FLAG = 0 →
          req.op = .map ∧ req.obj = p.handle ∧ req.obj_offset = p.offset) ∧
        (p.handle &&& XE_USERPTR_FAKE_FLAG ≠ 0 →
          req.op = .mapUserptr ∧ req.obj = 0 ∧ req.obj_offset = b.userptr)) ∧
    ((∀ x ∈ pre, x.addr ≠ dec p.start) → b.addr = dec p.start →
      ∃ r xe' req rest, vmUnbind dec drv xe p = some (r, xe') ∧
        xe'.trace = xe.trace ++ .gemVmBind req :: rest ∧
        (∀ q ∈ rest, ∀ other, q ≠ .gemVmBind other) ∧
        req.num_binds = 1 ∧ req.num_syncs = 1 ∧ req.syncs.length = 1 ∧
        req.range = p.length ∧ req.addr = dec p.start ∧
        req.op = .unmap ∧ req.obj = 0) := by
  constructor
  · intro hpre hb
    rw [vmBind_first_record dec drv xe p ext pre post b hext htag htab hpre hb]
    by_cases hr : (drv xe.trace (.gemVmBind (xeVmBindRequest dec p ext b true))).ret = 0
    · simp only [hr, ne_eq, not_true_eq_false, if_false]
      refine ⟨_, _, xeVmBindRequest dec p ext b true,
        [.gemWaitUserFence (DrmXeWaitUserFence.mk ext.addr .eq true ext.value .u64 XE_ONE_SEC 0 0)],
        rfl, ?_, ?_, rfl, rfl, rfl, rfl, rfl, ?_, ?_⟩
      · simp [xeWaitUserFence, IoctlHelper.ioctl]
      · simp
      · intro hf; simp [xeVmBindRequest, hb, hf]
      · intro hf; simp [xeVmBindRequest, hb, hf]
    · simp only [hr, ne_eq, not_false_eq_true, if_true]
      refine ⟨_, _, xeVmBindRequest dec p ext b true, [], rfl, ?_, ?_, rfl, rfl, rfl, rfl, rfl,
        ?_, ?_⟩
      · simp
      · simp
      · intro hf; simp [xeVmBindRequest, hb, hf]
      · intro hf; simp [xeVmBindRequest, hb, hf]
  · intro hpre hb
    rw [vmUnbind_first_record dec drv xe p ext pre post b hext htag htab hpre hb]
    by_cases hr : (drv xe.trace (.gemVmBind (xeVmBindRequest dec p ext b false))).ret = 0
    · simp only [hr, ne_eq, not_true_eq_false, if_false]
      refine ⟨_, _, xeVmBindRequest dec p ext b false,
        [.gemWaitUserFence (DrmXeWaitUserFence.mk ext.addr .eq true ext.value .u64 XE_ONE_SEC 0 0)],
        rfl, ?_, ?_, rfl, rfl, rfl, rfl, rfl, rfl, rfl⟩
      · simp [xeWaitUserFence, IoctlHelper.ioctl]
      · simp
    · simp only [hr, ne_eq, not_false_eq_true, if_true]
      refine ⟨_, _, xeVmBindRequest dec p ext b false, [], rfl, ?_, ?_, rfl, rfl, rfl, rfl, rfl,
        rfl, rfl⟩
      · simp
      · simp

/-- Witness of C10: binding the registered user pointer at 0x1000 (operation MAP_USERPTR),
and unbinding at 0x1000 once it is bound (operation UNMAP). -/
theorem C10_bind_request_fields_witness :
    (∃ r xe' req rest, vmBind decanonize48 acceptingDriver helperAfterRegister
        (exampleParams 0x800000 0x1000) = some (r, xe') ∧
      xe'.trace = helperAfterRegister.trace ++ .gemVmBind req :: rest ∧
      (∀ q ∈ rest, ∀ other, q ≠ .gemVmBind other) ∧
      req.num_binds = 1 ∧ req.num_syncs = 1 ∧ req.syncs.length = 1 ∧
      req.range = (exampleParams 0x800000 0x1000).length ∧
      req.addr = decanonize48 (exampleParams 0x800000 0x1000).start ∧
      ((exampleParams 0x800000 0x1000).handle &&& XE_USERPTR_FAKE_FLAG = 0 →
        req.op = .map ∧ req.obj = (exampleParams 0x800000 0x1000).handle ∧
          req.obj_offset = (exampleParams 0x800000 0x1000).offset) ∧
      ((exampleParams 0x800000 0x1000).handle &&& XE_USERPTR_FAKE_FLAG ≠ 0 →
        req.op = .mapUserptr ∧ req.obj = 0 ∧ req.obj_offset = exampleUserptrRecord.userptr)) ∧
    (∃ r xe' req rest, vmUnbind decanonize48 acceptingDriver helperAfterBind
        (exampleParams 0 0x1000) = some (r, xe') ∧
      xe'.trace = helperAfterBind.trace ++ .gemVmBind req :: rest ∧
      (∀ q ∈ rest, ∀ other, q ≠ .gemVmBind other) ∧
      req.num_binds = 1 ∧ req.num_syncs = 1 ∧ req.syncs.length = 1 ∧
      req.range = (exampleParams 0 0x1000).length ∧
      req.addr = decanonize48 (exampleParams 0 0x1000).start ∧
      req.op = .unmap ∧ req.obj = 0) :=
  ⟨(C10_bind_request_fields decanonize48 acceptingDriver helperAfterRegister
      (exampleParams 0x800000 0x1000) exampleFence [] [] exampleUserptrRecord rfl rfl rfl).1
      (by simp) rfl,
    (C10_bind_request_fields decanonize48 acceptingDriver helperAfterBind
      (exampleParams 0 0x1000) exampleFence [] []
      { exampleUserptrRecord with addr := 0x1000 } rfl rfl rfl).2 (by simp) rfl⟩

/-! ## Fence waits -/

/-- An accepted bind that finds b as the first record with its handle: the bind request is
followed by one fence wait, whose status is returned. -/
theorem vmBind_accepted (dec : Nat → Nat) (drv : Driver) (xe : IoctlHelperXe)
    (p : VmBindParams) (ext : UserFenceExtension) (pre post : List BindInfo) (b : BindInfo)
    (hext : p.extensions = some ext) (htag : ext.tag = UserFenceExtension.tagValue)
    (htab : xe.bindInfo = pre ++ b :: post) (hpre : ∀ x ∈ pre, x.handle ≠ p.handle)
    (hb : b.handle = p.handle)
    (hacc : (drv xe.trace (.gemVmBind (xeVmBindRequest dec p ext b true))).ret = 0) :
    vmBind dec drv xe p =
      some ((drv (xe.trace ++ [.gemVmBind (xeVmBindRequest dec p ext b true)])
          (.gemWaitUserFence
            (DrmXeWaitUserFence.mk ext.addr .eq true ext.value .u64 XE_ONE_SEC 0 0))).ret,
        { xe with
          bindInfo := pre ++ { b with addr := dec p.start } :: post
          trace := xe.trace ++ [.gemVmBind (xeVmBindRequest dec p ext b true),
            .gemWaitUserFence
              (DrmXeWaitUserFence.mk ext.addr .eq true ext.value .u64 XE_ONE_SEC 0 0)] }) := by
  rw [vmBind_first_record dec drv xe p ext pre post b hext htag htab hpre hb]
  simp [hacc, xeWaitUserFence, IoctlHelper.ioctl]

/-- An accepted unbind that finds b as the first record storing the decanonized start: the
unmap request is followed by one fence wait, whose status is returned. -/
theorem vmUnbind_accepted (dec : Nat → Nat) (drv : Driver) (xe : IoctlHelperXe)
    (p : VmBindParams) (ext : UserFenceExtension) (pre post : List BindInfo) (b : BindInfo)
    (hext : p.extensions = some ext) (htag : ext.tag = UserFenceExtension.tagValue)
    (htab : xe.bindInfo = pre ++ b :: post) (hpre : ∀ x ∈ pre, x.addr ≠ dec p.start)
    (hb : b.addr = dec p.start)
    (hacc : (drv xe.trace (.gemVmBind (xeVmBindRequest dec p ext b false))).ret = 0) :
    vmUnbind dec drv xe p =
      some ((drv (xe.trace ++ [.gemVmBind (xeVmBindRequest dec p ext b false)])
          (.gemWaitUserFence
            (DrmXeWaitUserFence.mk ext.addr .eq true ext.value .u64 XE_ONE_SEC 0 0))).ret,
        { xe with
          trace := xe.trace ++ [.gemVmBind (xeVmBindRequest dec p ext b false),
            .gemWaitUserFence
              (DrmXeWaitUserFence.mk ext.addr .eq true ext.value .u64 XE_ONE_SEC 0 0)] }) := by
  rw [vmUnbind_first_record dec drv xe p ext pre post b hext htag htab hpre hb]
  simp [hacc, xeWaitUserFence, IoctlHelper.ioctl]

/-- What waitUserFence does for a non-zero address: one wait request, status returned. -/
theorem waitUserFence_nonzero (drv : Driver) (xe : IoctlHelperXe)
    (ctxId address value dataWidth : Nat) (timeout : Int) (flags : Nat) (haddr : address ≠ 0) :
    waitUserFence drv xe ctxId address value dataWidth timeout flags =
      ((drv xe.trace (.gemWaitUserFence
          (DrmXeWaitUserFence.mk address .gte true value (waitUserFenceMask dataWidth)
            (if timeout = -1 then TimeoutControls.maxTimeout else timeout) 0 0))).ret,
        { xe with
          trace := xe.trace ++ [.gemWaitUserFence
            (DrmXeWaitUserFence.mk address .gte true value (waitUserFenceMask dataWidth)
              (if timeout = -1 then TimeoutControls.maxTimeout else timeout) 0 0)] }) := by
  simp [waitUserFence, haddr, xeWaitUserFence, IoctlHelper.ioctl]

/-- C11: with a well-formed extension, a vmBind or vmUnbind that finds its record and whose
request the kernel accepts sends the bind request and then exactly one fence wait; the
wait is keyed to the address and value of the extension of this call, and the single sync
entry of the bind request carries the same pair. The state of the helper, and so every
earlier call, has no influence on the pair. -/
theorem C11_fence_wait_keyed_to_call (dec : Nat → Nat) (drv : Driver) (xe : IoctlHelperXe)
    (p : VmBindParams) (ext : UserFenceExtension) (pre post : List BindInfo) (b : BindInfo)
    (hext : p.extensions = some ext) (htag : ext.tag = UserFenceExtension.tagValue)
    (htab : xe.bindInfo = pre ++ b :: post) :
    ((∀ x ∈ pre, x.handle ≠ p.handle) → b.handle = p.handle →
      (drv xe.trace (.gemVmBind (xeVmBindRequest dec p ext b true))).ret = 0 →
      ∃ r xe' req wait, vmBind dec drv xe p = some (r, xe') ∧
        xe'.trace = xe.trace ++ [.gemVmBind req, .gemWaitUserFence wait] ∧
        wait.addr = ext.addr ∧ wait.value = ext.value ∧
        req.syncs = [DrmXeSync.mk [.userFence, .signal] ext.addr ext.value]) ∧
    ((∀ x ∈ pre, x.addr ≠ dec p.start) → b.addr = dec p.start →
      (drv xe.trace (.gemVmBind (xeVmBindRequest dec p ext b false))).ret = 0 →
      ∃ r xe' req wait, vmUnbind dec drv xe p = some (r, xe') ∧
        xe'.trace = xe.trace ++ [.gemVmBind req, .gemWaitUserFence wait] ∧
        wait.addr = ext.addr ∧ wait.value = ext.value ∧
        req.syncs = [DrmXeSync.mk [.userFence, .signal] ext.addr ext.value]) := by
  constructor
  · intro hpre hb hacc
    exact ⟨_, _, _, _, vmBind_accepted dec drv xe p ext pre post b hext htag htab hpre hb hacc,
      rfl, rfl, rfl, rfl⟩
  · intro hpre hb hacc
    exact ⟨_, _, _, _, vmUnbind_accepted dec drv xe p ext pre post b hext htag htab hpre hb hacc,
      rfl, rfl, rfl, rfl⟩

/-- Witness of C11: a bind of a 4096-byte object at offset 0 (the registered user pointer,
bound at 0x1000), and the unbind at 0x1000 once it is bound. -/
theorem C11_fence_wait_keyed_to_call_witness :
    (∃ r xe' req wait, vmBind decanonize48 acceptingDriver helperAfterRegister
        (exampleParams 0x800000 0x1000) = some (r, xe') ∧
      xe'.trace = helperAfterRegister.trace ++ [.gemVmBind req, .gemWaitUserFence wait] ∧
      wait.addr = exampleFence.addr ∧ wait.value = exampleFence.value ∧
      req.syncs = [DrmXeSync.mk [.userFence, .signal] exampleFence.addr exampleFence.value]) ∧
    (∃ r xe' req wait, vmUnbind decanonize48 acceptingDriver helperAfterBind
        (exampleParams 0 0x1000) = some (r, xe') ∧
      xe'.trace = helperAfterBind.trace ++ [.gemVmBind req, .gemWaitUserFence wait] ∧
      wait.addr = exampleFence.addr ∧ wait.value = exampleFence.value ∧
      req.syncs = [DrmXeSync.mk [.userFence, .signal] exampleFence.addr exampleFence.value]) :=
  ⟨(C11_fence_wait_keyed_to_call decanonize48 acceptingDriver helperAfterRegister
      (exampleParams 0x800000 0x1000) exampleFence [] [] exampleUserptrRecord rfl rfl rfl).1
      (by simp) rfl (by decide),
    (C11_fence_wait_keyed_to_call decanonize48 acceptingDriver helperAfterBind
      (exampleParams 0 0x1000) exampleFence [] []
      { exampleUserptrRecord with addr := 0x1000 } rfl rfl rfl).2 (by simp) rfl (by decide)⟩

/-- C12, as stated, fails: the accepted bind of the registered user pointer at 0x1000 ends
with a fence wait whose comparison is EQ, while waitUserFence on the same address and value
sends a wait whose comparison is GTE. -/
theorem C12_bind_wait_compares_for_equality :
    vmBind decanonize48 acceptingDriver helperAfterRegister (exampleParams 0x800000 0x1000) =
      some (0, helperAfterBind) ∧
    helperAfterBind.trace.getLast? = some (.gemWaitUserFence exampleWait) ∧
    exampleWait.op = .eq ∧
    (waitUserFence acceptingDriver helperAfterRegister 0 0x5000 1 Drm.ValueWidth.U64 1000000000
      0).2.trace = [.gemWaitUserFence { exampleWait with op := .gte }] := by
  decide

/-- C12, amended: the wait request that vmBind and vmUnbind send after an accepted bind
request uses the equality comparison, with the 64-bit mask and the one-second timeout;
the wait request of waitUserFence (for a non-zero address) uses the greater-or-equal
comparison. -/
theorem C12_wait_comparisons (dec : Nat → Nat) (drv : Driver) (xe : IoctlHelperXe)
    (p : VmBindParams) (ext : UserFenceExtension) (pre post : List BindInfo) (b : BindInfo)
    (hext : p.extensions = some ext) (htag : ext.tag = UserFenceExtension.tagValue)
    (htab : xe.bindInfo = pre ++ b :: post) :
    ((∀ x ∈ pre, x.handle ≠ p.handle) → b.handle = p.handle →
      (drv xe.trace (.gemVmBind (xeVmBindRequest dec p ext b true))).ret = 0 →
      ∃ r xe' req wait, vmBind dec drv xe p = some (r, xe') ∧
        xe'.trace = xe.trace ++ [.gemVmBind req, .gemWaitUserFence wait] ∧
        wait.op = .eq ∧ wait.mask = .u64 ∧ wait.timeout = XE_ONE_SEC) ∧
    ((∀ x ∈ pre, x.addr ≠ dec p.start) → b.addr = dec p.start →
      (drv xe.trace (.gemVmBind (xeVmBindRequest dec p ext b false))).ret = 0 →
      ∃ r xe' req wait, vmUnbind dec drv xe p = some (r, xe') ∧
        xe'.trace = xe.trace ++ [.gemVmBind req, .gemWaitUserFence wait] ∧
        wait.op = .eq ∧ wait.mask = .u64 ∧ wait.timeout = XE_ONE_SEC) ∧
    (∀ ctxId address value dataWidth timeout flags, address ≠ 0 →
      ∃ wait, (waitUserFence drv xe ctxId address value dataWidth timeout flags).2.trace =
          xe.trace ++ [.gemWaitUserFence wait] ∧ wait.op = .gte) := by
  refine ⟨?_, ?_, ?_⟩
  · intro hpre hb hacc
    exact ⟨_, _, _, _, vmBind_accepted dec drv xe p ext pre post b hext htag htab hpre hb hacc,
      rfl, rfl, rfl, rfl⟩
  · intro hpre hb hacc
    exact ⟨_, _, _, _, vmUnbind_accepted dec drv xe p ext pre post b hext htag htab hpre hb hacc,
      rfl, rfl, rfl, rfl⟩
  · intro ctxId address value dataWidth timeout flags haddr
    rw [waitUserFence_nonzero drv xe ctxId address value dataWidth timeout flags haddr]
    exact ⟨_, rfl, rfl⟩

/-- Witness of C12: the accepted bind of the registered user pointer at 0x1000. -/
theorem C12_wait_comparisons_witness :
    ∃ r xe' req wait, vmBind decanonize48 acceptingDriver helperAfterRegister
        (exampleParams 0x800000 0x1000) = some (r, xe') ∧
      xe'.trace = helperAfterRegister.trace ++ [.gemVmBind req, .gemWaitUserFence wait] ∧
      wait.op = .eq ∧ wait.mask = .u64 ∧ wait.timeout = XE_ONE_SEC :=
  (C12_wait_comparisons decanonize48 acceptingDriver helperAfterRegister
    (exampleParams 0x800000 0x1000) exampleFence [] [] exampleUserptrRecord rfl rfl rfl).1
    (by simp) rfl (by decide)

/-- C13: for a non-zero address, waitUserFence sends exactly one wait request and returns
the kernel's status for it; the request has addr = address, value = value, comparison
GTE, timeout = maxTimeout when the caller's timeout is -1 and the caller's timeout
otherwise, and a mask chosen by the width alone: U64 for the 64-bit width, U32 for the
32-bit width, U16 for the 16-bit width, U8 for every other width. No other field depends
on the width. -/
theorem C13_waitUserFence_request (drv : Driver) (xe : IoctlHelperXe)
    (ctxId address value dataWidth : Nat) (timeout : Int) (flags : Nat) (haddr : address ≠ 0) :
    waitUserFence drv xe ctxId address value dataWidth timeout flags =
      ((drv xe.trace (.gemWaitUserFence
          (DrmXeWaitUserFence.mk address .gte true value (waitUserFenceMask dataWidth)
            (if timeout = -1 then TimeoutControls.maxTimeout else timeout) 0 0))).ret,
        { xe with
          trace := xe.trace ++ [.gemWaitUserFence
            (DrmXeWaitUserFence.mk address .gte true value (waitUserFenceMask dataWidth)
              (if timeout = -1 then TimeoutControls.maxTimeout else timeout) 0 0)] }) ∧
    (dataWidth = Drm.ValueWidth.U64 → waitUserFenceMask dataWidth = .u64) ∧
    (dataWidth = Drm.ValueWidth.U32 → waitUserFenceMask dataWidth = .u32) ∧
    (dataWidth = Drm.ValueWidth.U16 → waitUserFenceMask dataWidth = .u16) ∧
    (dataWidth ≠ Drm.ValueWidth.U64 → dataWidth ≠ Drm.ValueWidth.U32 →
      dataWidth ≠ Drm.ValueWidth.U16 → waitUserFenceMask dataWidth = .u8) := by
  refine ⟨waitUserFence_nonzero drv xe ctxId address value dataWidth timeout flags haddr,
    ?_, ?_, ?_, ?_⟩
  · intro h; subst h; decide
  · intro h; subst h; decide
  · intro h; subst h; decide
  · intro h1 h2 h3; simp [waitUserFenceMask, h1, h2, h3]

/-- Witness of C13: an infinite 32-bit wait on address 0x5000 for value 1. -/
theorem C13_waitUserFence_request_witness :
    waitUserFence acceptingDriver freshHelper 0 0x5000 1 Drm.ValueWidth.U32 (-1) 0 =
      (0, { freshHelper with
        trace := [.gemWaitUserFence
          (DrmXeWaitUserFence.mk 0x5000 .gte true 1 .u32 TimeoutControls.maxTimeout 0 0)] }) :=
  (C13_waitUserFence_request acceptingDriver freshHelper 0 0x5000 1 Drm.ValueWidth.U32 (-1) 0
    (by decide)).1

/-! ## Topology aggregation -/

theorem dssCount_nonneg (mask : List Nat) : 0 ≤ dssCount mask := by
  unfold dssCount
  exact Int.ofNat_nonneg _

theorem subSliceCountPerTile_nonneg (tile : TileMasks) : 0 ≤ subSliceCountPerTile tile := by
  unfold subSliceCountPerTile
  split
  · exact Int.add_nonneg (dssCount_nonneg _) (dssCount_nonneg _)
  · exact dssCount_nonneg _

theorem euPerDssPerTile_nonneg (tile : TileMasks) : 0 ≤ euPerDssPerTile tile :=
  dssCount_nonneg _

/-- The tile loop, component by component. -/
theorem foldl_getTopologyDataTile (tiles : List TileMasks) (st : TopologyScan) :
    (tiles.foldl getTopologyDataTile st).subSliceCount =
      (tiles.map subSliceCountPerTile).foldl pickSmallest st.subSliceCount ∧
    (tiles.foldl getTopologyDataTile st).euPerDss =
      (tiles.map euPerDssPerTile).foldl pickSmallest st.euPerDss ∧
    (tiles.foldl getTopologyDataTile st).topologyData.maxSubSliceCount =
      (tiles.map subSliceCountPerTile).foldl max st.topologyData.maxSubSliceCount ∧
    (tiles.foldl getTopologyDataTile st).topologyData.maxEuPerSubSlice =
      (tiles.map euPerDssPerTile).foldl max st.topologyData.maxEuPerSubSlice ∧
    (tiles.foldl getTopologyDataTile st).isComputeDssEmpty =
      (st.isComputeDssEmpty || tiles.any (fun t => decide (dssCount t.computeDss = 0))) := by
  induction tiles generalizing st with
  | nil => simp
  | cons t ts ih =>
    simp only [List.foldl_cons, List.map_cons, List.any_cons]
    obtain ⟨h1, h2, h3, h4, h5⟩ := ih (getTopologyDataTile st t)
    refine ⟨h1, h2, h3, h4, ?_⟩
    rw [h5]
    by_cases hc : dssCount t.computeDss = 0
    · simp [getTopologyDataTile, hc]
    · simp [getTopologyDataTile, hc]

/-- The running minimum over positive values: started at 0 or at a positive value, it ends
at the least of the values seen. -/
theorem foldl_pickSmallest (xs : List Int) (acc : Int) (hpos : ∀ x ∈ xs, 0 < x)
    (hacc : 0 ≤ acc) :
    (acc = 0 → xs ≠ [] →
      (∀ x ∈ xs, xs.foldl pickSmallest acc ≤ x) ∧ xs.foldl pickSmallest acc ∈ xs) ∧
    (0 < acc →
      xs.foldl pickSmallest acc ≤ acc ∧ (∀ x ∈ xs, xs.foldl pickSmallest acc ≤ x) ∧
      (xs.foldl pickSmallest acc = acc ∨ xs.foldl pickSmallest acc ∈ xs)) := by
  induction xs generalizing acc with
  | nil =>
    constructor
    · intro _ h; exact absurd rfl h
    · intro _; simp
  | cons y ys ih =>
    have hy : 0 < y := hpos y (by simp)
    have hys : ∀ x ∈ ys, 0 < x := fun x hx => hpos x (by simp [hx])
    constructor
    · intro h0 _
      have hstep : pickSmallest acc y = y := by simp [pickSmallest, h0]
      simp only [List.foldl_cons, hstep]
      obtain ⟨hle, hall, hmem⟩ := (ih y hys (le_of_lt hy)).2 hy
      refine ⟨?_, ?_⟩
      · intro x hx
        rcases List.mem_cons.mp hx with rfl | hx
        · exact hle
        · exact hall x hx
      · rcases hmem with h | h
        · rw [h]; simp
        · exact List.mem_cons_of_mem _ h
    · intro hp
      have hstep : pickSmallest acc y = min acc y := by
        simp [pickSmallest, ne_of_gt hp]
      have hm : 0 < min acc y := lt_min hp hy
      simp only [List.foldl_cons, hstep]
      obtain ⟨hle, hall, hmem⟩ := (ih (min acc y) hys (le_of_lt hm)).2 hm
      refine ⟨le_trans hle (min_le_left _ _), ?_, ?_⟩
      · intro x hx
        rcases List.mem_cons.mp hx with rfl | hx
        · exact le_trans hle (min_le_right _ _)
        · exact hall x hx
      · rcases hmem with h | h
        · rcases min_choice acc y with hc | hc
          · left; rw [h, hc]
          · right; rw [h, hc]; simp
        · right; exact List.mem_cons_of_mem _ h

/-- The running maximum over non-negative values started at 0 is the greatest of them. -/
theorem foldl_max (xs : List Int) (acc : Int) :
    acc ≤ xs.foldl max acc ∧ (∀ x ∈ xs, x ≤ xs.foldl max acc) ∧
    (xs.foldl max acc = acc ∨ xs.foldl max acc ∈ xs) := by
  induction xs generalizing acc with
  | nil => simp
  | cons y ys ih =>
    simp only [List.foldl_cons]
    obtain ⟨hle, hall, hmem⟩ := ih (max acc y)
    refine ⟨le_trans (le_max_left _ _) hle, ?_, ?_⟩
    · intro x hx
      rcases List.mem_cons.mp hx with rfl | hx
      · exact le_trans (le_max_right _ _) hle
      · exact hall x hx
    · rcases hmem with h | h
      · rcases max_choice acc y with hc | hc
        · left; rw [h, hc]
        · right; rw [h, hc]; simp
      · right; exact List.mem_cons_of_mem _ h

/-- The fields of the result of getTopologyData in terms of the per-tile values. -/
theorem getTopologyData_fields (tiles : List TileMasks) (td : DrmQueryTopologyData)
    (flag : Bool) :
    (getTopologyData tiles td flag).1.subSliceCount =
      (tiles.map subSliceCountPerTile).foldl pickSmallest 0 ∧
    (getTopologyData tiles td flag).1.euCount =
      (tiles.map subSliceCountPerTile).foldl pickSmallest 0 *
        (tiles.map euPerDssPerTile).foldl pickSmallest 0 ∧
    (getTopologyData tiles td flag).1.maxSubSliceCount =
      (tiles.map subSliceCountPerTile).foldl max td.maxSubSliceCount ∧
    (getTopologyData tiles td flag).1.maxEuPerSubSlice =
      (tiles.map euPerDssPerTile).foldl max td.maxEuPerSubSlice ∧
    (getTopologyData tiles td flag).1.sliceCount = 1 ∧
    (getTopologyData tiles td flag).1.maxSliceCount = 1 ∧
    (getTopologyData tiles td flag).2 =
      (flag || tiles.any (fun t => decide (dssCount t.computeDss = 0))) := by
  obtain ⟨h1, h2, h3, h4, h5⟩ := foldl_getTopologyDataTile tiles
    { subSliceCount := 0, euPerDss := 0, topologyData := td, isComputeDssEmpty := flag }
  exact ⟨h1, by simp only [getTopologyData]; rw [h1, h2], h3, h4, rfl, rfl, h5⟩

/-- The greatest of non-negative per-tile values, started from 0, is attained on a tile. -/
theorem foldl_max_tiles (tiles : List TileMasks) (f : TileMasks → Int) (hne : tiles ≠ [])
    (hf : ∀ t, 0 ≤ f t) :
    (∀ t ∈ tiles, f t ≤ (tiles.map f).foldl max 0) ∧
    ∃ t ∈ tiles, (tiles.map f).foldl max 0 = f t := by
  obtain ⟨_, hall, hmem⟩ := foldl_max (tiles.map f) 0
  have hall' : ∀ t ∈ tiles, f t ≤ (tiles.map f).foldl max 0 :=
    fun t ht => hall (f t) (List.mem_map_of_mem _ ht)
  refine ⟨hall', ?_⟩
  rcases hmem with h | h
  · obtain ⟨t, ts, rfl⟩ := List.exists_cons_of_ne_nil hne
    refine ⟨t, by simp, ?_⟩
    have := hall' t (by simp)
    rw [h] at this
    rw [h]
    exact le_antisymm (hf t) this
  · obtain ⟨t, ht, hft⟩ := List.mem_map.mp h
    exact ⟨t, ht, hft.symm⟩

/-- The running minimum of per-tile values none of which is 0, started from 0, is the
least of them and is attained on a tile. -/
theorem foldl_pickSmallest_tiles (tiles : List TileMasks) (f : TileMasks → Int)
    (hne : tiles ≠ []) (hf : ∀ t, 0 ≤ f t) (hnz : ∀ t ∈ tiles, f t ≠ 0) :
    (∀ t ∈ tiles, (tiles.map f).foldl pickSmallest 0 ≤ f t) ∧
    ∃ t ∈ tiles, (tiles.map f).foldl pickSmallest 0 = f t := by
  have hpos : ∀ x ∈ tiles.map f, 0 < x := by
    intro x hx
    obtain ⟨t, ht, rfl⟩ := List.mem_map.mp hx
    exact lt_of_le_of_ne (hf t) (Ne.symm (hnz t ht))
  have hne' : tiles.map f ≠ [] := by simpa using hne
  obtain ⟨hall, hmem⟩ := (foldl_pickSmallest (tiles.map f) 0 hpos (le_refl 0)).1 rfl hne'
  refine ⟨fun t ht => hall (f t) (List.mem_map_of_mem _ ht), ?_⟩
  obtain ⟨t, ht, hft⟩ := List.mem_map.mp hmem
  exact ⟨t, ht, hft.symm⟩

/-- The running value of "pick smallest" over non-negative values is not negative. -/
theorem foldl_pickSmallest_nonneg (xs : List Int) (acc : Int) (hx : ∀ x ∈ xs, 0 ≤ x)
    (hacc : 0 ≤ acc) : 0 ≤ xs.foldl pickSmallest acc := by
  induction xs generalizing acc with
  | nil => exact hacc
  | cons y ys ih =>
    rw [List.foldl_cons]
    apply ih _ (fun x hx2 => hx x (List.mem_cons_of_mem _ hx2))
    have hy : 0 ≤ y := hx y (List.mem_cons_self _ _)
    unfold pickSmallest
    split
    · exact hy
    · exact le_min hacc hy

/-- A tile with value 0 brings the running value of "pick smallest" back to 0: the tiles
up to and including it do not count for what follows. -/
theorem foldl_pickSmallest_after_zero (f : TileMasks → Int) (hf : ∀ t, 0 ≤ f t)
    (pre post : List TileMasks)
    (hpre : pre = [] ∨ ∃ init z, pre = init ++ [z] ∧ f z = 0) :
    ((pre ++ post).map f).foldl pickSmallest 0 = (post.map f).foldl pickSmallest 0 := by
  have hzero : (pre.map f).foldl pickSmallest 0 = 0 := by
    rcases hpre with h | ⟨init, z, h, hz⟩
    · rw [h]; rfl
    · rw [h, List.map_append, List.foldl_append, List.map_cons, List.map_nil,
        List.foldl_cons, List.foldl_nil, hz]
      have hv : 0 ≤ (init.map f).foldl pickSmallest 0 := by
        apply foldl_pickSmallest_nonneg _ _ _ (le_refl 0)
        intro x hx
        obtain ⟨t, _, rfl⟩ := List.mem_map.mp hx
        exact hf t
      unfold pickSmallest
      split
      · rfl
      · exact min_eq_right hv
  rw [List.map_append, List.foldl_append, hzero]

/-- C14, as stated, fails, and the aggregated value depends on the order of the tiles: a
tile without any sub-slice bit (count 0) followed by a tile with 6 gives subSliceCount 6,
not the minimum 0; the same two tiles in the other order give 0. -/
theorem C14_result_depends_on_tile_order :
    subSliceCountPerTile tileNoSubSlices = 0 ∧ subSliceCountPerTile tileSixSixteen = 6 ∧
    (getTopologyData [tileNoSubSlices, tileSixSixteen] {} false).1.subSliceCount = 6 ∧
    (getTopologyData [tileSixSixteen, tileNoSubSlices] {} false).1.subSliceCount = 0 := by
  decide

/-- C14: what getTopologyData computes from zero-initialised topology data. Split the
tiles after the last tile whose sub-slice count is 0 (preS is empty or ends with such a
tile, no tile of postS has count 0): subSliceCount is 0 when postS is empty and otherwise
the minimum of the sub-slice counts over postS only. With the same kind of split preE,
postE for the EU bit counts, euCount is subSliceCount times a value that is 0 when postE is
empty and otherwise the minimum of the EU bit counts over postE. So both are the minima
over all tiles exactly when no tile before the last one has count 0. maxSubSliceCount and
maxEuPerSubSlice are the maxima over all tiles. -/
theorem C14_topology_aggregation (preS postS preE postE : List TileMasks) (flag : Bool)
    (hne : preS ++ postS ≠ []) (hsame : preE ++ postE = preS ++ postS)
    (hpreS : preS = [] ∨ ∃ init z, preS = init ++ [z] ∧ subSliceCountPerTile z = 0)
    (hpostS : ∀ t ∈ postS, subSliceCountPerTile t ≠ 0)
    (hpreE : preE = [] ∨ ∃ init z, preE = init ++ [z] ∧ euPerDssPerTile z = 0)
    (hpostE : ∀ t ∈ postE, euPerDssPerTile t ≠ 0) :
    (postS = [] → (getTopologyData (preS ++ postS) {} flag).1.subSliceCount = 0) ∧
    (postS ≠ [] →
      (∀ t ∈ postS,
        (getTopologyData (preS ++ postS) {} flag).1.subSliceCount ≤ subSliceCountPerTile t) ∧
      ∃ t ∈ postS,
        (getTopologyData (preS ++ postS) {} flag).1.subSliceCount = subSliceCountPerTile t) ∧
    (∃ euPerDss,
      (getTopologyData (preS ++ postS) {} flag).1.euCount =
        (getTopologyData (preS ++ postS) {} flag).1.subSliceCount * euPerDss ∧
      (postE = [] → euPerDss = 0) ∧
      (postE ≠ [] →
        (∀ t ∈ postE, euPerDss ≤ euPerDssPerTile t) ∧
        ∃ t ∈ postE, euPerDss = euPerDssPerTile t)) ∧
    ((∀ t ∈ preS ++ postS,
        subSliceCountPerTile t ≤
          (getTopologyData (preS ++ postS) {} flag).1.maxSubSliceCount) ∧
      ∃ t ∈ preS ++ postS,
        (getTopologyData (preS ++ postS) {} flag).1.maxSubSliceCount =
          subSliceCountPerTile t) ∧
    ((∀ t ∈ preS ++ postS,
        euPerDssPerTile t ≤ (getTopologyData (preS ++ postS) {} flag).1.maxEuPerSubSlice) ∧
      ∃ t ∈ preS ++ postS,
        (getTopologyData (preS ++ postS) {} flag).1.maxEuPerSubSlice =
          euPerDssPerTile t) := by
  obtain ⟨h1, h2, h3, h4, _, _, _⟩ := getTopologyData_fields (preS ++ postS) {} flag
  have hS := foldl_pickSmallest_after_zero subSliceCountPerTile subSliceCountPerTile_nonneg
    preS postS hpreS
  have hE := foldl_pickSmallest_after_zero euPerDssPerTile euPerDssPerTile_nonneg
    preE postE hpreE
  rw [hsame] at hE
  refine ⟨?_, ?_, ⟨_, by rw [h2, h1], ?_, ?_⟩, ?_, ?_⟩
  · intro hnil
    rw [h1, hS, hnil]
    rfl
  · intro hpost
    rw [h1, hS]
    exact foldl_pickSmallest_tiles postS subSliceCountPerTile hpost
      subSliceCountPerTile_nonneg hpostS
  · intro hnil
    rw [hE, hnil]
    rfl
  · intro hpost
    rw [hE]
    exact foldl_pickSmallest_tiles postE euPerDssPerTile hpost euPerDssPerTile_nonneg hpostE
  · rw [h3]
    exact foldl_max_tiles (preS ++ postS) subSliceCountPerTile hne subSliceCountPerTile_nonneg
  · rw [h4]
    exact foldl_max_tiles (preS ++ postS) euPerDssPerTile hne euPerDssPerTile_nonneg

/-- Witness of C14: per-tile sub-slice counts 8, 0, 6, 8 and EU bit counts 16, 8, 16, 8.
The tiles after the tile with count 0 have counts 6 and 8: subSliceCount is 6, euCount is
6 * 8, maxSubSliceCount 8 and maxEuPerSubSlice 16. -/
theorem C14_topology_aggregation_witness :
    ((∀ t ∈ [tileSixSixteen, tileEightEight],
        (getTopologyData [tileEightSixteen, tileNoSubSlices, tileSixSixteen, tileEightEight]
          {} false).1.subSliceCount ≤ subSliceCountPerTile t) ∧
      ∃ t ∈ [tileSixSixteen, tileEightEight],
        (getTopologyData [tileEightSixteen, tileNoSubSlices, tileSixSixteen, tileEightEight]
          {} false).1.subSliceCount = subSliceCountPerTile t) ∧
    getTopologyData [tileEightSixteen, tileNoSubSlices, tileSixSixteen, tileEightEight]
        {} false =
      ({ sliceCount := 1, subSliceCount := 6, euCount := 48, maxSliceCount := 1,
         maxSubSliceCount := 8, maxEuPerSubSlice := 16 }, true) :=
  ⟨(C14_topology_aggregation [tileEightSixteen, tileNoSubSlices]
      [tileSixSixteen, tileEightEight] []
      [tileEightSixteen, tileNoSubSlices, tileSixSixteen, tileEightEight] false (by simp) rfl
      (Or.inr ⟨[tileEightSixteen], tileNoSubSlices, rfl, by decide⟩) (by decide)
      (Or.inl rfl) (by decide)).2.1 (by simp),
    by decide⟩

theorem xeFindMatchingEngineIn_eq_none_iff (c i : Nat) (l : List DrmXeEngineClassInstance) :
    xeFindMatchingEngineIn c i l = none ↔
      ∀ x ∈ l, ¬ (x.engine_class = c ∧
        (i = XE_FIND_INVALID_INSTANCE ∨ x.engine_instance = i)) := by
  induction l with
  | nil => simp [xeFindMatchingEngineIn]
  | cons e es ih =>
    by_cases he : e.engine_class = c ∧ (i = XE_FIND_INVALID_INSTANCE ∨ e.engine_instance = i)
    · simp only [xeFindMatchingEngineIn, he, and_self, if_true, List.mem_cons, forall_eq_or_imp]
      simp [he]
    · simp only [xeFindMatchingEngineIn, he, if_false, Option.map_eq_none', ih, List.mem_cons,
        forall_eq_or_imp, not_false_eq_true, true_and]

theorem xeFindMatchingEngineIn_append_cons (c i : Nat)
    (pre post : List DrmXeEngineClassInstance) (e : DrmXeEngineClassInstance)
    (hpre : ∀ x ∈ pre, ¬ (x.engine_class = c ∧
      (i = XE_FIND_INVALID_INSTANCE ∨ x.engine_instance = i)))
    (he : e.engine_class = c ∧ (i = XE_FIND_INVALID_INSTANCE ∨ e.engine_instance = i)) :
    xeFindMatchingEngineIn c i (pre ++ e :: post) = some pre.length := by
  induction pre with
  | nil => simp [xeFindMatchingEngineIn, he]
  | cons x xs ih =>
    have hx := hpre x (by simp)
    have hxs : ∀ y ∈ xs, ¬ (y.engine_class = c ∧
        (i = XE_FIND_INVALID_INSTANCE ∨ y.engine_instance = i)) :=
      fun y hy => hpre y (by simp [hy])
    have hrec := ih hxs
    rw [List.cons_append]
    simp only [xeFindMatchingEngineIn, hx, if_false, hrec]
    rfl

theorem xeFindMatchingEngineIn_some_split (c i k : Nat) (l : List DrmXeEngineClassInstance)
    (h : xeFindMatchingEngineIn c i l = some k) :
    ∃ pre e post, l = pre ++ e :: post ∧ pre.length = k ∧
      (∀ x ∈ pre, ¬ (x.engine_class = c ∧
        (i = XE_FIND_INVALID_INSTANCE ∨ x.engine_instance = i))) ∧
      e.engine_class = c ∧ (i = XE_FIND_INVALID_INSTANCE ∨ e.engine_instance = i) := by
  induction l generalizing k with
  | nil => simp [xeFindMatchingEngineIn] at h
  | cons e es ih =>
    by_cases he : e.engine_class = c ∧ (i = XE_FIND_INVALID_INSTANCE ∨ e.engine_instance = i)
    · simp only [xeFindMatchingEngineIn, he, and_self, if_true, Option.some.injEq] at h
      exact ⟨[], e, es, by simp, by simp [h], by simp, he.1, he.2⟩
    · simp only [xeFindMatchingEngineIn, he, if_false, Option.map_eq_some'] at h
      obtain ⟨j, hj, rfl⟩ := h
      obtain ⟨pre, e', post, hl, hlen, hpre, he'⟩ := ih j hj
      refine ⟨e :: pre, e', post, by simp [hl], by simp [hlen], ?_, he'⟩
      intro x hx
      rcases List.mem_cons.mp hx with rfl | hx
      · exact he
      · exact hpre x hx

theorem getElem?_engines_append_cons (pre post : List DrmXeEngineClassInstance)
    (e : DrmXeEngineClassInstance) : (pre ++ e :: post)[pre.length]? = some e := by
  induction pre with
  | nil => simp
  | cons x xs ih => simpa using ih

theorem firstEngineOfClass_append_cons (c : Nat) (pre post : List DrmXeEngineClassInstance)
    (e : DrmXeEngineClassInstance) (hpre : ∀ x ∈ pre, x.engine_class ≠ c)
    (he : e.engine_class = c) : firstEngineOfClass c (pre ++ e :: post) = some e := by
  induction pre with
  | nil => simp [firstEngineOfClass, he]
  | cons x xs ih =>
    have hx := hpre x (by simp)
    rw [List.cons_append]
    simp only [firstEngineOfClass, hx, if_false]
    exact ih (fun y hy => hpre y (by simp [hy]))

theorem firstEngineOfClass_eq_none (c : Nat) (l : List DrmXeEngineClassInstance)
    (h : ∀ x ∈ l, x.engine_class ≠ c) : firstEngineOfClass c l = none := by
  induction l with
  | nil => rfl
  | cons x xs ih =>
    have hx := h x (by simp)
    simp only [firstEngineOfClass, hx, if_false]
    exact ih (fun y hy => h y (by simp [hy]))

/-- What createDrmContext does once the local vector of engines is known and has at most 9
elements: one context-create request; an error status aborts, success returns the id. -/
theorem createDrmContext_of_engines (drv : Driver) (xe : IoctlHelperXe) (flag : EngineFlag)
    (requestClass drmVmId : Nat) (engine : List DrmXeEngineClassInstance)
    (hflag : createDrmContextRequestClass flag = some requestClass)
    (heng : createDrmContextEngines xe requestClass = some engine) (hlen : engine.length ≤ 9) :
    createDrmContext drv xe flag drmVmId =
      if (drv xe.trace (.gemContextCreateExt
          (DrmXeExecQueueCreate.mk drmVmId 1 engine.length engine))).ret ≠ 0 then
        .unrecoverable
          { xe with trace := xe.trace ++ [.gemContextCreateExt
              (DrmXeExecQueueCreate.mk drmVmId 1 engine.length engine)] }
      else
        .ok (contextIdToInt (drv xe.trace (.gemContextCreateExt
            (DrmXeExecQueueCreate.mk drmVmId 1 engine.length engine))).exec_queue_id)
          { xe with trace := xe.trace ++ [.gemContextCreateExt
              (DrmXeExecQueueCreate.mk drmVmId 1 engine.length engine)] } := by
  have h9 : ¬ engine.length > 9 := Nat.not_lt.mpr hlen
  simp only [createDrmContext, hflag, heng, h9, if_false, IoctlHelper.ioctl]

/-- Without a local vector of engines createDrmContext aborts before any request. -/
theorem createDrmContext_of_no_engines (drv : Driver) (xe : IoctlHelperXe) (flag : EngineFlag)
    (requestClass drmVmId : Nat)
    (hflag : createDrmContextRequestClass flag = some requestClass)
    (heng : createDrmContextEngines xe requestClass = none) :
    createDrmContext drv xe flag drmVmId = .unrecoverable xe := by
  simp only [createDrmContext, hflag, heng]

/-- Without an explicit list the local vector of createDrmContext is the first discovered
engine of the requested class. -/
theorem createDrmContextEngines_implicit (xe : IoctlHelperXe) (requestClass : Nat)
    (pre post : List DrmXeEngineClassInstance) (e : DrmXeEngineClassInstance)
    (hn : xe.contextParamEngine = []) (htab : xe.allEngines = pre ++ e :: post)
    (hpre : ∀ x ∈ pre, x.engine_class ≠ requestClass) (he : e.engine_class = requestClass) :
    createDrmContextEngines xe requestClass = some [e] := by
  have hidx : xeFindMatchingEngine xe requestClass XE_FIND_INVALID_INSTANCE =
      some pre.length := by
    rw [xeFindMatchingEngine, htab]
    exact xeFindMatchingEngineIn_append_cons _ _ pre post e
      (fun x hx h => hpre x hx h.1) ⟨he, Or.inl rfl⟩
  have hget : xe.allEngines[pre.length]? = some e := by
    rw [htab]; exact getElem?_engines_append_cons pre post e
  simp [createDrmContextEngines, hn, hidx, hget]

/-- Without an explicit list and without an engine of the requested class the local vector
cannot be built. -/
theorem createDrmContextEngines_implicit_none (xe : IoctlHelperXe) (requestClass : Nat)
    (hn : xe.contextParamEngine = [])
    (hno : ∀ x ∈ xe.allEngines, x.engine_class ≠ requestClass) :
    createDrmContextEngines xe requestClass = none := by
  have hidx : xeFindMatchingEngine xe requestClass XE_FIND_INVALID_INSTANCE = none := by
    rw [xeFindMatchingEngine, xeFindMatchingEngineIn_eq_none_iff]
    exact fun x hx h => hno x hx h.1
  simp [createDrmContextEngines, hn, hidx]

/-- C16: without an explicit engine list, createDrmContext for the engine flag ExecDefault
(class compute), ExecRender (class render) or ExecBlt (class copy) sends one
context-create request with exactly one placement, the first discovered engine whose class
is the requested one; when no discovered engine has that class it aborts and no request
is sent. -/
theorem C16_implicit_engine_is_first_of_class (drv : Driver) (xe : IoctlHelperXe)
    (flag : EngineFlag) (requestClass drmVmId : Nat)
    (hflag : createDrmContextRequestClass flag = some requestClass)
    (hn : xe.contextParamEngine = []) :
    (∀ pre e post, xe.allEngines = pre ++ e :: post →
      (∀ x ∈ pre, x.engine_class ≠ requestClass) → e.engine_class = requestClass →
      createDrmContext drv xe flag drmVmId =
        if (drv xe.trace (.gemContextCreateExt
            (DrmXeExecQueueCreate.mk drmVmId 1 1 [e]))).ret ≠ 0 then
          .unrecoverable
            { xe with trace := xe.trace ++ [.gemContextCreateExt
                (DrmXeExecQueueCreate.mk drmVmId 1 1 [e])] }
        else
          .ok (contextIdToInt (drv xe.trace (.gemContextCreateExt
              (DrmXeExecQueueCreate.mk drmVmId 1 1 [e]))).exec_queue_id)
            { xe with trace := xe.trace ++ [.gemContextCreateExt
                (DrmXeExecQueueCreate.mk drmVmId 1 1 [e])] }) ∧
    ((∀ x ∈ xe.allEngines, x.engine_class ≠ requestClass) →
      createDrmContext drv xe flag drmVmId = .unrecoverable xe) ∧
    createDrmContextRequestClass .execDefault = some DRM_XE_ENGINE_CLASS_COMPUTE ∧
    createDrmContextRequestClass .execRender = some DRM_XE_ENGINE_CLASS_RENDER ∧
    createDrmContextRequestClass .execBlt = some DRM_XE_ENGINE_CLASS_COPY := by
  refine ⟨?_, ?_, rfl, rfl, rfl⟩
  · intro pre e post htab hpre he
    exact createDrmContext_of_engines drv xe flag requestClass drmVmId [e] hflag
      (createDrmContextEngines_implicit xe requestClass pre post e hn htab hpre he)
      (by simp)
  · intro hno
    exact createDrmContext_of_no_engines drv xe flag requestClass drmVmId hflag
      (createDrmContextEngines_implicit_none xe requestClass hn hno)

/-- Witness of C16: compute requested on the discovered list render 0, compute 0,
compute 1, copy 0; the placement is compute 0. A helper without engines aborts. -/
theorem C16_implicit_engine_is_first_of_class_witness :
    createDrmContext contextDriver helperWithEngines .execDefault 3 =
      .ok 5 { helperWithEngines with
        trace := [.gemContextCreateExt (DrmXeExecQueueCreate.mk 3 1 1
          [DrmXeEngineClassInstance.mk DRM_XE_ENGINE_CLASS_COMPUTE 0 0])] } ∧
    createDrmContext contextDriver freshHelper .execDefault 3 = .unrecoverable freshHelper :=
  ⟨(C16_implicit_engine_is_first_of_class contextDriver helperWithEngines .execDefault
      DRM_XE_ENGINE_CLASS_COMPUTE 3 rfl rfl).1
      [DrmXeEngineClassInstance.mk DRM_XE_ENGINE_CLASS_RENDER 0 0]
      (DrmXeEngineClassInstance.mk DRM_XE_ENGINE_CLASS_COMPUTE 0 0)
      [DrmXeEngineClassInstance.mk DRM_XE_ENGINE_CLASS_COMPUTE 1 0,
        DrmXeEngineClassInstance.mk DRM_XE_ENGINE_CLASS_COPY 0 0]
      rfl (by decide) rfl,
    (C16_implicit_engine_is_first_of_class contextDriver freshHelper .execDefault
      DRM_XE_ENGINE_CLASS_COMPUTE 3 rfl rfl).2.1 (by simp [freshHelper])⟩

/-- C20: when the discovered list contains a compute-class engine, setDefaultEngine returns
and the default engine points at the first element of the list whose class is compute,
whatever its instance number; when the list has no compute-class engine and no default
was set, it aborts. -/
theorem C20_default_engine_is_first_compute (xe : IoctlHelperXe) :
    (∀ pre e post, xe.allEngines = pre ++ e :: post →
      (∀ x ∈ pre, x.engine_class ≠ DRM_XE_ENGINE_CLASS_COMPUTE) →
      e.engine_class = DRM_XE_ENGINE_CLASS_COMPUTE →
      setDefaultEngine xe = some { xe with defaultEngine := some pre.length } ∧
      xe.allEngines[pre.length]? = some e) ∧
    ((∀ x ∈ xe.allEngines, x.engine_class ≠ DRM_XE_ENGINE_CLASS_COMPUTE) →
      xe.defaultEngine = none → setDefaultEngine xe = none) := by
  constructor
  · intro pre e post htab hpre he
    have hfirst : firstEngineOfClass DRM_XE_ENGINE_CLASS_COMPUTE xe.allEngines = some e := by
      rw [htab]; exact firstEngineOfClass_append_cons _ pre post e hpre he
    have hidx : xeFindMatchingEngine xe DRM_XE_ENGINE_CLASS_COMPUTE e.engine_instance =
        some pre.length := by
      rw [xeFindMatchingEngine, htab]
      exact xeFindMatchingEngineIn_append_cons _ _ pre post e
        (fun x hx h => hpre x hx h.1) ⟨he, Or.inr rfl⟩
    refine ⟨?_, by rw [htab]; exact getElem?_engines_append_cons pre post e⟩
    simp [setDefaultEngine, hfirst, hidx]
  · intro hno hdef
    have hfirst : firstEngineOfClass DRM_XE_ENGINE_CLASS_COMPUTE xe.allEngines = none :=
      firstEngineOfClass_eq_none _ _ hno
    simp [setDefaultEngine, hfirst, hdef]

/-- Witness of C20: on the list render 0, compute 0, compute 1, copy 0 the default engine
is element 1, compute 0; a helper without engines aborts. -/
theorem C20_default_engine_is_first_compute_witness :
    setDefaultEngine helperWithEngines = some { helperWithEngines with defaultEngine := some 1 } ∧
    setDefaultEngine freshHelper = none :=
  ⟨((C20_default_engine_is_first_compute helperWithEngines).1
      [DrmXeEngineClassInstance.mk DRM_XE_ENGINE_CLASS_RENDER 0 0]
      (DrmXeEngineClassInstance.mk DRM_XE_ENGINE_CLASS_COMPUTE 0 0)
      [DrmXeEngineClassInstance.mk DRM_XE_ENGINE_CLASS_COMPUTE 1 0,
        DrmXeEngineClassInstance.mk DRM_XE_ENGINE_CLASS_COPY 0 0]
      rfl (by decide) rfl).1,
    (C20_default_engine_is_first_compute freshHelper).2 (by simp [freshHelper]) rfl⟩

/-! ## Explicit engine lists -/

/-- When every entry of an explicit list has a matching discovered engine, the loop of
createDrmContext resolves each entry, in order, to the first engine that matches it. -/
theorem createDrmContextResolve_some (xe : IoctlHelperXe)
    (entries : List DrmXeEngineClassInstance)
    (h : ∀ c ∈ entries, ∃ e ∈ xe.allEngines, e.engine_class = c.engine_class ∧
      (c.engine_instance = XE_FIND_INVALID_INSTANCE ∨ e.engine_instance = c.engine_instance)) :
    ∃ engines, createDrmContextResolve xe entries = some engines ∧
      List.Forall₂ (fun c e => ∃ pre post, xe.allEngines = pre ++ e :: post ∧
        (∀ x ∈ pre, ¬ (x.engine_class = c.engine_class ∧
          (c.engine_instance = XE_FIND_INVALID_INSTANCE ∨
            x.engine_instance = c.engine_instance))) ∧
        e.engine_class = c.engine_class ∧
        (c.engine_instance = XE_FIND_INVALID_INSTANCE ∨
          e.engine_instance = c.engine_instance)) entries engines := by
  induction entries with
  | nil => exact ⟨[], rfl, List.Forall₂.nil⟩
  | cons c cs ih =>
    obtain ⟨engines, hres, hrel⟩ := ih (fun d hd => h d (by simp [hd]))
    obtain ⟨e0, he0, hm0⟩ := h c (by simp)
    rcases hidx : xeFindMatchingEngine xe c.engine_class c.engine_instance with _ | k
    · rw [xeFindMatchingEngine, xeFindMatchingEngineIn_eq_none_iff] at hidx
      exact absurd hm0 (hidx e0 he0)
    · rw [xeFindMatchingEngine] at hidx
      obtain ⟨pre, e, post, htab, hlen, hpre, hcls, hinst⟩ :=
        xeFindMatchingEngineIn_some_split _ _ _ _ hidx
      have hget : xe.allEngines[k]? = some e := by
        rw [htab, ← hlen]; exact getElem?_engines_append_cons pre post e
      refine ⟨e :: engines, ?_, List.Forall₂.cons ⟨pre, post, htab, hpre, hcls, hinst⟩ hrel⟩
      simp [createDrmContextResolve, xeFindMatchingEngine, hidx, hget, hres]

/-- When some entry of an explicit list has no matching discovered engine, the loop of
createDrmContext reaches its UNRECOVERABLE_IF. -/
theorem createDrmContextResolve_none (xe : IoctlHelperXe)
    (entries : List DrmXeEngineClassInstance) (c : DrmXeEngineClassInstance)
    (hc : c ∈ entries)
    (hno : ∀ e ∈ xe.allEngines, ¬ (e.engine_class = c.engine_class ∧
      (c.engine_instance = XE_FIND_INVALID_INSTANCE ∨ e.engine_instance = c.engine_instance))) :
    createDrmContextResolve xe entries = none := by
  induction entries with
  | nil => simp at hc
  | cons d ds ih =>
    rcases List.mem_cons.mp hc with rfl | hc'
    · have hidx : xeFindMatchingEngine xe c.engine_class c.engine_instance = none := by
        rw [xeFindMatchingEngine, xeFindMatchingEngineIn_eq_none_iff]; exact hno
      simp [createDrmContextResolve, hidx]
    · simp only [createDrmContextResolve]
      split
      · rfl
      · split
        · rfl
        · rw [ih hc']; rfl

theorem createDrmContextResolve_length (xe : IoctlHelperXe)
    (entries engines : List DrmXeEngineClassInstance)
    (h : createDrmContextResolve xe entries = some engines) :
    engines.length = entries.length := by
  induction entries generalizing engines with
  | nil => simp [createDrmContextResolve] at h; simp [← h]
  | cons d ds ih =>
    simp only [createDrmContextResolve] at h
    split at h
    · simp at h
    · split at h
      · simp at h
      · rcases hr : createDrmContextResolve xe ds with _ | rest
        · simp [hr] at h
        · simp [hr] at h
          rw [← h]
          simp [ih rest hr]

theorem createDrmContextEngines_explicit (xe : IoctlHelperXe) (requestClass : Nat)
    (hne : xe.contextParamEngine ≠ []) :
    createDrmContextEngines xe requestClass =
      createDrmContextResolve xe xe.contextParamEngine := by
  have : xe.contextParamEngine.length ≠ 0 := by
    simpa [List.length_eq_zero] using hne
  simp [createDrmContextEngines, this]

/-- The local vector of createDrmContext is never empty. -/
theorem createDrmContextEngines_length_pos (xe : IoctlHelperXe) (requestClass : Nat)
    (engine : List DrmXeEngineClassInstance)
    (h : createDrmContextEngines xe requestClass = some engine) : 1 ≤ engine.length := by
  by_cases hne : xe.contextParamEngine = []
  · simp only [createDrmContextEngines, hne, List.length_nil, if_true] at h
    split at h
    · simp at h
    · rename_i i _
      rcases hg : xe.allEngines[i]? with _ | e
      · simp [hg] at h
      · simp [hg] at h
        simp [← h]
  · rw [createDrmContextEngines_explicit xe requestClass hne] at h
    rw [createDrmContextResolve_length xe _ engine h]
    exact Nat.pos_of_ne_zero (by simpa [List.length_eq_zero] using hne)

/-- C17, as stated, fails: the explicit list holds (compute, 16); the discovered engines are
render 0, compute 0, compute 1, copy 0, none with instance 16; the entry is resolved to
compute 0 and the context-create request is sent with that placement. -/
theorem C17_instance_sixteen_matches_any_instance :
    createDrmContext contextDriver helperSentinelList .execDefault 3 =
      .ok 5 { helperSentinelList with
        trace := [.gemContextCreateExt (DrmXeExecQueueCreate.mk 3 1 1
          [DrmXeEngineClassInstance.mk DRM_XE_ENGINE_CLASS_COMPUTE 0 0])] } := by
  decide

/-- C17, amended: when an explicit list of at most 9 entries is supplied and every entry
has a matching discovered engine, createDrmContext sends one context-create request whose
placements are, in list order, the first discovered engine matching each entry: an engine
of exactly the entry's class and, unless the entry's instance is 16
(XE_FIND_INVALID_INSTANCE), of exactly the entry's instance; an entry with instance 16 is
treated as unpinned and matches any instance of its class. -/
theorem C17_explicit_entries_resolved_in_order (drv : Driver) (xe : IoctlHelperXe)
    (flag : EngineFlag) (requestClass drmVmId : Nat)
    (hflag : createDrmContextRequestClass flag = some requestClass)
    (hne : xe.contextParamEngine ≠ []) (hlen : xe.contextParamEngine.length ≤ 9)
    (hall : ∀ c ∈ xe.contextParamEngine, ∃ e ∈ xe.allEngines,
      e.engine_class = c.engine_class ∧
      (c.engine_instance = XE_FIND_INVALID_INSTANCE ∨
        e.engine_instance = c.engine_instance)) :
    ∃ engines,
      List.Forall₂ (fun c e => ∃ pre post, xe.allEngines = pre ++ e :: post ∧
        (∀ x ∈ pre, ¬ (x.engine_class = c.engine_class ∧
          (c.engine_instance = XE_FIND_INVALID_INSTANCE ∨
            x.engine_instance = c.engine_instance))) ∧
        e.engine_class = c.engine_class ∧
        (c.engine_instance = XE_FIND_INVALID_INSTANCE ∨
          e.engine_instance = c.engine_instance)) xe.contextParamEngine engines ∧
      createDrmContext drv xe flag drmVmId =
        if (drv xe.trace (.gemContextCreateExt
            (DrmXeExecQueueCreate.mk drmVmId 1 engines.length engines))).ret ≠ 0 then
          .unrecoverable
            { xe with trace := xe.trace ++ [.gemContextCreateExt
                (DrmXeExecQueueCreate.mk drmVmId 1 engines.length engines)] }
        else
          .ok (contextIdToInt (drv xe.trace (.gemContextCreateExt
              (DrmXeExecQueueCreate.mk drmVmId 1 engines.length engines))).exec_queue_id)
            { xe with trace := xe.trace ++ [.gemContextCreateExt
                (DrmXeExecQueueCreate.mk drmVmId 1 engines.length engines)] } := by
  obtain ⟨engines, hres, hrel⟩ := createDrmContextResolve_some xe xe.contextParamEngine hall
  refine ⟨engines, hrel, ?_⟩
  apply createDrmContext_of_engines drv xe flag requestClass drmVmId engines hflag
  · rw [createDrmContextEngines_explicit xe requestClass hne]; exact hres
  · rw [createDrmContextResolve_length xe _ engines hres]; exact hlen

/-- Witness of C17: the explicit list (compute, 1), (copy, 0) on the discovered list
render 0, compute 0, compute 1, copy 0. -/
theorem C17_explicit_entries_resolved_in_order_witness :
    ∃ engines,
      List.Forall₂ (fun c e => ∃ pre post, helperPinnedList.allEngines = pre ++ e :: post ∧
        (∀ x ∈ pre, ¬ (x.engine_class = c.engine_class ∧
          (c.engine_instance = XE_FIND_INVALID_INSTANCE ∨
            x.engine_instance = c.engine_instance))) ∧
        e.engine_class = c.engine_class ∧
        (c.engine_instance = XE_FIND_INVALID_INSTANCE ∨
          e.engine_instance = c.engine_instance)) helperPinnedList.contextParamEngine engines ∧
      createDrmContext contextDriver helperPinnedList .execDefault 3 =
        if (contextDriver helperPinnedList.trace (.gemContextCreateExt
            (DrmXeExecQueueCreate.mk 3 1 engines.length engines))).ret ≠ 0 then
          .unrecoverable
            { helperPinnedList with trace := helperPinnedList.trace ++ [.gemContextCreateExt
                (DrmXeExecQueueCreate.mk 3 1 engines.length engines)] }
        else
          .ok (contextIdToInt (contextDriver helperPinnedList.trace (.gemContextCreateExt
              (DrmXeExecQueueCreate.mk 3 1 engines.length engines))).exec_queue_id)
            { helperPinnedList with trace := helperPinnedList.trace ++ [.gemContextCreateExt
                (DrmXeExecQueueCreate.mk 3 1 engines.length engines)] } :=
  C17_explicit_entries_resolved_in_order contextDriver helperPinnedList .execDefault
    DRM_XE_ENGINE_CLASS_COMPUTE 3 rfl (by decide) (by decide) (by decide)

/-- C18, as stated, fails: the only discovered engine is compute 0 and the explicit list
holds (compute, 16), a pair absent from discovery; context creation does not fail, it
sends a context-create request with placement compute 0 and returns the new id. -/
theorem C18_absent_pair_with_instance_sixteen_is_accepted :
    (∀ e ∈ helperLoneCompute.allEngines,
      ¬ (e.engine_class = DRM_XE_ENGINE_CLASS_COMPUTE ∧ e.engine_instance = 16)) ∧
    createDrmContext contextDriver helperLoneCompute .execDefault 3 =
      .ok 5 { helperLoneCompute with
        trace := [.gemContextCreateExt (DrmXeExecQueueCreate.mk 3 1 1
          [DrmXeEngineClassInstance.mk DRM_XE_ENGINE_CLASS_COMPUTE 0 0])] } := by
  decide

/-- C18, amended: for every discovered engine set and every explicit engine list that
contains an entry without a matching discovered engine, that is, no discovered engine of
the entry's class, or, for an entry whose instance is not 16, no discovered engine with
the entry's class and instance, createDrmContext aborts and no context-create request is
sent. -/
theorem C18_unmatched_entry_aborts (drv : Driver) (xe : IoctlHelperXe) (flag : EngineFlag)
    (drmVmId : Nat) (c : DrmXeEngineClassInstance) (hc : c ∈ xe.contextParamEngine)
    (hno : ∀ e ∈ xe.allEngines, ¬ (e.engine_class = c.engine_class ∧
      (c.engine_instance = XE_FIND_INVALID_INSTANCE ∨
        e.engine_instance = c.engine_instance))) :
    createDrmContext drv xe flag drmVmId = .unrecoverable xe := by
  rcases hflag : createDrmContextRequestClass flag with _ | requestClass
  · simp only [createDrmContext, hflag]
  · apply createDrmContext_of_no_engines drv xe flag requestClass drmVmId hflag
    have hne : xe.contextParamEngine ≠ [] := List.ne_nil_of_mem hc
    rw [createDrmContextEngines_explicit xe requestClass hne]
    exact createDrmContextResolve_none xe _ c hc hno

/-- Witness of C18: the explicit list (compute, 7) on the discovered list render 0,
compute 0, compute 1, copy 0. -/
theorem C18_unmatched_entry_aborts_witness :
    createDrmContext contextDriver helperMissingEngine .execDefault 3 =
      .unrecoverable helperMissingEngine :=
  C18_unmatched_entry_aborts contextDriver helperMissingEngine .execDefault 3
    (DrmXeEngineClassInstance.mk DRM_XE_ENGINE_CLASS_COMPUTE 7 0) (by decide) (by decide)

/-! ## The placement limit -/

/-- For a well-formed argument (8 bytes of header, 4 bytes per entry, size fitting the
32-bit field) the item count of the set-parameter request is the number of entries. -/
theorem contextParamEngineItems_wellFormed (n : Nat) (hn : 8 + 4 * n < 2 ^ 32) :
    contextParamEngineItems (8 + 4 * n) = (n : Int) := by
  have h32 : (2 : Nat) ^ 32 = 4294967296 := by norm_num
  have h64 : (2 : Nat) ^ 64 = 18446744073709551616 := by norm_num
  have h31 : (2 : Nat) ^ 31 = 2147483648 := by norm_num
  rw [h32] at hn
  have hq : ((8 + 4 * n) % 2 ^ 32 + 2 ^ 64 - 8) % 2 ^ 64 / 4 % 2 ^ 32 = n := by
    rw [h32, h64]; omega
  have hlt : n < 2 ^ 31 := by rw [h31]; omega
  simp only [contextParamEngineItems, hq, hlt, if_true]
  rfl

/-- The engines set-parameter request on a well-formed argument. -/
theorem ioctlGemContextSetparamEngines_wellFormed (xe : IoctlHelperXe)
    (engines : List (Nat × Nat)) (hn : 8 + 4 * engines.length < 2 ^ 32) :
    (engines.length ≤ 10 →
      (ioctlGemContextSetparamEngines xe (8 + 4 * engines.length) engines).2.contextParamEngine =
        (engines.filter (fun e => e.1 ≠ 65535)).map
          (fun e => DrmXeEngineClassInstance.mk e.1 e.2 0)) ∧
    (11 ≤ engines.length →
      ioctlGemContextSetparamEngines xe (8 + 4 * engines.length) engines =
        (-1, { xe with contextParamEngine := [] })) := by
  have hitems := contextParamEngineItems_wellFormed engines.length hn
  constructor
  · intro hle
    have hlt : ((engines.length : Nat) : Int) < 11 := by omega
    simp [ioctlGemContextSetparamEngines, hitems, hlt]
  · intro hge
    have hlt : ¬ ((engines.length : Nat) : Int) < 11 := by omega
    simp [ioctlGemContextSetparamEngines, hitems, hlt]

/-- C19, as stated, fails: the engines set-parameter request with an explicit list of ten
(compute, 0) entries returns 0 and stores all ten; the following context creation then
aborts without sending a request. -/
theorem C19_ten_entries_are_accepted :
    (ioctlGemContextSetparamEngines helperWithEngines 48 tenComputeEntries).1 = 0 ∧
    (ioctlGemContextSetparamEngines helperWithEngines 48
      tenComputeEntries).2.contextParamEngine.length = 10 ∧
    createDrmContext contextDriver
        (ioctlGemContextSetparamEngines helperWithEngines 48 tenComputeEntries).2
        .execDefault 3 =
      .unrecoverable (ioctlGemContextSetparamEngines helperWithEngines 48 tenComputeEntries).2 := by
  decide

/-- C19, amended: createDrmContext aborts before any request when more than 9 engines were
resolved; whatever its outcome, it has sent nothing or exactly one context-create request,
with width 1 and a number of placements between 1 and 9 equal to the number of resolved
engines. The engines set-parameter request, on a well-formed argument, stores the entries
(without those of class 65535) of a list of up to 10 entries, returning 0 when at least
one is stored, and stores nothing and returns -1 for a list of 11 or more entries. -/
theorem C19_placement_limit (drv : Driver) (xe : IoctlHelperXe) (flag : EngineFlag)
    (drmVmId : Nat) (entries : List (Nat × Nat)) (hsize : 8 + 4 * entries.length < 2 ^ 32) :
    (∀ requestClass engine, createDrmContextRequestClass flag = some requestClass →
      createDrmContextEngines xe requestClass = some engine → 9 < engine.length →
      createDrmContext drv xe flag drmVmId = .unrecoverable xe) ∧
    ((createDrmContext drv xe flag drmVmId).helper.trace = xe.trace ∨
      ∃ create, (createDrmContext drv xe flag drmVmId).helper.trace =
          xe.trace ++ [.gemContextCreateExt create] ∧
        create.width = 1 ∧ 1 ≤ create.num_placements ∧ create.num_placements ≤ 9 ∧
        create.num_placements = create.instances.length ∧
        ∃ requestClass, createDrmContextRequestClass flag = some requestClass ∧
          createDrmContextEngines xe requestClass = some create.instances) ∧
    (entries.length ≤ 10 →
      (ioctlGemContextSetparamEngines xe (8 + 4 * entries.length) entries).2.contextParamEngine =
        (entries.filter (fun e => e.1 ≠ 65535)).map
          (fun e => DrmXeEngineClassInstance.mk e.1 e.2 0)) ∧
    (11 ≤ entries.length →
      ioctlGemContextSetparamEngines xe (8 + 4 * entries.length) entries =
        (-1, { xe with contextParamEngine := [] })) ∧
    ((ioctlGemContextSetparamEngines xe (8 + 4 * entries.length) entries).1 = 0 ↔
      (ioctlGemContextSetparamEngines xe (8 + 4 * entries.length)
        entries).2.contextParamEngine ≠ []) := by
  refine ⟨?_, ?_, (ioctlGemContextSetparamEngines_wellFormed xe entries hsize).1,
    (ioctlGemContextSetparamEngines_wellFormed xe entries hsize).2, ?_⟩
  · intro requestClass engine hflag heng hlen
    simp only [createDrmContext, hflag, heng, gt_iff_lt, hlen, if_true]
  · rcases hflag : createDrmContextRequestClass flag with _ | requestClass
    · left; simp only [createDrmContext, hflag, Outcome.helper]
    · rcases heng : createDrmContextEngines xe requestClass with _ | engine
      · left
        rw [createDrmContext_of_no_engines drv xe flag requestClass drmVmId hflag heng]
        rfl
      · by_cases hlen : engine.length ≤ 9
        · right
          refine ⟨DrmXeExecQueueCreate.mk drmVmId 1 engine.length engine, ?_, rfl,
            createDrmContextEngines_length_pos xe requestClass engine heng, hlen, rfl,
            requestClass, rfl, heng⟩
          rw [createDrmContext_of_engines drv xe flag requestClass drmVmId engine hflag heng hlen]
          split <;> rfl
        · left
          have h9 : engine.length > 9 := Nat.lt_of_not_le hlen
          simp only [createDrmContext, hflag, heng, h9, if_true, Outcome.helper]
  · simp only [ioctlGemContextSetparamEngines]
    split
    · rename_i h
      simp [h]
    · rename_i h
      simp at h
      simp [h]

/-- Witness of C19: a well-formed list of eleven (compute, 0) entries is rejected by the
set-parameter request. -/
theorem C19_placement_limit_witness :
    ioctlGemContextSetparamEngines helperWithEngines
        (8 + 4 * ((DRM_XE_ENGINE_CLASS_COMPUTE, 0) :: tenComputeEntries).length)
        ((DRM_XE_ENGINE_CLASS_COMPUTE, 0) :: tenComputeEntries) =
      (-1, { helperWithEngines with contextParamEngine := [] }) :=
  (C19_placement_limit contextDriver helperWithEngines .execDefault 3
    ((DRM_XE_ENGINE_CLASS_COMPUTE, 0) :: tenComputeEntries) (by decide)).2.2.2.1 (by decide)

/-! ## Status of a rejected request, execute, registration -/

/-- The request createGem sends and the record it appends do not depend on the status of
the request; the value returned is the handle of the reply. -/
theorem createGem_of_flags (ri : Nat → Nat) (drv : Driver) (xe : IoctlHelperXe)
    (size memoryBanks flags : Nat) (hflags : createGemFlags ri memoryBanks = some flags) :
    createGem ri drv xe size memoryBanks =
      some ((drv xe.trace (.gemCreate (DrmXeGemCreate.mk size flags 0))).handle,
        { xe with
          bindInfo := xe.bindInfo ++
            [BindInfo.mk (drv xe.trace (.gemCreate (DrmXeGemCreate.mk size flags 0))).handle
              0 0 size]
          trace := xe.trace ++ [.gemCreate (DrmXeGemCreate.mk size flags 0)] }) := by
  simp only [createGem, hflags, IoctlHelper.ioctl, updateBindInfo]

/-- With a non-null object pointer execBuffer sends one execute request and returns its
status. -/
theorem execBuffer_of_object (drv : Driver) (xe : IoctlHelperXe) (d : DrmI915GemExecbuffer2)
    (obj : DrmI915GemExecObject2) (completionGpuAddress counterValue : Nat)
    (hobj : d.buffers_ptr = some obj) :
    execBuffer drv xe (some d) completionGpuAddress counterValue =
      ((drv xe.trace (.gemExecbuffer2
          (DrmXeExec.mk (d.rsvd1 % 2 ^ 32) 1
            [DrmXeSync.mk [.userFence, .signal] completionGpuAddress counterValue]
            ((obj.offset + d.batch_start_offset) % 2 ^ 64) 1))).ret,
        { xe with
          trace := xe.trace ++ [.gemExecbuffer2
            (DrmXeExec.mk (d.rsvd1 % 2 ^ 32) 1
              [DrmXeSync.mk [.userFence, .signal] completionGpuAddress counterValue]
              ((obj.offset + d.batch_start_offset) % 2 ^ 64) 1)] }) := by
  simp only [execBuffer, hobj, IoctlHelper.ioctl]

/-- C21, as stated, fails for two of the four operations. With a kernel that answers every
request with status -1, createGem returns handle 0 and appends a record, reporting no
failure; createDrmContext ends in the unrecoverable abort after its request. -/
theorem C21_rejected_create_is_not_reported :
    rejectingDriver [] (.gemCreate (DrmXeGemCreate.mk 4096 2 0)) =
      DrmReply.mk (-1) 0 0 ∧
    createGem exampleRegionInstance rejectingDriver freshHelper 4096 1 =
      some (0, { freshHelper with
        bindInfo := [BindInfo.mk 0 0 0 4096]
        trace := [.gemCreate (DrmXeGemCreate.mk 4096 2 0)] }) ∧
    createDrmContext rejectingDriver helperWithEngines .execDefault 1 =
      .unrecoverable { helperWithEngines with
        trace := [.gemContextCreateExt
          (DrmXeExecQueueCreate.mk 1 1 1 [DrmXeEngineClassInstance.mk 4 0 0])] } := by
  refine ⟨rfl, rfl, rfl⟩

/-- C21 (amended): whatever the kernel answers, bind returns a non-zero (in particular a
negative) status of its request unchanged, execBuffer and createGemExt return the status of
their request unchanged; createGem sends its request, returns the handle of the reply and
appends the record without reporting the status; createDrmContext ends in the unrecoverable
abort, after the request, when the status of its request is not zero. -/
theorem C21_driver_status_by_operation (dec ri : Nat → Nat) (drv : Driver)
    (xe : IoctlHelperXe) (p : VmBindParams) (ext : UserFenceExtension)
    (pre post : List BindInfo) (b : BindInfo) (d : DrmI915GemExecbuffer2)
    (obj : DrmI915GemExecObject2)
    (completionGpuAddress counterValue size memoryBanks flags extFlags : Nat)
    (regions : List (Nat × Nat)) (vmId : Option Nat) (flag : EngineFlag)
    (requestClass drmVmId : Nat) (engine : List DrmXeEngineClassInstance)
    (hext : p.extensions = some ext) (htag : ext.tag = UserFenceExtension.tagValue)
    (htab : xe.bindInfo = pre ++ b :: post) (hpre : ∀ x ∈ pre, x.handle ≠ p.handle)
    (hb : b.handle = p.handle) (hobj : d.buffers_ptr = some obj)
    (hflags : createGemFlags ri memoryBanks = some flags)
    (hregions : regions ≠ []) (hextFlags : createGemExtFlags regions 0 = some extFlags)
    (hflag : createDrmContextRequestClass flag = some requestClass)
    (heng : createDrmContextEngines xe requestClass = some engine)
    (hlen : engine.length ≤ 9) :
    ((drv xe.trace (.gemVmBind (xeVmBindRequest dec p ext b true))).ret ≠ 0 →
      (vmBind dec drv xe p).map (fun r => r.1) =
        some (drv xe.trace (.gemVmBind (xeVmBindRequest dec p ext b true))).ret) ∧
    (execBuffer drv xe (some d) completionGpuAddress counterValue).1 =
      (drv xe.trace (.gemExecbuffer2
        (DrmXeExec.mk (d.rsvd1 % 2 ^ 32) 1
          [DrmXeSync.mk [.userFence, .signal] completionGpuAddress counterValue]
          ((obj.offset + d.batch_start_offset) % 2 ^ 64) 1))).ret ∧
    (createGemExt drv xe regions size vmId).map (fun r => r.1) =
      some (drv xe.trace (.gemCreate (DrmXeGemCreate.mk size extFlags (vmId.getD 0)))).ret ∧
    createGem ri drv xe size memoryBanks =
      some ((drv xe.trace (.gemCreate (DrmXeGemCreate.mk size flags 0))).handle,
        { xe with
          bindInfo := xe.bindInfo ++
            [BindInfo.mk (drv xe.trace (.gemCreate (DrmXeGemCreate.mk size flags 0))).handle
              0 0 size]
          trace := xe.trace ++ [.gemCreate (DrmXeGemCreate.mk size flags 0)] }) ∧
    ((drv xe.trace (.gemContextCreateExt
        (DrmXeExecQueueCreate.mk drmVmId 1 engine.length engine))).ret ≠ 0 →
      createDrmContext drv xe flag drmVmId =
        .unrecoverable
          { xe with trace := xe.trace ++ [.gemContextCreateExt
              (DrmXeExecQueueCreate.mk drmVmId 1 engine.length engine)] }) := by
  refine ⟨?_, ?_, ?_, createGem_of_flags ri drv xe size memoryBanks flags hflags, ?_⟩
  · intro hret
    rw [vmBind_first_record dec drv xe p ext pre post b hext htag htab hpre hb]
    simp only [hret, ne_eq, not_false_eq_true, if_true, Option.map_some']
  · rw [execBuffer_of_object drv xe d obj completionGpuAddress counterValue hobj]
  · have hlen0 : ¬ regions.length = 0 := by
      intro h; exact hregions (List.length_eq_zero.mp h)
    simp only [createGemExt, hlen0, if_false, hextFlags, IoctlHelper.ioctl, Option.map_some']
  · intro hret
    rw [createDrmContext_of_engines drv xe flag requestClass drmVmId engine hflag heng hlen]
    simp only [hret, ne_eq, not_false_eq_true, if_true]

/-- Witness of C21: the kernel that answers -1 to everything, on a helper with one
registered user pointer and the example engines. -/
theorem C21_driver_status_by_operation_witness :
    (vmBind decanonize48 rejectingDriver
        { helperAfterRegister with allEngines := exampleEngines }
        (exampleParams 0x800000 0x1000)).map (fun r => r.1) = some (-1) ∧
    (execBuffer rejectingDriver { helperAfterRegister with allEngines := exampleEngines }
        (some (DrmI915GemExecbuffer2.mk (some (DrmI915GemExecObject2.mk 0x2000)) 0x40 5))
        0x1000 1).1 = -1 ∧
    (createGemExt rejectingDriver { helperAfterRegister with allEngines := exampleEngines }
        [(1, 1)] 4096 none).map (fun r => r.1) = some (-1) ∧
    (createGem exampleRegionInstance rejectingDriver
        { helperAfterRegister with allEngines := exampleEngines } 4096 1).map
          (fun r => r.1) = some 0 ∧
    createDrmContext rejectingDriver { helperAfterRegister with allEngines := exampleEngines }
        .execDefault 1 =
      .unrecoverable
        { helperAfterRegister with
          allEngines := exampleEngines
          trace := helperAfterRegister.trace ++ [.gemContextCreateExt
            (DrmXeExecQueueCreate.mk 1 1 1 [DrmXeEngineClassInstance.mk 4 0 0])] } :=
  have h := C21_driver_status_by_operation decanonize48 exampleRegionInstance rejectingDriver
    { helperAfterRegister with allEngines := exampleEngines } (exampleParams 0x800000 0x1000)
    exampleFence [] [] exampleUserptrRecord
    (DrmI915GemExecbuffer2.mk (some (DrmI915GemExecObject2.mk 0x2000)) 0x40 5)
    (DrmI915GemExecObject2.mk 0x2000) 0x1000 1 4096 1 2 2 [(1, 1)] none .execDefault 4 1
    [DrmXeEngineClassInstance.mk 4 0 0] rfl rfl rfl (by simp) rfl rfl rfl (by simp) rfl rfl
    rfl (by decide)
  ⟨h.1 (by decide), h.2.1, h.2.2.1, by rw [h.2.2.2.1]; rfl, h.2.2.2.2 (by decide)⟩

/-- C22, as stated, fails: with a non-null buffer descriptor whose object pointer
buffers_ptr is null, execBuffer sends no request and returns 0, also with a kernel that
would answer -1. -/
theorem C22_null_object_pointer_sends_nothing :
    execBuffer rejectingDriver freshHelper (some (DrmI915GemExecbuffer2.mk none 0x40 5))
      0x1000 1 = (0, freshHelper) ∧
    freshHelper.trace = [] := by
  exact ⟨rfl, rfl⟩

/-- C22 (amended): for a non-null buffer descriptor with a non-null object pointer,
execBuffer sends exactly one request, an execute request whose queue id is the low 32 bits
of rsvd1, with one sync entry of kind user-fence signal carrying (completionGpuAddress,
counterValue) and one batch buffer at the first object's offset plus the batch start offset
in 64-bit arithmetic, and returns the status of that request; no fence wait is sent. With a
null object pointer, or a null descriptor, it sends nothing and returns 0. -/
theorem C22_execBuffer_request (drv : Driver) (xe : IoctlHelperXe)
    (d : DrmI915GemExecbuffer2) (completionGpuAddress counterValue : Nat) :
    (∀ obj, d.buffers_ptr = some obj →
      ∃ exec, execBuffer drv xe (some d) completionGpuAddress counterValue =
          ((drv xe.trace (.gemExecbuffer2 exec)).ret,
            { xe with trace := xe.trace ++ [.gemExecbuffer2 exec] }) ∧
        exec.exec_queue_id = d.rsvd1 % 2 ^ 32 ∧
        (d.rsvd1 < 2 ^ 32 → exec.exec_queue_id = d.rsvd1) ∧
        exec.num_syncs = 1 ∧
        exec.syncs = [DrmXeSync.mk [.userFence, .signal] completionGpuAddress counterValue] ∧
        exec.num_batch_buffer = 1 ∧
        exec.address = (obj.offset + d.batch_start_offset) % 2 ^ 64 ∧
        (obj.offset + d.batch_start_offset < 2 ^ 64 →
          exec.address = obj.offset + d.batch_start_offset)) ∧
    (d.buffers_ptr = none →
      execBuffer drv xe (some d) completionGpuAddress counterValue = (0, xe)) ∧
    execBuffer drv xe none completionGpuAddress counterValue = (0, xe) := by
  refine ⟨?_, ?_, rfl⟩
  · intro obj hobj
    refine ⟨_, execBuffer_of_object drv xe d obj completionGpuAddress counterValue hobj,
      rfl, ?_, rfl, rfl, rfl, rfl, ?_⟩
    · intro h; exact Nat.mod_eq_of_lt h
    · intro h; exact Nat.mod_eq_of_lt h
  · intro hnone
    simp only [execBuffer, hnone]

/-- Witness of C22: a submission on queue 5 with the batch 0x40 bytes into the object at
0x2000, completion value 1 at 0x1000, answered with -1. -/
theorem C22_execBuffer_request_witness :
    ∃ exec, execBuffer rejectingDriver freshHelper
        (some (DrmI915GemExecbuffer2.mk (some (DrmI915GemExecObject2.mk 0x2000)) 0x40 5))
        0x1000 1 =
        ((rejectingDriver freshHelper.trace (.gemExecbuffer2 exec)).ret,
          { freshHelper with trace := freshHelper.trace ++ [.gemExecbuffer2 exec] }) ∧
      exec.exec_queue_id = 5 ∧ exec.num_syncs = 1 ∧
      exec.syncs = [DrmXeSync.mk [.userFence, .signal] 0x1000 1] ∧
      exec.num_batch_buffer = 1 ∧ exec.address = 0x2040 :=
  match (C22_execBuffer_request rejectingDriver freshHelper
    (DrmI915GemExecbuffer2.mk (some (DrmI915GemExecObject2.mk 0x2000)) 0x40 5) 0x1000 1).1
    (DrmI915GemExecObject2.mk 0x2000) rfl with
  | ⟨exec, h, _, hq, hn, hs, hb, _, ha⟩ =>
    ⟨exec, h, hq (by decide), hn, hs, hb, ha (by decide)⟩

/-- C23: the GemUserptr request sends nothing to the kernel channel, returns 0, yields a
handle with the bit 0x800000 set, and appends exactly one record (that handle, the user
pointer given, address 0, the size given) behind the existing records, which stay as they
are. -/
theorem C23_userptr_registration (xe : IoctlHelperXe) (userPtr userSize : Nat) :
    ∃ handle, ioctlGemUserptr xe userPtr userSize =
        (0, handle,
          { xe with
            userPtrHandle := (xe.userPtrHandle + 1) % 2 ^ 32
            bindInfo := xe.bindInfo ++ [BindInfo.mk handle userPtr 0 userSize] }) ∧
      handle &&& XE_USERPTR_FAKE_FLAG = XE_USERPTR_FAKE_FLAG ∧
      handle = (xe.userPtrHandle ||| XE_USERPTR_FAKE_FLAG) % 2 ^ 32 ∧
      (ioctlGemUserptr xe userPtr userSize).2.2.trace = xe.trace ∧
      (ioctlGemUserptr xe userPtr userSize).2.2.bindInfo =
        xe.bindInfo ++ [BindInfo.mk handle userPtr 0 userSize] :=
  ⟨(xe.userPtrHandle ||| XE_USERPTR_FAKE_FLAG) % 2 ^ 32, rfl, fakeFlag_set xe.userPtrHandle,
    rfl, rfl, rfl⟩

/-! ## The bank-scanning loop of createGem -/

/-- The loop of createGem sets the region bits of the banks its iterations resolve: its
result is that of the control flow followed by the calls of set, in order. -/
theorem createGemScan_eq_bankLoop (ri : Nat → Nat) (banks : Nat) :
    ∀ fuel currentBank i memoryInstances,
      createGemScan ri banks fuel currentBank i memoryInstances =
        (createGemBankLoop banks fuel currentBank i).bind
          (fun log => createGemSetRegions ri (resolvedBanks log) memoryInstances) := by
  intro fuel
  induction fuel with
  | zero =>
    intro currentBank i m
    unfold createGemScan createGemBankLoop
    by_cases hi : i < bitset4Count banks
    · simp [hi]
    · simp [hi, resolvedBanks, createGemSetRegions]
  | succ fuel ih =>
    intro currentBank i m
    unfold createGemScan createGemBankLoop
    by_cases hi : i < bitset4Count banks
    · by_cases hc : currentBank < 4
      · by_cases hb : banks.testBit currentBank = true
        · simp only [hi, hc, hb, if_true]
          cases hl : createGemBankLoop banks fuel (currentBank + 1) (i + 1) with
          | none =>
            cases hs : bitset32Set m (ri (1 <<< currentBank)) with
            | none => simp
            | some m1 => simp [ih, hl]
          | some log =>
            cases hs : bitset32Set m (ri (1 <<< currentBank)) with
            | none => simp [resolvedBanks, createGemSetRegions, hs]
            | some m1 => simp [ih, hl, resolvedBanks, createGemSetRegions, hs]
        · simp only [hi, hc, hb, if_true, if_false]
          cases hl : createGemBankLoop banks fuel (currentBank + 1) i with
          | none => simp [ih, hl]
          | some log => simp [ih, hl, resolvedBanks]
      · simp [hi, hc]
    · simp [hi, resolvedBanks, createGemSetRegions]

/-- For each of the sixteen values of the std::bitset<4>, the loop ends within four
iterations, tests bank indices 0, 1, 2, ... below 4 only, reaches bank index k with i equal
to the number of set bits below k, and resolves exactly the set bits. -/
theorem createGemBankLoop_low_four (b : Nat) (hb : b < 16) :
    ∃ log, createGemBankLoop b 4 0 0 = some log ∧ createGemBankLoop b 5 0 0 = some log ∧
      log.length ≤ 4 ∧ log.map (fun s => s.currentBank) = List.range log.length ∧
      (∀ s ∈ log, s.currentBank < 4 ∧
        s.i = ((List.range s.currentBank).filter (fun k => b.testBit k)).length ∧
        s.resolved = b.testBit s.currentBank) ∧
      resolvedBanks log = (List.range 4).filter (fun k => b.testBit k) ∧
      (log = [] ↔ b = 0) := by
  interval_cases b <;> exact ⟨_, rfl, rfl, by decide, by decide, by decide, by decide, by decide⟩

/-- The low four bits of a mask are the bits of its std::bitset<4>. -/
theorem testBit_mod_sixteen (memoryBanks k : Nat) (hk : k < 4) :
    (memoryBanks % 16).testBit k = memoryBanks.testBit k := by
  have h := Nat.testBit_mod_two_pow memoryBanks 4 k
  simp only [hk, decide_True, Bool.true_and] at h
  exact h

/-- The set bits among the first n bank indices, n at most 4, read from the std::bitset<4>
or from the mask. -/
theorem filter_low_bits (memoryBanks n : Nat) (hn : n ≤ 4) :
    (List.range n).filter (fun k => (memoryBanks % 16).testBit k) =
      (List.range n).filter (fun k => memoryBanks.testBit k) := by
  apply List.filter_congr
  intro k hk
  exact testBit_mod_sixteen memoryBanks k (Nat.lt_of_lt_of_le (List.mem_range.mp hk) hn)

/-- A table whose size in bytes is below 2^31 has that size as its int32_t size. -/
theorem queryDataSize_of_lt (words : Nat) (h : words * 4 < 2 ^ 31) :
    queryDataSize words = ((words * 4 : Nat) : Int) := by
  have h32 : words * 4 < 2 ^ 32 := by
    have : (2 : Nat) ^ 31 < 2 ^ 32 := by norm_num
    omega
  simp only [queryDataSize, Nat.mod_eq_of_lt h32, h, if_true, Int.ofNat_eq_coe]

/-- The query with length 0 stores the int32_t size of the table in the item. -/
theorem xeGetQuery_length_zero (xe : IoctlHelperXe) (flags : Nat) (memory : List Nat) :
    xeGetQuery xe 1 (QueryItem.mk .hwconfigTable 0 flags memory) =
      some (0, QueryItem.mk .hwconfigTable (queryDataSize xe.hwconfigFakei915.length)
        flags memory) := by
  simp only [xeGetQuery, if_true]

/-- C25, as stated, fails for a stored table of 2^29 words: its size in bytes, 2^31, is
not a value of the 32-bit signed length field, and the query with length 0 sets the length
to -2^31. -/
theorem C25_large_table_length_is_negative :
    xeGetQuery { freshHelper with hwconfigFakei915 := List.replicate (2 ^ 29) 0 } 1
        (QueryItem.mk .hwconfigTable 0 0 []) =
      some (0, QueryItem.mk .hwconfigTable (-2147483648) 0 []) ∧
    (List.replicate (2 ^ 29) 0).length * 4 = 2147483648 := by
  constructor
  · rw [xeGetQuery_length_zero]
    show some ((0 : Int), QueryItem.mk .hwconfigTable
      (queryDataSize (List.replicate (2 ^ 29) 0).length) 0 []) = _
    rw [List.length_replicate]
    rfl
  · rw [List.length_replicate]
    norm_num

/-- C25 (amended): for every stored table whose size in bytes is below 2^31, a single-item
query for the hardware-config table with length 0 returns 0, leaves the memory at dataPtr as
it is and sets the length to 4 x the number of words; the query repeated with that length
and a buffer returns 0 and leaves the stored table in the buffer (all of a buffer of
exactly that length). A query with a number of items other than 1, or with another query
id, returns -1 and changes nothing. -/
theorem C25_query_round_trip (xe : IoctlHelperXe) (numItems flags : Nat) (length : Int)
    (memory buffer : List Nat) (item : QueryItem)
    (hsize : xe.hwconfigFakei915.length * 4 < 2 ^ 31) :
    xeGetQuery xe 1 (QueryItem.mk .hwconfigTable 0 flags memory) =
      some (0, QueryItem.mk .hwconfigTable (((xe.hwconfigFakei915.length * 4 : Nat) : Int))
        flags memory) ∧
    xeGetQuery xe 1 (QueryItem.mk .hwconfigTable
        (((xe.hwconfigFakei915.length * 4 : Nat) : Int)) flags buffer) =
      some (0, QueryItem.mk .hwconfigTable (((xe.hwconfigFakei915.length * 4 : Nat) : Int))
        flags (xe.hwconfigFakei915 ++ buffer.drop xe.hwconfigFakei915.length)) ∧
    (buffer.length = xe.hwconfigFakei915.length →
      xe.hwconfigFakei915 ++ buffer.drop xe.hwconfigFakei915.length = xe.hwconfigFakei915) ∧
    (numItems ≠ 1 → xeGetQuery xe numItems item = some (-1, item)) ∧
    xeGetQuery xe numItems (QueryItem.mk .other length flags memory) =
      some (-1, QueryItem.mk .other length flags memory) := by
  have hq := queryDataSize_of_lt xe.hwconfigFakei915.length hsize
  refine ⟨?_, ?_, ?_, ?_, ?_⟩
  · rw [xeGetQuery_length_zero, hq]
  · by_cases h0 : xe.hwconfigFakei915.length = 0
    · have hnil : xe.hwconfigFakei915 = [] := List.length_eq_zero.mp h0
      have hq0 : queryDataSize 0 = 0 := by decide
      simp [xeGetQuery, hnil, hq0]
    · have hne : ¬ ((xe.hwconfigFakei915.length * 4 : Nat) : Int) = 0 := by omega
      have hnn : ¬ ((xe.hwconfigFakei915.length * 4 : Nat) : Int) < 0 := by omega
      have hw : (((xe.hwconfigFakei915.length * 4 : Nat) : Int)).toNat / 4 =
          xe.hwconfigFakei915.length := by
        rw [Int.toNat_ofNat]
        omega
      simp only [xeGetQuery, if_true, hq, hne, if_false, ne_eq, not_true_eq_false, hnn, hw,
        List.take_length]
  · intro hlen
    rw [List.drop_of_length_le (Nat.le_of_eq hlen), List.append_nil]
  · intro hn
    simp only [xeGetQuery, hn, if_false]
  · by_cases hn : numItems = 1
    · simp only [xeGetQuery, hn, if_true]
    · simp only [xeGetQuery, hn, if_false]

/-- Witness of C25: a table of three words and a buffer of three words. -/
theorem C25_query_round_trip_witness :
    xeGetQuery { freshHelper with hwconfigFakei915 := [1, 2, 3] } 1
        (QueryItem.mk .hwconfigTable 0 0 [0, 0, 0]) =
      some (0, QueryItem.mk .hwconfigTable 12 0 [0, 0, 0]) ∧
    xeGetQuery { freshHelper with hwconfigFakei915 := [1, 2, 3] } 1
        (QueryItem.mk .hwconfigTable 12 0 [0, 0, 0]) =
      some (0, QueryItem.mk .hwconfigTable 12 0 [1, 2, 3]) ∧
    xeGetQuery { freshHelper with hwconfigFakei915 := [1, 2, 3] } 2
        (QueryItem.mk .hwconfigTable 0 0 [0, 0, 0]) =
      some (-1, QueryItem.mk .hwconfigTable 0 0 [0, 0, 0]) :=
  have h := C25_query_round_trip { freshHelper with hwconfigFakei915 := [1, 2, 3] } 2 0 0
    [0, 0, 0] [0, 0, 0] (QueryItem.mk .hwconfigTable 0 0 [0, 0, 0]) (by decide)
  ⟨h.1, h.2.1, h.2.2.2.1 (by decide)⟩

/-- C26: the context-destroy request for the sentinel 0xffffffff returns 0 and sends
nothing, so any number of such requests leaves the helper as it is; for every other
contextId it sends exactly one destroy request carrying that id and returns the status of
that request. -/
theorem C26_context_destroy (drv : Driver) (xe : IoctlHelperXe) (contextId n : Nat) :
    ioctlGemContextDestroy drv xe 0xffffffff = (0, xe) ∧
    Nat.iterate (fun s => (ioctlGemContextDestroy drv s 0xffffffff).2) n xe = xe ∧
    (contextId ≠ 0xffffffff →
      ioctlGemContextDestroy drv xe contextId =
        ((drv xe.trace (.gemContextDestroy contextId)).ret,
          { xe with trace := xe.trace ++ [.gemContextDestroy contextId] })) := by
  refine ⟨rfl, ?_, ?_⟩
  · induction n with
    | zero => rfl
    | succ n ih => rw [Function.iterate_succ_apply]; exact ih
  · intro h
    simp only [ioctlGemContextDestroy, h, ne_eq, not_false_eq_true, if_true, IoctlHelper.ioctl]

/-- Witness of C26: context 3 with a kernel that answers -1, and the sentinel three times. -/
theorem C26_context_destroy_witness :
    ioctlGemContextDestroy rejectingDriver freshHelper 3 =
      (-1, { freshHelper with trace := [.gemContextDestroy 3] }) ∧
    Nat.iterate (fun s => (ioctlGemContextDestroy rejectingDriver s 0xffffffff).2) 3
      freshHelper = freshHelper :=
  ⟨(C26_context_destroy rejectingDriver freshHelper 3 3).2.2 (by decide),
    (C26_context_destroy rejectingDriver freshHelper 3 3).2.1⟩

/-! ## The table mutex -/

/-- C27: the insert of updateBindInfo is made with the mutex held; xeVmBind never takes the
mutex, so its search and its address update are made without it, and its fence wait is made
without it; the search of the GemClose case is made before the mutex is taken, only the
erase is made with it held. The claim that every mutation and the lookup before it are made
with the mutex held does not hold of xeVmBind nor of the GemClose case. -/
theorem C27_lookups_outside_the_mutex :
    tableAccessesLocked false updateBindInfoEvents = true ∧
    (∀ found accepted, TableEvent.lock ∉ xeVmBindEvents found accepted) ∧
    (∀ found accepted, tableAccessesLocked false (xeVmBindEvents found accepted) = false) ∧
    (∀ found accepted, fenceWaitsUnlocked false (xeVmBindEvents found accepted) = true) ∧
    (∀ found userptr, tableAccessesLocked false (ioctlGemCloseEvents found userptr) = false) ∧
    (∀ userptr, ioctlGemCloseEvents true userptr =
      TableEvent.lookup :: TableEvent.lock :: TableEvent.mutate :: TableEvent.unlock ::
        (if userptr then [] else [TableEvent.request])) := by
  decide

/-! ## The item-parsing loop of the topology query -/

/-- On a buffer made of complete items followed by fewer than 8 bytes, the loop started at
the first item with the size of the buffer from there on ends within one iteration per item,
and every item it reads has its header and mask bytes within the size that remains. -/
theorem topologyItemLoop_complete_items (numBytesAt : Nat → Nat) (unhandled : Nat → Bool) :
    ∀ (items : List Nat) (offset tail : Nat), tail < sizeofTopologyMask →
      items.sum + sizeofTopologyMask * items.length + tail < 2 ^ 64 →
      (∀ pre n post, items = pre ++ n :: post →
        numBytesAt (offset + pre.sum + sizeofTopologyMask * pre.length) = n ∧
          sizeofTopologyMask + n < 2 ^ 32) →
      ∃ r log, topologyItemLoop numBytesAt unhandled items.length
          (TopologyCursor.mk (items.sum + sizeofTopologyMask * items.length + tail) offset) =
            some (r, log) ∧
        log.length ≤ items.length ∧
        ∀ e ∈ log, sizeofTopologyMask + e.num_bytes ≤ e.topologySize ∧
          e.offset + e.topologySize =
            offset + (items.sum + sizeofTopologyMask * items.length + tail) := by
  intro items
  induction items with
  | nil =>
    intro offset tail htail _ _
    refine ⟨true, [], ?_, Nat.le_refl _, ?_⟩
    · have h : ¬ sizeofTopologyMask ≤ tail := Nat.not_le.mpr htail
      simp [topologyItemLoop, h]
    · intro e he
      cases he
  | cons n rest ih =>
    intro offset tail htail hsize hitems
    have h8 : sizeofTopologyMask = 8 := rfl
    have hhead := hitems [] n rest rfl
    simp only [List.sum_nil, List.length_nil, Nat.mul_zero, Nat.add_zero] at hhead
    obtain ⟨hn, hn32⟩ := hhead
    simp only [List.sum_cons, List.length_cons] at hsize ⊢
    have hcond : sizeofTopologyMask ≤
        n + rest.sum + sizeofTopologyMask * (rest.length + 1) + tail := by
      rw [h8]; omega
    by_cases hu : unhandled offset = true
    · refine ⟨false, [TopologyItemRead.mk
        (n + rest.sum + sizeofTopologyMask * (rest.length + 1) + tail) offset n], ?_, ?_, ?_⟩
      · simp only [topologyItemLoop, hcond, if_true, hu, hn]
      · simp
      · intro e he
        rw [List.mem_singleton] at he
        subst he
        refine ⟨?_, rfl⟩
        dsimp only
        simp only [h8] at *
        omega
    · have hstep : topologyItemStep numBytesAt
          (TopologyCursor.mk (n + rest.sum + sizeofTopologyMask * (rest.length + 1) + tail)
            offset) =
          TopologyCursor.mk (rest.sum + sizeofTopologyMask * rest.length + tail)
            (offset + (sizeofTopologyMask + n)) := by
        simp only [topologyItemStep, hn, Nat.mod_eq_of_lt hn32]
        have hlt : n + rest.sum + sizeofTopologyMask * (rest.length + 1) + tail + 2 ^ 64 -
            (sizeofTopologyMask + n) = rest.sum + sizeofTopologyMask * rest.length + tail +
              2 ^ 64 := by
          rw [h8]; omega
        rw [hlt, Nat.add_mod_right, Nat.mod_eq_of_lt]
        rw [h8] at hsize ⊢; omega
      have hrest : ∀ pre m post, rest = pre ++ m :: post →
          numBytesAt (offset + (sizeofTopologyMask + n) + pre.sum +
            sizeofTopologyMask * pre.length) = m ∧ sizeofTopologyMask + m < 2 ^ 32 := by
        intro pre m post hsplit
        have h := hitems (n :: pre) m post (by rw [hsplit]; rfl)
        simp only [List.sum_cons, List.length_cons] at h
        have harg : offset + (n + pre.sum) + sizeofTopologyMask * (pre.length + 1) =
            offset + (sizeofTopologyMask + n) + pre.sum + sizeofTopologyMask * pre.length := by
          rw [h8]; omega
        rw [harg] at h
        exact h
      have hsize2 : rest.sum + sizeofTopologyMask * rest.length + tail < 2 ^ 64 := by
        rw [h8] at hsize ⊢; omega
      obtain ⟨r, log, hloop, hlen, hlog⟩ :=
        ih (offset + (sizeofTopologyMask + n)) tail htail hsize2 hrest
      refine ⟨r, TopologyItemRead.mk
        (n + rest.sum + sizeofTopologyMask * (rest.length + 1) + tail) offset n :: log,
        ?_, ?_, ?_⟩
      · simp only [topologyItemLoop, hcond, if_true, hu, hstep, hloop, Option.map_some', hn]
        rfl
      · simp only [List.length_cons]; omega
      · intro e he
        rcases List.mem_cons.mp he with he | he
        · subst he
          refine ⟨?_, rfl⟩
          dsimp only
          simp only [h8] at *
          omega
        · obtain ⟨h1, h2⟩ := hlog e he
          refine ⟨h1, ?_⟩
          rw [h2, h8]; omega

/-- C28, as stated, fails. On a buffer of 8 bytes whose header says num_bytes = 1 the item
is 9 bytes long: after it the unsigned counter is 2^64 - 1, the loop goes on, and the next
header is read 9 bytes into the 8-byte buffer. And on a buffer of 8 bytes whose header, of
an item the switch skips, says num_bytes = 2^32 - 8, the 32-bit item size is 0, the cursor
does not move, and the loop does not end. -/
theorem C28_incomplete_item_wraps_counter :
    topologyItemStep (fun _ => 1) (TopologyCursor.mk 8 0) =
      TopologyCursor.mk 18446744073709551615 9 ∧
    sizeofTopologyMask ≤ 18446744073709551615 ∧
    topologyItemStep (fun _ => 4294967288) (TopologyCursor.mk 8 0) = TopologyCursor.mk 8 0 ∧
    ¬ ∃ fuel r, topologyItemLoop (fun _ => 4294967288) (fun _ => false) fuel
      (TopologyCursor.mk 8 0) = some r := by
  refine ⟨by decide, by decide, by decide, ?_⟩
  rintro ⟨fuel, r, h⟩
  have hstep : topologyItemStep (fun _ => 4294967288) (TopologyCursor.mk 8 0) =
      TopologyCursor.mk 8 0 := by decide
  induction fuel generalizing r with
  | zero => simp [topologyItemLoop, sizeofTopologyMask] at h
  | succ fuel ih =>
    simp only [topologyItemLoop, hstep] at h
    cases hl : topologyItemLoop (fun _ => 4294967288) (fun _ => false) fuel
        (TopologyCursor.mk 8 0) with
    | none => simp [hl, sizeofTopologyMask] at h
    | some q => exact ih q hl

/-- C28 (amended): on every topology query buffer below 2^64 bytes that consists of
complete items, each with header size + num_bytes below 2^32, followed by fewer than 8
bytes, the item-parsing loop ends within one iteration per item, every item it reads
(header plus num_bytes mask bytes) lies entirely inside the buffer, and the remaining-size
counter is never decreased by more than it holds. -/
theorem C28_complete_items_stay_inside (numBytesAt : Nat → Nat) (unhandled : Nat → Bool)
    (items : List Nat) (tail : Nat) (htail : tail < sizeofTopologyMask)
    (hsize : items.sum + sizeofTopologyMask * items.length + tail < 2 ^ 64)
    (hitems : ∀ pre n post, items = pre ++ n :: post →
      numBytesAt (pre.sum + sizeofTopologyMask * pre.length) = n ∧
        sizeofTopologyMask + n < 2 ^ 32) :
    ∃ r log, topologyItemLoop numBytesAt unhandled items.length
        (TopologyCursor.mk (items.sum + sizeofTopologyMask * items.length + tail) 0) =
          some (r, log) ∧
      log.length ≤ items.length ∧
      ∀ e ∈ log, sizeofTopologyMask + e.num_bytes ≤ e.topologySize ∧
        e.offset + sizeofTopologyMask + e.num_bytes ≤
          items.sum + sizeofTopologyMask * items.length + tail := by
  have hitems0 : ∀ pre n post, items = pre ++ n :: post →
      numBytesAt (0 + pre.sum + sizeofTopologyMask * pre.length) = n ∧
        sizeofTopologyMask + n < 2 ^ 32 := by
    intro pre n post h
    rw [Nat.zero_add]
    exact hitems pre n post h
  obtain ⟨r, log, hloop, hlen, hlog⟩ :=
    topologyItemLoop_complete_items numBytesAt unhandled items 0 tail htail hsize hitems0
  refine ⟨r, log, hloop, hlen, ?_⟩
  intro e he
  obtain ⟨h1, h2⟩ := hlog e he
  refine ⟨h1, ?_⟩
  omega

/-- Witness of C28: a buffer of 27 bytes holding an item of 8 mask bytes, an item without
mask bytes and 3 more bytes. -/
theorem C28_complete_items_stay_inside_witness :
    ∃ r log, topologyItemLoop exampleNumBytesAt (fun _ => false) 2
        (TopologyCursor.mk 27 0) = some (r, log) ∧
      log.length ≤ 2 ∧
      ∀ e ∈ log, sizeofTopologyMask + e.num_bytes ≤ e.topologySize ∧
        e.offset + sizeofTopologyMask + e.num_bytes ≤ 27 :=
  C28_complete_items_stay_inside exampleNumBytesAt (fun _ => false) [8, 0] 3 (by decide)
    (by decide)
    (by
      intro pre n post h
      rcases pre with _ | ⟨a, _ | ⟨b, pre⟩⟩
      · simp only [List.nil_append, List.cons.injEq] at h
        obtain ⟨rfl, _⟩ := h
        decide
      · simp only [List.cons_append, List.nil_append, List.cons.injEq] at h
        obtain ⟨rfl, rfl, _⟩ := h
        decide
      · simp at h)

/-- C29: for every memoryBanks, the bank-scanning loop of createGem on the std::bitset<4>
of the mask ends within 4 iterations; its iterations test the bank indices 0, 1, 2, ... in
turn, each below 4; when it tests bank index k, the count i of banks handled equals the
number of set bits among the low k bits of the mask; it resolves a region for exactly the
set bits among the low four, once each, in increasing order. The loop of createGem that
also sets the region bits is this loop followed by one call of set per resolved bank. -/
theorem C29_bank_scan_terminates (memoryBanks : Nat) :
    ∃ log, createGemBankLoop (memoryBanks % 16) 4 0 0 = some log ∧
      log.length ≤ 4 ∧
      log.map (fun s => s.currentBank) = List.range log.length ∧
      (∀ s ∈ log, s.currentBank < 4 ∧
        s.i = ((List.range s.currentBank).filter (fun k => memoryBanks.testBit k)).length ∧
        s.resolved = memoryBanks.testBit s.currentBank) ∧
      resolvedBanks log = (List.range 4).filter (fun k => memoryBanks.testBit k) ∧
      (∀ ri memoryInstances,
        createGemScan ri (memoryBanks % 16) 4 0 0 memoryInstances =
          createGemSetRegions ri (resolvedBanks log) memoryInstances ∧
        createGemScan ri (memoryBanks % 16) 5 0 0 memoryInstances =
          createGemSetRegions ri (resolvedBanks log) memoryInstances) := by
  obtain ⟨log, h4, h5, hlen, hidx, hsteps, hres, _⟩ :=
    createGemBankLoop_low_four (memoryBanks % 16) (Nat.mod_lt _ (by decide))
  refine ⟨log, h4, hlen, hidx, ?_, ?_, ?_⟩
  · intro s hs
    obtain ⟨hlt, hi, hr⟩ := hsteps s hs
    refine ⟨hlt, ?_, ?_⟩
    · rw [hi, filter_low_bits memoryBanks s.currentBank (Nat.le_of_lt hlt)]
    · rw [hr, testBit_mod_sixteen memoryBanks s.currentBank hlt]
  · rw [hres, filter_low_bits memoryBanks 4 (Nat.le_refl 4)]
  · intro ri m
    constructor
    · rw [createGemScan_eq_bankLoop, h4, Option.some_bind]
    · rw [createGemScan_eq_bankLoop, h5, Option.some_bind]

/-! ## Handles of successive user-pointer registrations -/

/-- The k-th of a run of GemUserptr requests returns the counter it finds, or-ed with the
flag, in 32 bits; the counter it finds is the initial one plus k, in 32 bits. -/
theorem registerUserptrs_getElem? :
    ∀ (reqs : List (Nat × Nat)) (xe : IoctlHelperXe) (k : Nat), k < reqs.length →
      (registerUserptrs xe reqs).1[k]? =
        some ((((xe.userPtrHandle + k) % 2 ^ 32) ||| XE_USERPTR_FAKE_FLAG) % 2 ^ 32) := by
  intro reqs
  induction reqs with
  | nil => intro xe k hk; exact absurd hk (Nat.not_lt_zero _)
  | cons r rest ih =>
    intro xe k hk
    obtain ⟨userPtr, userSize⟩ := r
    cases k with
    | zero =>
      simp only [registerUserptrs, ioctlGemUserptr, List.getElem?_cons_zero, Nat.add_zero]
      congr 1
      apply Nat.eq_of_testBit_eq
      intro i
      simp only [Nat.testBit_mod_two_pow, Nat.testBit_or]
      by_cases hi : i < 32
      · simp [hi]
      · simp [hi]
    | succ k =>
      have hk2 : k < rest.length := Nat.lt_of_succ_lt_succ hk
      simp only [registerUserptrs, List.getElem?_cons_succ]
      rw [ih _ k hk2]
      simp only [ioctlGemUserptr, updateBindInfo]
      congr 3
      omega

/-- The number of handles returned is the number of requests. -/
theorem registerUserptrs_length :
    ∀ (reqs : List (Nat × Nat)) (xe : IoctlHelperXe),
      (registerUserptrs xe reqs).1.length = reqs.length := by
  intro reqs
  induction reqs with
  | nil => intro xe; rfl
  | cons r rest ih =>
    intro xe
    obtain ⟨userPtr, userSize⟩ := r
    simp only [registerUserptrs, List.length_cons, ih]

/-- The handles of the records appended by a run of GemUserptr requests are the handles
returned. -/
theorem registerUserptrs_bindInfo :
    ∀ (reqs : List (Nat × Nat)) (xe : IoctlHelperXe),
      (registerUserptrs xe reqs).2.bindInfo.map (fun b => b.handle) =
        xe.bindInfo.map (fun b => b.handle) ++ (registerUserptrs xe reqs).1 := by
  intro reqs
  induction reqs with
  | nil => intro xe; simp [registerUserptrs]
  | cons r rest ih =>
    intro xe
    obtain ⟨userPtr, userSize⟩ := r
    simp only [registerUserptrs]
    rw [ih]
    simp [ioctlGemUserptr, updateBindInfo]

/-- Below 2^23 the flag is added, not merged: the handle of counter k is k + 2^23. -/
theorem fakeFlag_or_of_lt (k : Nat) (hk : k < 2 ^ 23) :
    ((k % 2 ^ 32) ||| XE_USERPTR_FAKE_FLAG) % 2 ^ 32 = 2 ^ 23 + k := by
  have h32 : k < 2 ^ 32 := Nat.lt_trans hk (by norm_num)
  have hor : 2 ^ 23 * 1 + k = 2 ^ 23 * 1 ||| k := Nat.mul_add_lt_is_or hk 1
  rw [Nat.mul_one] at hor
  rw [Nat.mod_eq_of_lt h32, fakeFlag_eq_two_pow, Nat.lor_comm, ← hor, Nat.mod_eq_of_lt]
  have : (2 : Nat) ^ 23 + 2 ^ 23 < 2 ^ 32 := by norm_num
  omega

/-- From a fresh helper, the first 2^23 registrations return the handles 2^23, 2^23 + 1,
and so on. -/
theorem registerUserptrs_fresh_handles (reqs : List (Nat × Nat))
    (hlen : reqs.length ≤ 2 ^ 23) :
    (registerUserptrs freshHelper reqs).1 =
      (List.range reqs.length).map (fun k => 2 ^ 23 + k) := by
  apply List.ext_getElem?
  intro k
  by_cases hk : k < reqs.length
  · rw [registerUserptrs_getElem? reqs freshHelper k hk, List.getElem?_map,
      List.getElem?_range hk, Option.map_some']
    have h0 : freshHelper.userPtrHandle + k = k := Nat.zero_add k
    rw [h0, fakeFlag_or_of_lt k (Nat.lt_of_lt_of_le hk hlen)]
  · have h1 : (registerUserptrs freshHelper reqs).1.length ≤ k := by
      rw [registerUserptrs_length]; exact Nat.le_of_not_lt hk
    have h2 : ((List.range reqs.length).map (fun k => 2 ^ 23 + k)).length ≤ k := by
      rw [List.length_map, List.length_range]; exact Nat.le_of_not_lt hk
    rw [List.getElem?_eq_none h1, List.getElem?_eq_none h2]

/-- C30, as stated, fails: in a run of 2^23 + 1 registrations from a fresh helper, the
first and the last return the same handle 0x800000, the counter 0x800000 or-ed with the
flag being the flag itself. -/
theorem C30_first_and_8388609th_handle_coincide :
    (registerUserptrs freshHelper (List.replicate 8388609 (0, 0))).1[0]? = some 0x800000 ∧
    (registerUserptrs freshHelper (List.replicate 8388609 (0, 0))).1[8388608]? =
      some 0x800000 := by
  have hlen : (List.replicate 8388609 ((0 : Nat), (0 : Nat))).length = 8388609 :=
    List.length_replicate _ _
  constructor
  · rw [registerUserptrs_getElem? _ freshHelper 0 (by rw [hlen]; norm_num)]
    rfl
  · rw [registerUserptrs_getElem? _ freshHelper 8388608 (by rw [hlen]; norm_num)]
    rfl

/-- C30 (amended): for every sequence of at most 2^23 user-pointer registrations starting
from a fresh helper, the handles returned are pairwise distinct, the k-th (from 0) being
k | 0x800000 = 0x800000 + k, and they are the handles of the records of the table, so no
two records share a handle. -/
theorem C30_first_handles_distinct (reqs : List (Nat × Nat))
    (hlen : reqs.length ≤ 2 ^ 23) :
    (registerUserptrs freshHelper reqs).1.Nodup ∧
    (registerUserptrs freshHelper reqs).1 =
      (List.range reqs.length).map (fun k => XE_USERPTR_FAKE_FLAG + k) ∧
    (registerUserptrs freshHelper reqs).2.bindInfo.map (fun b => b.handle) =
      (registerUserptrs freshHelper reqs).1 ∧
    ((registerUserptrs freshHelper reqs).2.bindInfo.map (fun b => b.handle)).Nodup := by
  have hh := registerUserptrs_fresh_handles reqs hlen
  have hnodup : (registerUserptrs freshHelper reqs).1.Nodup := by
    rw [hh]
    apply List.Nodup.map _ (List.nodup_range _)
    intro a b hab
    exact Nat.add_left_cancel hab
  have hb : (registerUserptrs freshHelper reqs).2.bindInfo.map (fun b => b.handle) =
      (registerUserptrs freshHelper reqs).1 := by
    rw [registerUserptrs_bindInfo]
    rfl
  refine ⟨hnodup, ?_, hb, ?_⟩
  · rw [hh, fakeFlag_eq_two_pow]
  · rw [hb]; exact hnodup

/-- Witness of C30: three registrations. -/
theorem C30_first_handles_distinct_witness :
    (registerUserptrs freshHelper [(0x1000, 16), (0x2000, 16), (0x1000, 16)]).1.Nodup ∧
    (registerUserptrs freshHelper [(0x1000, 16), (0x2000, 16), (0x1000, 16)]).1 =
      [0x800000, 0x800001, 0x800002] :=
  ⟨(C30_first_handles_distinct [(0x1000, 16), (0x2000, 16), (0x1000, 16)] (by norm_num)).1,
    (C30_first_handles_distinct [(0x1000, 16), (0x2000, 16), (0x1000, 16)]
      (by norm_num)).2.1⟩

end NEO
